import Mathlib

/-!
# sim-hl7: the clinical document generation engine

A shallow embedding of `src/hl7_generator/HL7MessageGenerator.cpp`, of the
records it consumes (`models/Patient.h`, `models/Study.h`,
`config_manager/ConfigManager.h`) and of the menu loop of `src/main.cpp`.

Conventions of the embedding

* A `std::string` is a Lean `String`; one `Char` stands for one `char`.
* pugixml takes its text as a C string.  The fields of a `Patient` and of a
  `Study` are byte strings of a given length and may hold NUL characters, so
  every value derived from them is written through `c_str`, which ends at the
  first NUL.  The strings of an `AppConfig`, the timestamp and the document
  id are built from C strings or from digits and hold no NUL; `c_str()` is
  the identity on them and is not written out, and likewise where the source
  applies it to a value that has already been cut.
* `std::string::substr` throws `std::out_of_range` when its start position
  lies beyond the end of the string, so `substr` returns an `Option` and the
  section builders that call it return an `Option` as well.
* The pugixml tree is a value of type `XmlNode`; a builder that appends to a
  parent node takes the parent and returns the updated parent.  A node handle
  into the document is the path of names that leads to the node.
* The builders take `effectiveTime` and `documentIdExt` as arguments.  What
  the clock, the random generator, the pugixml writer, the Xerces parser and
  the file system yield is given by an `Environment`; the effects of the
  program on them are recorded in a `World` that the effectful functions take
  and return.
* `src/main.cpp` is embedded as far as its menu loop goes: one pass of the
  loop body is a function of the line read, of what the selection dialogue
  stores in its output parameters, and of the state before the pass.
-/

namespace SimHL7

/-! ## `std::string` operations -/

/-- Position of the first occurrence of `c` in a character list, if any. -/
def findChar (c : Char) : List Char → Option Nat
  | [] => none
  | x :: xs => if x = c then some 0 else (findChar c xs).map (· + 1)

/-- Embeds `std::string::find(char)`: `none` stands for `std::string::npos`. -/
def find (s : String) (c : Char) : Option Nat :=
  findChar c s.data

/-- Embeds `std::string::substr(pos, count)`: fails (`std::out_of_range`) when
`pos > size()`, otherwise the at most `count` characters starting at `pos`. -/
def substr (s : String) (pos count : Nat) : Option String :=
  if pos > s.length then none else some ⟨(s.data.drop pos).take count⟩

/-- Embeds `std::string::substr(pos)`: fails (`std::out_of_range`) when
`pos > size()`, otherwise everything from `pos` to the end. -/
def substrFrom (s : String) (pos : Nat) : Option String :=
  if pos > s.length then none else some ⟨s.data.drop pos⟩

/-- Embeds the reading of a `std::string` through `c_str()`: the characters
before its first NUL character. -/
def c_str (s : String) : String :=
  ⟨s.data.takeWhile (fun c => c ≠ '\x00')⟩

/-! ## Records -/

/-- The `struct Patient` of `models/Patient.h`. -/
structure Patient where
  patientID : String := ""
  name : String := ""
  dateOfBirth : String := ""
  sex : String := ""
  addressStreet : String := ""
  addressCity : String := ""
  addressState : String := ""
  addressZip : String := ""
  addressCountry : String := ""
  phoneNumber : String := ""
  deriving DecidableEq, Repr

/-- The `struct Study` of `models/Study.h`. -/
structure Study where
  studyInstanceUID : String := ""
  patientId : String := ""
  accessionNumber : String := ""
  studyDate : String := ""
  studyTime : String := ""
  modality : String := ""
  studyDescription : String := ""
  referringPhysicianName : String := ""
  performingPhysicianName : String := ""
  deriving DecidableEq, Repr

/-- The `struct OidConfig` of `config_manager/ConfigManager.h`. -/
structure OidConfig where
  assigningAuthority : String := ""
  oid : String := ""
  description : String := ""
  deriving DecidableEq, Repr

/-- The `struct CodeConfig` of `config_manager/ConfigManager.h`. -/
structure CodeConfig where
  code : String := ""
  codeSystem : String := ""
  codeSystemName : String := ""
  displayName : String := ""
  deriving DecidableEq, Repr

/-- The `struct TemplateIdConfig` of `config_manager/ConfigManager.h`. -/
structure TemplateIdConfig where
  root : String := ""
  extension : String := ""
  deriving DecidableEq, Repr

/-- The `struct AppConfig` of `config_manager/ConfigManager.h`. -/
structure AppConfig where
  odbcDsn : String := ""
  dbUser : String := ""
  dbPassword : String := ""
  outputPath : String := ""
  defaultSendingApplication : String := ""
  defaultSendingFacility : String := ""
  defaultReceivingApplication : String := ""
  defaultReceivingFacility : String := ""
  defaultSecurityText : String := ""
  defaultLanguageCode : String := ""
  defaultRealmCode : String := ""
  defaultTitle : String := ""
  defaultConfidentialityCode : String := ""
  defaultConfidentialityCodeSystem : String := ""
  defaultConfidentialityDisplayName : String := ""
  organizationName : String := ""
  organizationIdRoot : String := ""
  organizationTelecom : String := ""
  organizationAddrStreet : String := ""
  organizationAddrCity : String := ""
  organizationAddrState : String := ""
  organizationAddrZip : String := ""
  organizationAddrCountry : String := ""
  patientIdRootOid : String := ""
  documentIdRootOid : String := ""
  setIdRootOid : String := ""
  templateIdRootOid : String := ""
  LoincSystemOid : String := ""
  cdaXsdPath : String := ""
  realmCode : String := ""
  typeIdRoot : String := ""
  typeIdExtension : String := ""
  templateIds : List TemplateIdConfig := []
  documentCode : CodeConfig := {}
  documentTitle : String := ""
  confidentialityCode : CodeConfig := {}
  languageCode : String := ""
  genderCodeSystem : String := ""
  authorIdRootOid : String := ""
  authorIdExtension : String := ""
  authorDeviceManufacturer : String := ""
  authorDeviceSoftwareName : String := ""
  custodianOrgIdRootOid : String := ""
  custodianOrgIdExtension : String := ""
  custodianOrgName : String := ""
  sendingFacility : String := ""
  encounterIdRootOid : String := ""
  encounterTypeCode : CodeConfig := {}
  locationFacilityIdRootOid : String := ""
  locationFacilityIdExtension : String := ""
  locationFacilityName : String := ""
  reportSectionCode : CodeConfig := {}
  organizationOid : String := ""
  customOids : List OidConfig := []
  deriving DecidableEq, Repr

/-! ## The pugixml tree -/

/-- A node of the pugixml tree: its name, its attributes in insertion order,
the value of its text (PCDATA) child when `text().set` created one, and its
child elements in insertion order. -/
inductive XmlNode where
  | mk (name : String) (attributes : List (String × String)) (text : Option String)
      (children : List XmlNode)

namespace XmlNode

/-- The name of a node, `xml_node::name()`. -/
def name : XmlNode → String
  | mk n _ _ _ => n

/-- The attributes of a node, as (name, value) pairs in insertion order. -/
def attributes : XmlNode → List (String × String)
  | mk _ a _ _ => a

/-- The text of a node, `xml_node::text().get()`, when a text child exists. -/
def text : XmlNode → Option String
  | mk _ _ t _ => t

/-- The child elements of a node in insertion order. -/
def children : XmlNode → List XmlNode
  | mk _ _ _ c => c

/-- A fresh element as `append_child(name)` creates it. -/
def element (name : String) : XmlNode :=
  mk name [] none []

/-- Embeds `node.append_attribute(name) = value`. -/
def append_attribute (n : XmlNode) (name value : String) : XmlNode :=
  mk n.name (n.attributes ++ [(name, value)]) n.text n.children

/-- Embeds `node.text().set(value)`. -/
def set_text (n : XmlNode) (value : String) : XmlNode :=
  mk n.name n.attributes (some value) n.children

/-- Appending a finished subtree as the last child of a node. -/
def append_child (n : XmlNode) (child : XmlNode) : XmlNode :=
  mk n.name n.attributes n.text (n.children ++ [child])

/-- Embeds `xml_node::child(name)`: the first child element with that name. -/
def child (n : XmlNode) (name : String) : Option XmlNode :=
  n.children.find? (fun c => c.name = name)

/-- Embeds `xml_node::last_child()`. -/
def last_child (n : XmlNode) : Option XmlNode :=
  n.children.getLast?

/-- Embeds `xml_node::attribute(name).value()` when the attribute exists. -/
def attributeValue (n : XmlNode) (name : String) : Option String :=
  (n.attributes.find? (fun a => a.1 = name)).map (·.2)

/-- Applying `f` to the first node of a list that satisfies `p`. -/
def modifyFirst (p : XmlNode → Bool) (f : XmlNode → XmlNode) : List XmlNode → List XmlNode
  | [] => []
  | c :: cs => if p c then f c :: cs else c :: modifyFirst p f cs

/-- Applying `f` to the node that the handle `n.child(name)` designates; a
null handle (no such child) leaves the tree as it is. -/
def modify_child (n : XmlNode) (name : String) (f : XmlNode → XmlNode) : XmlNode :=
  mk n.name n.attributes n.text (modifyFirst (fun c => c.name = name) f n.children)

/-- Following a path of child names downwards from a node. -/
def descend : List String → XmlNode → Option XmlNode
  | [], n => some n
  | name :: rest, n => (n.child name).bind (descend rest)

end XmlNode

open XmlNode

mutual
/-- Every attribute of a node and of all the nodes below it, in document
order. -/
def XmlNode.allAttributes : XmlNode → List (String × String)
  | XmlNode.mk _ a _ cs => a ++ XmlNode.allAttributesOfList cs
/-- Every attribute of the nodes of a list and of all the nodes below
them. -/
def XmlNode.allAttributesOfList : List XmlNode → List (String × String)
  | [] => []
  | c :: cs => XmlNode.allAttributes c ++ XmlNode.allAttributesOfList cs
end

/-- Every attribute in the tree below and at a node has a non-empty value. -/
def XmlNode.attributesFilled (n : XmlNode) : Prop :=
  ∀ a ∈ n.allAttributes, a.2 ≠ ""

/-! ## Constants of `HL7MessageGenerator.cpp` -/

/-- The placeholder text. -/
def DEFAULT_STRING : String := "Unknown"

/-- The placeholder OID root. -/
def DEFAULT_OID_ROOT : String := "2.25.0.0.0.0"

/-- The placeholder code. -/
def DEFAULT_CODE : String := "UNK"

/-- The HL7 NullFlavor code system. -/
def DEFAULT_CODESYSTEM_NULLFLAVOR : String := "2.16.840.1.113883.5.1008"

/-- The placeholder display name. -/
def DEFAULT_DISPLAYNAME : String := "Unknown"

/-- The fixed CDA R2 value of `typeId/@root`. -/
def FIXED_TYPEID_ROOT : String := "2.16.840.1.113883.1.3"

/-- The default `typeId/@extension`. -/
def DEFAULT_TYPEID_EXTENSION : String := "POCD_HD000040"

/-- The default language code. -/
def DEFAULT_LANGUAGE_CODE : String := "pl-PL"

/-- The default confidentiality code (normal). -/
def DEFAULT_CONFIDENTIALITY_CODE : String := "N"

/-- The HL7 Confidentiality code system. -/
def DEFAULT_CONFIDENTIALITY_CODESYSTEM : String := "2.16.840.1.113883.5.25"

/-- The default realm. -/
def DEFAULT_REALM_CODE : String := "PL"

/-! ## `addHeader` -/

/-- The `realmCode` element of `addHeader`. -/
def realmCodeNode (config : AppConfig) : XmlNode :=
  (element "realmCode").append_attribute "code"
    (if config.realmCode.isEmpty then DEFAULT_REALM_CODE else config.realmCode)

/-- The `typeId` element of `addHeader`. -/
def typeIdNode (config : AppConfig) : XmlNode :=
  ((element "typeId").append_attribute "root" FIXED_TYPEID_ROOT).append_attribute "extension"
    (if config.typeIdExtension.isEmpty then DEFAULT_TYPEID_EXTENSION else config.typeIdExtension)

/-- The `templateId` element that the loop of `addHeader` builds for one
configured template id. -/
def templateIdNode (tmplId : TemplateIdConfig) : XmlNode :=
  let templateIdNode := (element "templateId").append_attribute "root"
    (if tmplId.root.isEmpty then DEFAULT_OID_ROOT else tmplId.root)
  if !tmplId.extension.isEmpty then
    templateIdNode.append_attribute "extension" tmplId.extension
  else templateIdNode

/-- Local `docIdRoot` of `addHeader`. -/
def docIdRoot (config : AppConfig) : String :=
  if config.documentIdRootOid.isEmpty then
    (if config.organizationOid.isEmpty then DEFAULT_OID_ROOT else config.organizationOid)
  else config.documentIdRootOid

/-- The document `id` element of `addHeader`. -/
def documentIdNode (config : AppConfig) (documentIdExt : String) : XmlNode :=
  ((element "id").append_attribute "root" (docIdRoot config)).append_attribute
    "extension" documentIdExt

/-- The document `code` element of `addHeader`. -/
def documentCodeNode (config : AppConfig) : XmlNode :=
  let codeNode := (element "code").append_attribute "code"
    (if config.documentCode.code.isEmpty then DEFAULT_CODE else config.documentCode.code)
  let codeNode := codeNode.append_attribute "codeSystem"
    (if config.documentCode.codeSystem.isEmpty then DEFAULT_CODESYSTEM_NULLFLAVOR
     else config.documentCode.codeSystem)
  let codeNode := codeNode.append_attribute "codeSystemName"
    (if config.documentCode.codeSystemName.isEmpty then DEFAULT_STRING
     else config.documentCode.codeSystemName)
  codeNode.append_attribute "displayName"
    (if config.documentCode.displayName.isEmpty then DEFAULT_DISPLAYNAME
     else config.documentCode.displayName)

/-- The `title` element of `addHeader`. -/
def titleNode (config : AppConfig) (study : Study) : XmlNode :=
  (element "title").set_text
    (if config.documentTitle.isEmpty then
      c_str ("Report - " ++ (if study.studyDescription.isEmpty then DEFAULT_STRING
                             else study.studyDescription))
     else config.documentTitle)

/-- The document `effectiveTime` element of `addHeader`. -/
def effectiveTimeNode (effectiveTime : String) : XmlNode :=
  (element "effectiveTime").append_attribute "value" effectiveTime

/-- Local `confCodeVal` of `addHeader`. -/
def confCodeVal (config : AppConfig) : String :=
  if config.confidentialityCode.code.isEmpty then DEFAULT_CONFIDENTIALITY_CODE
  else config.confidentialityCode.code

/-- Local `confCodeSysVal` of `addHeader`. -/
def confCodeSysVal (config : AppConfig) : String :=
  if config.confidentialityCode.codeSystem.isEmpty then DEFAULT_CONFIDENTIALITY_CODESYSTEM
  else config.confidentialityCode.codeSystem

/-- The `confidentialityCode` element of `addHeader`. -/
def confidentialityCodeNode (config : AppConfig) : XmlNode :=
  let confidentialityCode :=
    ((element "confidentialityCode").append_attribute "code" (confCodeVal config)).append_attribute
      "codeSystem" (confCodeSysVal config)
  if !config.confidentialityCode.displayName.isEmpty then
    confidentialityCode.append_attribute "displayName" config.confidentialityCode.displayName
  else if confCodeSysVal config = DEFAULT_CONFIDENTIALITY_CODESYSTEM then
    if confCodeVal config = "N" then
      confidentialityCode.append_attribute "displayName" "Normal"
    else if confCodeVal config = "R" then
      confidentialityCode.append_attribute "displayName" "Restricted"
    else if confCodeVal config = "V" then
      confidentialityCode.append_attribute "displayName" "Very Restricted"
    else confidentialityCode
  else confidentialityCode

/-- The `languageCode` element of `addHeader`. -/
def languageCodeNode (config : AppConfig) : XmlNode :=
  (element "languageCode").append_attribute "code"
    (if config.languageCode.isEmpty then DEFAULT_LANGUAGE_CODE else config.languageCode)

/-- Embeds `HL7MessageGenerator::addHeader`: looks up `ClinicalDocument` in the
document, returns at once when it is missing, and otherwise appends the header
elements to it in source order. -/
def addHeader (config : AppConfig) (doc : XmlNode) (_patient : Patient) (study : Study)
    (effectiveTime documentIdExt : String) : XmlNode :=
  match doc.child "ClinicalDocument" with
  | none => doc
  | some _ =>
    doc.modify_child "ClinicalDocument" fun clinicalDocument =>
      let clinicalDocument := clinicalDocument.append_child (realmCodeNode config)
      let clinicalDocument := clinicalDocument.append_child (typeIdNode config)
      let clinicalDocument := config.templateIds.foldl
        (fun node tmplId => node.append_child (templateIdNode tmplId)) clinicalDocument
      let clinicalDocument := clinicalDocument.append_child (documentIdNode config documentIdExt)
      let clinicalDocument := clinicalDocument.append_child (documentCodeNode config)
      let clinicalDocument := clinicalDocument.append_child (titleNode config study)
      let clinicalDocument := clinicalDocument.append_child (effectiveTimeNode effectiveTime)
      let clinicalDocument := clinicalDocument.append_child (confidentialityCodeNode config)
      clinicalDocument.append_child (languageCodeNode config)

/-! ## `addRecordTarget` -/

/-- Local `familyName` of `addRecordTarget`, after the name has been split. -/
def familyName (patient : Patient) : Option String :=
  if patient.name.isEmpty || patient.name = DEFAULT_STRING then
    some DEFAULT_STRING
  else
    match find patient.name ' ' with
    | some space_pos => substr patient.name 0 space_pos
    | none => some patient.name

/-- Local `givenName` of `addRecordTarget`, after the name has been split. -/
def givenName (patient : Patient) : Option String :=
  if patient.name.isEmpty || patient.name = DEFAULT_STRING then
    some DEFAULT_STRING
  else
    match find patient.name ' ' with
    | some space_pos => substrFrom patient.name (space_pos + 1)
    | none => some DEFAULT_STRING

/-- The `patientRole` subtree of `addRecordTarget`, given the two name parts
that the split produced. -/
def patientRoleNode (config : AppConfig) (patient : Patient) (familyName givenName : String) :
    XmlNode :=
  let idNode := (element "id").append_attribute "extension"
    (if patient.patientID.isEmpty then DEFAULT_STRING else c_str patient.patientID)
  let idNode := idNode.append_attribute "root"
    (if config.patientIdRootOid.isEmpty then DEFAULT_OID_ROOT else config.patientIdRootOid)
  let nameNode := (element "name").append_child
    ((element "given").set_text
      (if givenName.isEmpty then DEFAULT_STRING else c_str givenName))
  let nameNode := nameNode.append_child
    ((element "family").set_text
      (if familyName.isEmpty then DEFAULT_STRING else c_str familyName))
  let genderCode := (element "administrativeGenderCode").append_attribute "code"
    (if patient.sex.isEmpty then DEFAULT_CODE else c_str patient.sex)
  let genderCode := genderCode.append_attribute "codeSystem"
    (if config.genderCodeSystem.isEmpty then DEFAULT_CODESYSTEM_NULLFLAVOR
     else config.genderCodeSystem)
  let birthTime := (element "birthTime").append_attribute "value"
    (if patient.dateOfBirth.isEmpty then "19000101" else c_str patient.dateOfBirth)
  let patientNode :=
    (((element "patient").append_child nameNode).append_child genderCode).append_child birthTime
  ((element "patientRole").append_child idNode).append_child patientNode

/-- The `recordTarget` subtree that `addRecordTarget` builds; the two
`substr` calls of the name split may throw. -/
def recordTargetNode (config : AppConfig) (patient : Patient) : Option XmlNode := do
  let familyName ← familyName patient
  let givenName ← givenName patient
  pure ((element "recordTarget").append_child
    (patientRoleNode config patient familyName givenName))

/-- Embeds `HL7MessageGenerator::addRecordTarget`. -/
def addRecordTarget (config : AppConfig) (parentNode : XmlNode) (patient : Patient) :
    Option XmlNode := do
  let recordTarget ← recordTargetNode config patient
  pure (parentNode.append_child recordTarget)

/-- The text of `patientRole/patient/name/<part>` in the last child of a node
(the `recordTarget` just appended); `part` is `given` or `family`. -/
def recordTargetNameText (part : String) (parentNode : XmlNode) : Option String := do
  let recordTarget ← parentNode.last_child
  let node ← recordTarget.descend ["patientRole", "patient", "name", part]
  node.text

/-! ## `addAuthor` -/

/-- Local `authorRoot` of `addAuthor`. -/
def authorRoot (config : AppConfig) : String :=
  if config.authorIdRootOid.isEmpty then
    (if config.organizationOid.isEmpty then DEFAULT_OID_ROOT else config.organizationOid)
  else config.authorIdRootOid

/-- Local `authorExt` of `addAuthor`. -/
def authorExt (config : AppConfig) : String :=
  if config.authorIdExtension.isEmpty then
    (if config.defaultSendingApplication.isEmpty then DEFAULT_STRING
     else config.defaultSendingApplication)
  else config.authorIdExtension

/-- The `author` subtree that `addAuthor` builds. -/
def authorNode (config : AppConfig) (effectiveTime : String) : XmlNode :=
  let time := (element "time").append_attribute "value" effectiveTime
  let idNode := ((element "id").append_attribute "root" (authorRoot config)).append_attribute
    "extension" (authorExt config)
  let assignedAuthoringDevice := (element "assignedAuthoringDevice").append_child
    ((element "manufacturerModelName").set_text
      (if config.authorDeviceManufacturer.isEmpty then DEFAULT_STRING
       else config.authorDeviceManufacturer))
  let assignedAuthoringDevice := assignedAuthoringDevice.append_child
    ((element "softwareName").set_text
      (if config.authorDeviceSoftwareName.isEmpty then DEFAULT_STRING
       else config.authorDeviceSoftwareName))
  let assignedAuthor :=
    ((element "assignedAuthor").append_child idNode).append_child assignedAuthoringDevice
  ((element "author").append_child time).append_child assignedAuthor

/-- Embeds `HL7MessageGenerator::addAuthor`. -/
def addAuthor (config : AppConfig) (parentNode : XmlNode) (effectiveTime : String) : XmlNode :=
  parentNode.append_child (authorNode config effectiveTime)

/-! ## `addCustodian` -/

/-- Local `custodianRoot` of `addCustodian`. -/
def custodianRoot (config : AppConfig) : String :=
  if config.custodianOrgIdRootOid.isEmpty then
    (if config.organizationOid.isEmpty then DEFAULT_OID_ROOT else config.organizationOid)
  else config.custodianOrgIdRootOid

/-- Local `orgName` of `addCustodian`. -/
def orgName (config : AppConfig) : String :=
  if config.custodianOrgName.isEmpty then
    (if config.sendingFacility.isEmpty then DEFAULT_STRING else config.sendingFacility)
  else config.custodianOrgName

/-- The `custodian` subtree that `addCustodian` builds. -/
def custodianNode (config : AppConfig) : XmlNode :=
  let custodianRoot := custodianRoot config
  let idNode := (element "id").append_attribute "root" custodianRoot
  let idNode :=
    if !config.custodianOrgIdExtension.isEmpty then
      idNode.append_attribute "extension" config.custodianOrgIdExtension
    else if custodianRoot = DEFAULT_OID_ROOT then
      idNode.append_attribute "extension" DEFAULT_STRING
    else idNode
  let representedCustodianOrg :=
    ((element "representedCustodianOrganization").append_child idNode).append_child
      ((element "name").set_text (orgName config))
  (element "custodian").append_child
    ((element "assignedCustodian").append_child representedCustodianOrg)

/-- Embeds `HL7MessageGenerator::addCustodian`. -/
def addCustodian (config : AppConfig) (parentNode : XmlNode) : XmlNode :=
  parentNode.append_child (custodianNode config)

/-! ## `addComponentOf` -/

/-- Local `encounterRoot` of `addComponentOf`. -/
def encounterRoot (config : AppConfig) : String :=
  if config.encounterIdRootOid.isEmpty then DEFAULT_OID_ROOT else config.encounterIdRootOid

/-- Local `encounterExt` of `addComponentOf`. -/
def encounterExt (study : Study) : String :=
  if study.accessionNumber.isEmpty then
    (if study.studyInstanceUID.isEmpty then DEFAULT_STRING else c_str study.studyInstanceUID)
  else c_str study.accessionNumber

/-- Local `studyDateTimeLow` of `addComponentOf`, as it stands when it is
handed to `effectiveTime/low/@value`. -/
def studyDateTimeLow (study : Study) : Option String := do
  let studyDateTimeLow := study.studyDate
  let studyDateTimeLow := if studyDateTimeLow.isEmpty then "19000101" else studyDateTimeLow
  if !study.studyTime.isEmpty && study.studyTime.length ≥ 4 then
    let hhmm ← substr study.studyTime 0 4
    let studyDateTimeLow := studyDateTimeLow ++ hhmm
    if study.studyTime.length ≥ 6 then
      let ss ← substr study.studyTime 4 2
      pure (studyDateTimeLow ++ ss)
    else
      pure (studyDateTimeLow ++ "00")
  else
    pure (studyDateTimeLow ++ "000000")

/-- Local `facilityRoot` of `addComponentOf`. -/
def facilityRoot (config : AppConfig) : String :=
  if config.locationFacilityIdRootOid.isEmpty then
    (if config.organizationOid.isEmpty then DEFAULT_OID_ROOT else config.organizationOid)
  else config.locationFacilityIdRootOid

/-- Local `facilityName` of `addComponentOf`. -/
def facilityName (config : AppConfig) : String :=
  if config.locationFacilityName.isEmpty then
    (if config.sendingFacility.isEmpty then DEFAULT_STRING else config.sendingFacility)
  else config.locationFacilityName

/-- The optional encounter `code` element of `addComponentOf`: present only
when an encounter type code is configured. -/
def encounterCodeNodes (config : AppConfig) : List XmlNode :=
  if !config.encounterTypeCode.code.isEmpty then
    let codeNode := (element "code").append_attribute "code" config.encounterTypeCode.code
    let codeNode := codeNode.append_attribute "codeSystem"
      (if config.encounterTypeCode.codeSystem.isEmpty then DEFAULT_CODESYSTEM_NULLFLAVOR
       else config.encounterTypeCode.codeSystem)
    let codeNode := codeNode.append_attribute "displayName"
      (if config.encounterTypeCode.displayName.isEmpty then DEFAULT_DISPLAYNAME
       else config.encounterTypeCode.displayName)
    [codeNode]
  else []

/-- The `location` subtree of `addComponentOf`. -/
def locationNode (config : AppConfig) : XmlNode :=
  let facilityRoot := facilityRoot config
  let facilityIdNode := (element "id").append_attribute "root" facilityRoot
  let facilityIdNode :=
    if !config.locationFacilityIdExtension.isEmpty then
      facilityIdNode.append_attribute "extension" config.locationFacilityIdExtension
    else if facilityRoot = DEFAULT_OID_ROOT then
      facilityIdNode.append_attribute "extension" DEFAULT_STRING
    else facilityIdNode
  let locationNameNode := (element "name").set_text (facilityName config)
  let locationPlaceNode :=
    (((element "location").append_attribute "classCode" "PLC").append_attribute
      "determinerCode" "INSTANCE").append_child locationNameNode
  let healthCareFacilityNode :=
    ((element "healthCareFacility").append_child facilityIdNode).append_child locationPlaceNode
  (element "location").append_child healthCareFacilityNode

/-- The `encompassingEncounter` subtree of `addComponentOf`, given the low
bound of the encounter time. -/
def encompassingEncounterNode (config : AppConfig) (study : Study)
    (studyDateTimeLow : String) : XmlNode :=
  let idNode := ((element "id").append_attribute "root" (encounterRoot config)).append_attribute
    "extension" (encounterExt study)
  let encompassingEncounter := (element "encompassingEncounter").append_child idNode
  let encompassingEncounter := (encounterCodeNodes config).foldl append_child encompassingEncounter
  let lowNode := (element "low").append_attribute "value" (c_str studyDateTimeLow)
  let encompassingEncounter :=
    encompassingEncounter.append_child ((element "effectiveTime").append_child lowNode)
  encompassingEncounter.append_child (locationNode config)

/-- The `componentOf` subtree that `addComponentOf` builds; the `substr`
calls of the time synthesis may throw. -/
def componentOfNode (config : AppConfig) (study : Study) : Option XmlNode := do
  let studyDateTimeLow ← studyDateTimeLow study
  pure ((element "componentOf").append_child
    (encompassingEncounterNode config study studyDateTimeLow))

/-- Embeds `HL7MessageGenerator::addComponentOf`. -/
def addComponentOf (config : AppConfig) (parentNode : XmlNode) (study : Study) :
    Option XmlNode := do
  let componentOf ← componentOfNode config study
  pure (parentNode.append_child componentOf)

/-- The `effectiveTime/low/@value` of the encounter that the last child of a
node (the `componentOf` just appended) carries. -/
def encounterLowValue (parentNode : XmlNode) : Option String := do
  let componentOf ← parentNode.last_child
  let low ← componentOf.descend ["encompassingEncounter", "effectiveTime", "low"]
  low.attributeValue "value"

/-! ## `addStructuredBody` -/

/-- Local `narrative` of `addStructuredBody`. -/
def narrative (study : Study) : String :=
  let narrative := "Study Description: " ++
    (if study.studyDescription.isEmpty then DEFAULT_STRING else study.studyDescription) ++
    ". Modality: " ++ (if study.modality.isEmpty then DEFAULT_STRING else study.modality) ++ "."
  if !study.studyInstanceUID.isEmpty then
    narrative ++ (" Study UID: " ++ study.studyInstanceUID ++ ".")
  else
    narrative ++ (" Study UID: " ++ DEFAULT_STRING ++ ".")

/-- The `component` subtree that `addStructuredBody` builds. -/
def structuredBodyNode (config : AppConfig) (study : Study) : XmlNode :=
  let rsc_code :=
    if config.reportSectionCode.code.isEmpty then "18748-4" else config.reportSectionCode.code
  let rsc_cs :=
    if config.reportSectionCode.codeSystem.isEmpty then "2.16.840.1.113883.6.1"
    else config.reportSectionCode.codeSystem
  let rsc_csn :=
    if config.reportSectionCode.codeSystemName.isEmpty then "LOINC"
    else config.reportSectionCode.codeSystemName
  let rsc_dn :=
    if config.reportSectionCode.displayName.isEmpty then "Diagnostic Imaging Report Section"
    else config.reportSectionCode.displayName
  let sectionCode :=
    ((((element "code").append_attribute "code" rsc_code).append_attribute
      "codeSystem" rsc_cs).append_attribute "codeSystemName" rsc_csn).append_attribute
      "displayName" rsc_dn
  let title := (element "title").set_text
    (if study.studyDescription.isEmpty then DEFAULT_STRING else c_str study.studyDescription)
  let paragraph := (element "paragraph").set_text (c_str (narrative study))
  let textNode := (element "text").append_child paragraph
  let sectionNode :=
    (((element "section").append_child sectionCode).append_child title).append_child textNode
  (element "component").append_child
    ((element "structuredBody").append_child ((element "component").append_child sectionNode))

/-- Embeds `HL7MessageGenerator::addStructuredBody`. -/
def addStructuredBody (config : AppConfig) (parentNode : XmlNode) (study : Study) : XmlNode :=
  parentNode.append_child (structuredBodyNode config study)

/-! ## `generateORUMessage` -/

/-- The XML declaration node of `generateORUMessage`. -/
def declarationNode : XmlNode :=
  ((element "xml").append_attribute "version" "1.0").append_attribute "encoding" "UTF-8"

/-- The attributes that `generateORUMessage` gives the `ClinicalDocument`
root. -/
def clinicalDocumentAttributes (config : AppConfig) : List (String × String) :=
  [("xmlns", "urn:hl7-org:v3"), ("xmlns:xsi", "http://www.w3.org/2001/XMLSchema-instance")] ++
    (if !config.cdaXsdPath.isEmpty then
      [("xsi:schemaLocation", "urn:hl7-org:v3 " ++ config.cdaXsdPath)]
     else [])

/-- The document as `generateORUMessage` sets it up before the section
builders run: the XML declaration and the empty `ClinicalDocument` root. -/
def newDocument (config : AppConfig) : XmlNode :=
  let clinicalDocument := mk "ClinicalDocument" (clinicalDocumentAttributes config) none []
  ((element "").append_child declarationNode).append_child clinicalDocument

/-- The pugixml document that `HL7MessageGenerator::generateORUMessage` builds
and then hands to `doc.save`.  `effectiveTime` is the outcome of its one call
of `getCurrentTimestamp` and `documentIdExtension` that of its one call of
`generateUUID`.  The builders after `addHeader` work through the handle
`clinicalDocument`, the root element of the document. -/
def generateORUDocument (config : AppConfig) (patient : Patient) (study : Study)
    (effectiveTime documentIdExtension : String) : Option XmlNode := do
  let doc := newDocument config
  let doc := addHeader config doc patient study effectiveTime documentIdExtension
  match doc.child "ClinicalDocument" with
  | none => pure doc
  | some clinicalDocument =>
    let clinicalDocument ← addRecordTarget config clinicalDocument patient
    let clinicalDocument := addAuthor config clinicalDocument effectiveTime
    let clinicalDocument := addCustodian config clinicalDocument
    let clinicalDocument ← addComponentOf config clinicalDocument study
    let clinicalDocument := addStructuredBody config clinicalDocument study
    pure (doc.modify_child "ClinicalDocument" fun _ => clinicalDocument)

/-- The value of attribute `attr` of the node reached from `doc` along
`path`. -/
def attributeAt (path : List String) (attr : String) (doc : XmlNode) : Option String :=
  (doc.descend path).bind (fun node => node.attributeValue attr)

/-- The text of the node reached from `doc` along `path`. -/
def textAt (path : List String) (doc : XmlNode) : Option String :=
  (doc.descend path).bind (fun node => node.text)

/-- The children that `addHeader` appends to `ClinicalDocument`, in order. -/
def headerNodes (config : AppConfig) (study : Study) (effectiveTime documentIdExt : String) :
    List XmlNode :=
  [realmCodeNode config, typeIdNode config] ++ config.templateIds.map templateIdNode ++
    [documentIdNode config documentIdExt, documentCodeNode config, titleNode config study,
     effectiveTimeNode effectiveTime, confidentialityCodeNode config, languageCodeNode config]

/-- The document that `generateORUMessage` assembles when the name split
yields the parts `f` and `g` and the time synthesis yields `v`. -/
def assembledDocument (config : AppConfig) (patient : Patient) (study : Study)
    (effectiveTime documentIdExt f g v : String) : XmlNode :=
  mk "" [] none [declarationNode,
    mk "ClinicalDocument" (clinicalDocumentAttributes config) none
      (headerNodes config study effectiveTime documentIdExt ++
        [(element "recordTarget").append_child (patientRoleNode config patient f g),
         authorNode config effectiveTime, custodianNode config,
         (element "componentOf").append_child (encompassingEncounterNode config study v),
         structuredBodyNode config study])]

/-! ## `generateUUID` -/

/-- The text that `ss << std::hex << n` appends for a non-negative `int`. -/
def hex (n : Nat) : String :=
  ⟨Nat.toDigits 16 n⟩

/-- The loop `for (i = 0; i < count; i++) ss << dis(gen);` of `generateUUID`,
when `start` draws have been made before it: `draw k` is the value that the
`k`-th draw of the call yields. -/
def appendDraws (draw : Nat → Nat) (start count : Nat) (ss : String) : String :=
  (List.range count).foldl (fun ss i => ss ++ hex (draw (start + i))) ss

/-- Embeds `HL7MessageGenerator::generateUUID`.  The call makes 31 draws from
the random generator; `draw k` is the value of the `k`-th of them, counted
from 0.  Draw 15 is the one made through `dis2`, all others go through
`dis`. -/
def generateUUID (draw : Nat → Nat) : String :=
  let ss := ""
  let ss := appendDraws draw 0 8 ss
  let ss := ss ++ "-"
  let ss := appendDraws draw 8 4 ss
  let ss := ss ++ "-4"
  let ss := appendDraws draw 12 3 ss
  let ss := ss ++ "-"
  let ss := ss ++ hex (draw 15)
  let ss := appendDraws draw 16 3 ss
  let ss := ss ++ "-"
  appendDraws draw 19 12 ss

/-! ## The outside world

The generator reads the system clock and a random generator, writes the
document with pugixml, parses it with Xerces-C++ and writes files.  What these
yield is given by an `Environment`; what the program has done to them so far
is recorded in a `World`. -/

/-- An event that the Xerces parser reports to its error handler. -/
inductive SAXEvent where
  | warning
  | error
  | fatalError
  deriving DecidableEq, Repr

/-- The exceptions that `validateMessageWithXSD` catches around
`parser->parse`, one per `catch` clause. -/
inductive ParseException where
  | OutOfMemoryException
  | XMLException
  | DOMException
  | unknown
  deriving DecidableEq, Repr

/-- What one call of `parser->parse` does as far as its caller can observe:
the events it reports to the error handler, in order, and the exception it
ends with, if any. -/
structure ParseRun where
  events : List SAXEvent := []
  thrown : Option ParseException := none
  deriving DecidableEq, Repr

/-- The collaborators of the program: `now k` is the `k`-th reading of
`system_clock::now()` as a `time_t`, `put_time t format` the text that
`std::put_time` gives the local time of `t`, `draw k` the `k`-th value that a
distribution of `generateUUID` hands out, `save` the pugixml writer
`doc.save`, `parse schemaLocation xmlMessage` the run of the Xerces parser on
a message, and `opens filePath` whether `std::ofstream` can open the file. -/
structure Environment where
  now : Nat → Int
  put_time : Int → String → String
  draw : Nat → Nat
  save : XmlNode → String
  parse : String → String → ParseRun
  opens : String → Bool

/-- One call of `saveMessageToFile`: its arguments and whether the message
was written. -/
structure SaveCall where
  filePath : String
  message : String
  written : Bool
  deriving DecidableEq, Repr

/-- The effects of the program so far: how often it has read the clock, how
many random values it has drawn, the messages it has handed to the Xerces
parser and its calls of `saveMessageToFile`. -/
structure World where
  clockReads : Nat := 0
  draws : Nat := 0
  parsed : List String := []
  saveCalls : List SaveCall := []
  deriving DecidableEq, Repr

/-- Embeds `HL7MessageGenerator::getCurrentTimestamp`: one reading of the
clock, rendered with `format`. -/
def getCurrentTimestamp (env : Environment) (format : String) (w : World) : String × World :=
  (env.put_time (env.now w.clockReads) format, { w with clockReads := w.clockReads + 1 })

/-- Embeds `HL7MessageGenerator::generateORUMessage`: the timestamp (with the
default format of `getCurrentTimestamp`) and the document id are obtained once
each, the document is built and `doc.save` turns it into the returned text. -/
def generateORUMessage (env : Environment) (config : AppConfig) (patient : Patient)
    (study : Study) (w : World) : Option (String × World) := do
  let (effectiveTime, w) := getCurrentTimestamp env "%Y%m%d%H%M%S%z" w
  let documentIdExtension := generateUUID (fun k => env.draw (w.draws + k))
  let w := { w with draws := w.draws + 31 }
  let doc ← generateORUDocument config patient study effectiveTime documentIdExtension
  pure (env.save doc, w)

/-- Embeds `HL7MessageGenerator::saveMessageToFile`. -/
def saveMessageToFile (env : Environment) (message filePath : String) (w : World) :
    Bool × World :=
  if !env.opens filePath then
    (false, { w with saveCalls := w.saveCalls ++ [⟨filePath, message, false⟩] })
  else
    (true, { w with saveCalls := w.saveCalls ++ [⟨filePath, message, true⟩] })

/-! ## The schema validator -/

/-- The `class XSDValidationErrorHandler`; its constructor clears the flag. -/
structure XSDValidationErrorHandler where
  fSawErrors : Bool := false
  deriving DecidableEq, Repr

namespace XSDValidationErrorHandler

/-- Embeds `XSDValidationErrorHandler::warning`, which only prints. -/
def warning (h : XSDValidationErrorHandler) : XSDValidationErrorHandler :=
  h

/-- Embeds `XSDValidationErrorHandler::error`. -/
def error (h : XSDValidationErrorHandler) : XSDValidationErrorHandler :=
  { h with fSawErrors := true }

/-- Embeds `XSDValidationErrorHandler::fatalError`. -/
def fatalError (h : XSDValidationErrorHandler) : XSDValidationErrorHandler :=
  { h with fSawErrors := true }

/-- Embeds `XSDValidationErrorHandler::resetErrors`. -/
def resetErrors (h : XSDValidationErrorHandler) : XSDValidationErrorHandler :=
  { h with fSawErrors := false }

/-- Embeds `XSDValidationErrorHandler::getSawErrors`. -/
def getSawErrors (h : XSDValidationErrorHandler) : Bool :=
  h.fSawErrors

/-- The parser reports an event by calling the member function of that
name. -/
def handle (h : XSDValidationErrorHandler) : SAXEvent → XSDValidationErrorHandler
  | SAXEvent.warning => h.warning
  | SAXEvent.error => h.error
  | SAXEvent.fatalError => h.fatalError

end XSDValidationErrorHandler

/-- Embeds `HL7MessageGenerator::validateMessageWithXSD`. -/
def validateMessageWithXSD (env : Environment) (config : AppConfig) (xmlMessage : String)
    (w : World) : Bool × World :=
  if config.cdaXsdPath.isEmpty then
    (true, w)
  else
    let errorHandler : XSDValidationErrorHandler := {}
    let schemaLocationArg := "urn:hl7-org:v3 " ++ config.cdaXsdPath
    let run := env.parse schemaLocationArg xmlMessage
    let w := { w with parsed := w.parsed ++ [xmlMessage] }
    let errorHandler := run.events.foldl XSDValidationErrorHandler.handle errorHandler
    match run.thrown with
    | none => if errorHandler.getSawErrors then (false, w) else (true, w)
    | some _ => (false, w)

/-! ## The menu loop of `main` -/

/-- The outcome of `std::stoi`. -/
inductive StoiResult where
  | value (n : Int)
  | invalid_argument
  | out_of_range
  deriving DecidableEq, Repr

/-- The characters that `std::isspace` accepts in the C locale. -/
def isspace (c : Char) : Bool :=
  c = ' ' || c = '\t' || c = '\n' || c = '\x0b' || c = '\x0c' || c = '\r'

/-- Embeds `std::stoi(str)` for a 32-bit `int`: leading white space is
skipped, an optional sign and the longest run of decimal digits are read, and
what follows is ignored. -/
def stoi (str : String) : StoiResult :=
  let cs := str.data.dropWhile isspace
  let negative := cs.head? = some '-'
  let cs := if cs.head? = some '-' ∨ cs.head? = some '+' then cs.tail else cs
  let digits := cs.takeWhile Char.isDigit
  if digits = [] then
    StoiResult.invalid_argument
  else
    let magnitude : Int := digits.foldl (fun acc d => 10 * acc + (d.toNat - '0'.toNat : Nat)) 0
    let n := if negative then -magnitude else magnitude
    if n < -2147483648 ∨ 2147483647 < n then StoiResult.out_of_range else StoiResult.value n

/-- The local variables of `main` that its menu loop reads and writes. -/
structure MainState where
  selectedPatient : Patient := {}
  selectedStudy : Study := {}
  choice : Int := 0
  patientSelected : Bool := false
  studySelected : Bool := false
  deriving DecidableEq, Repr

/-- The `case 2` of the menu loop: generate, validate and save a message. -/
def generateChoice (env : Environment) (config : AppConfig) (st : MainState) (w : World) :
    Option World :=
  if st.patientSelected && st.studySelected then do
    let (hl7Message, w) ← generateORUMessage env config st.selectedPatient st.selectedStudy w
    if !hl7Message.isEmpty then
      let (valid, w) := validateMessageWithXSD env config hl7Message w
      if valid then
        if !config.outputPath.isEmpty then
          let (timestamp, w) := getCurrentTimestamp env "%Y%m%d%H%M%S" w
          let filename := config.outputPath ++ "/ORU_" ++ st.selectedPatient.patientID ++ "_" ++
            st.selectedStudy.accessionNumber ++ "_" ++ timestamp ++ ".xml"
          let (_, w) := saveMessageToFile env hl7Message filename w
          pure w
        else pure w
      else pure w
    else pure w
  else pure w

/-- One pass through the body of `while (choice != 3)`: `inputLine` is the
line read from standard input and `selection` what
`handlePatientAndStudySelection` stores in its two output parameters when the
pass calls it.  The outcome is `none` when an exception leaves `main`. -/
def mainLoopBody (env : Environment) (config : AppConfig) (inputLine : String)
    (selection : Patient × Study) (st : MainState) (w : World) : Option (MainState × World) :=
  if inputLine.isEmpty then
    some ({ st with choice := 0 }, w)
  else
    match stoi inputLine with
    | StoiResult.invalid_argument => some ({ st with choice := 0 }, w)
    | StoiResult.out_of_range => some ({ st with choice := 0 }, w)
    | StoiResult.value n =>
      let st := { st with choice := n }
      if n = 1 then
        let st := { st with selectedPatient := selection.1, selectedStudy := selection.2 }
        if !st.selectedPatient.patientID.isEmpty then
          let st := { st with patientSelected := true }
          if !st.selectedStudy.studyInstanceUID.isEmpty then
            some ({ st with studySelected := true }, w)
          else
            some ({ st with studySelected := false }, w)
        else
          some ({ st with patientSelected := false, studySelected := false }, w)
      else if n = 2 then
        (generateChoice env config st w).map (fun w => (st, w))
      else
        some (st, w)

/-- The menu loop `while (choice != 3)` of `main`, run on the successive
inputs of a session. -/
def mainLoop (env : Environment) (config : AppConfig) :
    List (String × (Patient × Study)) → MainState → World → Option (MainState × World)
  | [], st, w => some (st, w)
  | (inputLine, selection) :: rest, st, w =>
    if st.choice ≠ 3 then
      match mainLoopBody env config inputLine selection st w with
      | none => none
      | some (st, w) => mainLoop env config rest st w
    else
      some (st, w)

/-- A concrete environment on which the definitions can be evaluated: the
clock advances by one second per reading and starts at 14:30:00 on 15 January
2024 in a zone one hour east of Greenwich, every draw yields 10 except the
draws through `dis2`, which yield 9, the writer yields a fixed text, every
file can be opened and every parse is the given `run`. -/
def exampleEnvironment (run : ParseRun) : Environment where
  now := fun k => 1705325400 + k
  put_time := fun t format =>
    (if t = 1705325400 then "20240115143000" else "20240115143001") ++
      (if format = "%Y%m%d%H%M%S%z" then "+0100" else "")
  draw := fun k => if k % 31 = 15 then 9 else 10
  save := fun _ => "<ClinicalDocument />"
  parse := fun _ _ => run
  opens := fun _ => true

/-- The file name that `case 2` of the menu loop builds around a
timestamp. -/
def messageFileName (config : AppConfig) (st : MainState) (timestamp : String) : String :=
  config.outputPath ++ "/ORU_" ++ st.selectedPatient.patientID ++ "_" ++
    st.selectedStudy.accessionNumber ++ "_" ++ timestamp ++ ".xml"

/-- The state of the menu loop after patient `P1` and a study of theirs with
accession number `A1` have been selected. -/
def exampleSelection : MainState where
  selectedPatient := { patientID := "P1", name := "Doe Jane" }
  selectedStudy := { studyInstanceUID := "1.2.840.1", patientId := "P1", accessionNumber := "A1" }
  choice := 1
  patientSelected := true
  studySelected := true

/-- The value of attribute `attr` of the node reached along `path` from the
last child of a node, the subtree that a builder has just appended. -/
def attributeOfLastChild (path : List String) (attr : String) (parentNode : XmlNode) :
    Option String :=
  parentNode.last_child.bind (attributeAt path attr)

/-- The text of the node reached along `path` from the last child of a
node. -/
def textOfLastChild (path : List String) (parentNode : XmlNode) : Option String :=
  parentNode.last_child.bind (textAt path)

/-- The node reached along `path` from the last child of a node. -/
def nodeOfLastChild (path : List String) (parentNode : XmlNode) : Option XmlNode :=
  parentNode.last_child.bind (descend path)

/-! ## The search term of `displayPatientSearch` -/

/-- The largest value of `size_t`, `std::string::npos`. -/
def npos : Nat :=
  2 ^ 64 - 1

/-- Position of the first character of a list that satisfies `p`, if any. -/
def firstIndexWhere (p : Char → Bool) : List Char → Option Nat
  | [] => none
  | c :: cs => if p c then some 0 else (firstIndexWhere p cs).map (· + 1)

/-- Position of the last character of a list that satisfies `p`, if any. -/
def lastIndexWhere (p : Char → Bool) : List Char → Option Nat
  | [] => none
  | c :: cs =>
    match lastIndexWhere p cs with
    | some i => some (i + 1)
    | none => if p c then some 0 else none

/-- Embeds `std::string::find_first_not_of(chars)`; `none` stands for
`npos`. -/
def find_first_not_of (s chars : String) : Option Nat :=
  firstIndexWhere (fun c => !chars.data.contains c) s.data

/-- Embeds `std::string::find_last_not_of(chars)`; `none` stands for
`npos`. -/
def find_last_not_of (s chars : String) : Option Nat :=
  lastIndexWhere (fun c => !chars.data.contains c) s.data

/-- The string literal that `displayPatientSearch` hands to both searches,
character for character as the source spells it: a space, then five times a
backslash followed by a letter. -/
def trimCharacters : String :=
  " \\t\\n\\r\\f\\v"

/-- The search term of `ConsoleUI::displayPatientSearch` after the statements
that the source introduces as trimming it. -/
def trimmedSearchTerm (searchTerm : String) : Option String :=
  match find_first_not_of searchTerm trimCharacters with
  | none => some ""
  | some first =>
    let last := (find_last_not_of searchTerm trimCharacters).getD npos
    substr searchTerm first ((last - first + 1) % 2 ^ 64)

/-- The term with its leading and trailing white space removed, as the
documentation of the trimming words it: white space is a space, tab, newline,
carriage return, form feed or vertical tab. -/
def withoutOuterWhitespace (term : String) : String :=
  ⟨((term.data.dropWhile isspace).reverse.dropWhile isspace).reverse⟩

/-- The relation between the two selection flags of `main` and the selected
records: a selected study comes with a selected patient, and a flag is set
only if the identifier it stands for is not empty. -/
def selectionConsistent (st : MainState) : Prop :=
  (st.studySelected = true → st.patientSelected = true) ∧
  (st.patientSelected = true → st.selectedPatient.patientID ≠ "") ∧
  (st.studySelected = true → st.selectedStudy.studyInstanceUID ≠ "")

/-! ## The configuration loader -/

/-- A node of a configuration document as pugixml parses it with its default
options: an element with its attributes and child nodes, a PCDATA node or a
CDATA node. -/
inductive ConfigNode where
  | element (name : String) (attributes : List (String × String)) (children : List ConfigNode)
  | pcdata (value : String)
  | cdata (value : String)

namespace ConfigNode

/-- The child nodes of a node, in document order. -/
def childNodes : ConfigNode → List ConfigNode
  | ConfigNode.element _ _ cs => cs
  | ConfigNode.pcdata _ => []
  | ConfigNode.cdata _ => []

/-- Whether a node carries the given name; text nodes carry none. -/
def hasName (name : String) : ConfigNode → Bool
  | ConfigNode.element n _ _ => n = name
  | ConfigNode.pcdata _ => false
  | ConfigNode.cdata _ => false

/-- Whether the type of a node is `node_pcdata`. -/
def isPcdata : ConfigNode → Bool
  | ConfigNode.element _ _ _ => false
  | ConfigNode.pcdata _ => true
  | ConfigNode.cdata _ => false

/-- Whether a node is a text node, of type `node_pcdata` or `node_cdata`. -/
def isText : ConfigNode → Bool
  | ConfigNode.element _ _ _ => false
  | ConfigNode.pcdata _ => true
  | ConfigNode.cdata _ => true

/-- The value of a node, `xml_node::value()`. -/
def nodeValue : ConfigNode → String
  | ConfigNode.element _ _ _ => ""
  | ConfigNode.pcdata v => v
  | ConfigNode.cdata v => v

/-- The attributes of a node. -/
def attributeList : ConfigNode → List (String × String)
  | ConfigNode.element _ as _ => as
  | ConfigNode.pcdata _ => []
  | ConfigNode.cdata _ => []

/-- Embeds `xml_node::child(name)` on a handle that may be null (`none`): the
first child with that name. -/
def namedChild (node : Option ConfigNode) (name : String) : Option ConfigNode :=
  node.bind (fun n => n.childNodes.find? (hasName name))

/-- Embeds `xml_node::children(name)`: all children with that name. -/
def namedChildren (node : Option ConfigNode) (name : String) : List ConfigNode :=
  match node with
  | none => []
  | some n => n.childNodes.filter (hasName name)

/-- Embeds `xml_node::first_child()`. -/
def first_child (node : Option ConfigNode) : Option ConfigNode :=
  node.bind (fun n => n.childNodes.head?)

/-- Embeds `xml_node::child_value()`: the value of the first child that is a
text node, or the empty string. -/
def child_value (node : Option ConfigNode) : String :=
  match node.bind (fun n => n.childNodes.find? isText) with
  | some t => t.nodeValue
  | none => ""

/-- Embeds `node.attribute(name).value()`: the value of the first attribute
with that name, or the empty string. -/
def attributeText (node : ConfigNode) (name : String) : String :=
  match node.attributeList.find? (fun a => a.1 = name) with
  | some a => a.2
  | none => ""

end ConfigNode

/-- Embeds `ConfigManager::getNodeText(node, defaultValue)`. -/
def getNodeText (node : Option ConfigNode) (defaultValue : String) : String :=
  if node.isSome ∧ (ConfigNode.first_child node).isSome ∧
      (ConfigNode.first_child node).any ConfigNode.isPcdata then
    ConfigNode.child_value node
  else
    defaultValue

/-- The state of a `ConfigManager`. -/
structure ConfigManager where
  appConfig : AppConfig := {}
  loaded : Bool := false
  configFilePath_ : String := ""

/-- The root that `loadConfig` works on: the child `HL7Config` of the
document, or else its child `config`. -/
def rootNodeOf (doc : Option ConfigNode) : Option ConfigNode :=
  let rootNode := ConfigNode.namedChild doc "HL7Config"
  if rootNode.isSome then rootNode else ConfigNode.namedChild doc "config"

/-- The block "Database Configuration" of `loadConfig`. -/
def loadDatabase (rootNode : Option ConfigNode) (appConfig : AppConfig) : AppConfig :=
  let dbNode := ConfigNode.namedChild rootNode "Database"
  let dbNode := if dbNode.isSome then dbNode else ConfigNode.namedChild rootNode "database"
  if dbNode.isSome then
    { appConfig with
      odbcDsn := getNodeText (ConfigNode.namedChild dbNode "ODBC_DSN")
        (getNodeText (ConfigNode.namedChild dbNode "dsn") "")
      dbUser := getNodeText (ConfigNode.namedChild dbNode "User")
        (getNodeText (ConfigNode.namedChild dbNode "username") "")
      dbPassword := getNodeText (ConfigNode.namedChild dbNode "Password")
        (getNodeText (ConfigNode.namedChild dbNode "password") "") }
  else
    appConfig

/-- The block "General Settings" of `loadConfig`. -/
def loadGeneralSettings (rootNode : Option ConfigNode) (appConfig : AppConfig) : AppConfig :=
  let generalNode := ConfigNode.namedChild rootNode "GeneralSettings"
  let generalNode :=
    if generalNode.isSome then generalNode else ConfigNode.namedChild rootNode "hl7"
  if generalNode.isSome then
    let appConfig := { appConfig with
      outputPath := getNodeText (ConfigNode.namedChild generalNode "OutputPath")
        (getNodeText (ConfigNode.namedChild generalNode "outputPath") "")
      cdaXsdPath := getNodeText (ConfigNode.namedChild generalNode "CdaXsdPath")
        (getNodeText (ConfigNode.namedChild generalNode "cdaXsdPath") "")
      realmCode := getNodeText (ConfigNode.namedChild generalNode "RealmCode") ""
      typeIdExtension := getNodeText (ConfigNode.namedChild generalNode "TypeIdExtension") ""
      documentIdRootOid :=
        getNodeText (ConfigNode.namedChild generalNode "DocumentIdRootOid") "" }
    let docCodeNode := ConfigNode.namedChild generalNode "DocumentCode"
    let appConfig :=
      if docCodeNode.isSome then
        { appConfig with
          documentCode := { appConfig.documentCode with
            code := getNodeText (ConfigNode.namedChild docCodeNode "code") ""
            codeSystem := getNodeText (ConfigNode.namedChild docCodeNode "codeSystem") ""
            codeSystemName :=
              getNodeText (ConfigNode.namedChild docCodeNode "codeSystemName") ""
            displayName := getNodeText (ConfigNode.namedChild docCodeNode "displayName") "" } }
      else appConfig
    let appConfig := { appConfig with
      documentTitle := getNodeText (ConfigNode.namedChild generalNode "DocumentTitle") "" }
    let confCodeNode := ConfigNode.namedChild generalNode "ConfidentialityCode"
    let appConfig :=
      if confCodeNode.isSome then
        { appConfig with
          confidentialityCode := { appConfig.confidentialityCode with
            code := getNodeText (ConfigNode.namedChild confCodeNode "code") ""
            codeSystem := getNodeText (ConfigNode.namedChild confCodeNode "codeSystem") ""
            displayName :=
              getNodeText (ConfigNode.namedChild confCodeNode "displayName") "" } }
      else appConfig
    { appConfig with
      languageCode := getNodeText (ConfigNode.namedChild generalNode "LanguageCode") ""
      organizationOid := getNodeText (ConfigNode.namedChild generalNode "OrganizationOid") ""
      sendingFacility := getNodeText (ConfigNode.namedChild generalNode "SendingFacility") ""
      defaultSendingApplication :=
        getNodeText (ConfigNode.namedChild generalNode "DefaultSendingApplication") "" }
  else
    appConfig

/-- The block of `loadConfig` that reads the element `HL7Defaults`. -/
def loadHL7Defaults (rootNode : Option ConfigNode) (appConfig : AppConfig) : AppConfig :=
  let hl7DefaultsNode := ConfigNode.namedChild rootNode "HL7Defaults"
  if hl7DefaultsNode.isSome then
    { appConfig with
      defaultSendingApplication :=
        getNodeText (ConfigNode.namedChild hl7DefaultsNode "SendingApplication") "DefaultSender"
      defaultSendingFacility :=
        getNodeText (ConfigNode.namedChild hl7DefaultsNode "SendingFacility") "DefaultFacility"
      defaultReceivingApplication :=
        getNodeText (ConfigNode.namedChild hl7DefaultsNode "ReceivingApplication")
          "DefaultReceiver"
      defaultReceivingFacility :=
        getNodeText (ConfigNode.namedChild hl7DefaultsNode "ReceivingFacility")
          "DefaultFacility"
      defaultSecurityText :=
        getNodeText (ConfigNode.namedChild hl7DefaultsNode "SecurityText") "N"
      defaultLanguageCode :=
        getNodeText (ConfigNode.namedChild hl7DefaultsNode "LanguageCode") "en-US"
      defaultRealmCode := getNodeText (ConfigNode.namedChild hl7DefaultsNode "RealmCode") "US"
      defaultTitle :=
        getNodeText (ConfigNode.namedChild hl7DefaultsNode "Title") "Scintigraphy Report"
      defaultConfidentialityCode :=
        getNodeText (ConfigNode.namedChild hl7DefaultsNode "ConfidentialityCode") "N"
      defaultConfidentialityCodeSystem :=
        getNodeText (ConfigNode.namedChild hl7DefaultsNode "ConfidentialityCodeSystem")
          "2.16.840.1.113883.5.25"
      defaultConfidentialityDisplayName :=
        getNodeText (ConfigNode.namedChild hl7DefaultsNode "ConfidentialityDisplayName")
          "Normal" }
  else
    appConfig

/-- The block "Organization Details" of `loadConfig`. -/
def loadOrganizationDetails (rootNode : Option ConfigNode) (appConfig : AppConfig) :
    AppConfig :=
  let orgNode := ConfigNode.namedChild rootNode "OrganizationDetails"
  if orgNode.isSome then
    { appConfig with
      organizationName := getNodeText (ConfigNode.namedChild orgNode "Name")
        "Default Organization"
      organizationIdRoot := getNodeText (ConfigNode.namedChild orgNode "IdRootOid")
        "2.16.840.1.113883.4.6"
      organizationTelecom := getNodeText (ConfigNode.namedChild orgNode "Telecom")
        "tel:+1-555-555-1212"
      organizationAddrStreet := getNodeText
        (ConfigNode.namedChild (ConfigNode.namedChild orgNode "Address") "Street") "123 Main St"
      organizationAddrCity := getNodeText
        (ConfigNode.namedChild (ConfigNode.namedChild orgNode "Address") "City") "Anytown"
      organizationAddrState := getNodeText
        (ConfigNode.namedChild (ConfigNode.namedChild orgNode "Address") "State") "CA"
      organizationAddrZip := getNodeText
        (ConfigNode.namedChild (ConfigNode.namedChild orgNode "Address") "Zip") "90210"
      organizationAddrCountry := getNodeText
        (ConfigNode.namedChild (ConfigNode.namedChild orgNode "Address") "Country") "US" }
  else
    appConfig

/-- The `OidConfig` that the loop over the `CustomOid` elements builds from
one of them. -/
def customOidOf (oid_node : ConfigNode) : OidConfig where
  assigningAuthority := oid_node.attributeText "assigningAuthority"
  oid := getNodeText (ConfigNode.namedChild (some oid_node) "OID") ""
  description := getNodeText (ConfigNode.namedChild (some oid_node) "Description") ""

/-- The block "Key OIDs" of `loadConfig`, with the two assignments that
follow it. -/
def loadKeyOIDs (rootNode : Option ConfigNode) (appConfig : AppConfig) : AppConfig :=
  let oidsNode := ConfigNode.namedChild rootNode "KeyOIDs"
  let appConfig :=
    if oidsNode.isSome then
      { appConfig with
        patientIdRootOid := getNodeText (ConfigNode.namedChild oidsNode "PatientIdRoot")
          appConfig.patientIdRootOid
        documentIdRootOid := getNodeText (ConfigNode.namedChild oidsNode "DocumentIdRoot")
          appConfig.documentIdRootOid
        setIdRootOid := getNodeText (ConfigNode.namedChild oidsNode "SetIdRoot") ""
        templateIdRootOid := getNodeText (ConfigNode.namedChild oidsNode "TemplateIdRoot") ""
        LoincSystemOid := getNodeText (ConfigNode.namedChild oidsNode "LoincSystemOid")
          "2.16.840.1.113883.6.1"
        customOids := ((ConfigNode.namedChildren oidsNode "CustomOid").map customOidOf).filter
          (fun oid_conf => !oid_conf.oid.isEmpty && !oid_conf.assigningAuthority.isEmpty) }
    else appConfig
  let appConfig :=
    if appConfig.patientIdRootOid.isEmpty then
      { appConfig with
        patientIdRootOid := getNodeText (ConfigNode.namedChild rootNode "patientIdRootOid") "" }
    else appConfig
  { appConfig with
    genderCodeSystem := getNodeText (ConfigNode.namedChild rootNode "genderCodeSystem") "" }

/-- The `TemplateIdConfig` that the loop over the `TemplateId` elements builds
from one of them. -/
def templateIdConfigOf (tmplNode : ConfigNode) : TemplateIdConfig where
  root := getNodeText (ConfigNode.namedChild (some tmplNode) "root") ""
  extension := getNodeText (ConfigNode.namedChild (some tmplNode) "extension") ""

/-- The block "TemplateIds" of `loadConfig`. -/
def loadTemplateIds (rootNode : Option ConfigNode) (appConfig : AppConfig) : AppConfig :=
  let templateIdsNode := ConfigNode.namedChild rootNode "TemplateIds"
  if templateIdsNode.isSome then
    { appConfig with
      templateIds :=
        ((ConfigNode.namedChildren templateIdsNode "TemplateId").map templateIdConfigOf).filter
          (fun tic => !tic.root.isEmpty) }
  else
    appConfig

/-- The block "Author" of `loadConfig`. -/
def loadAuthor (rootNode : Option ConfigNode) (appConfig : AppConfig) : AppConfig :=
  let authorNode := ConfigNode.namedChild rootNode "Author"
  if authorNode.isSome then
    { appConfig with
      authorIdRootOid := getNodeText (ConfigNode.namedChild authorNode "AuthorIdRootOid") ""
      authorIdExtension := getNodeText (ConfigNode.namedChild authorNode "AuthorIdExtension") ""
      authorDeviceManufacturer :=
        getNodeText (ConfigNode.namedChild authorNode "AuthorDeviceManufacturer") ""
      authorDeviceSoftwareName :=
        getNodeText (ConfigNode.namedChild authorNode "AuthorDeviceSoftwareName") "" }
  else
    appConfig

/-- The block "Custodian" of `loadConfig`. -/
def loadCustodian (rootNode : Option ConfigNode) (appConfig : AppConfig) : AppConfig :=
  let custodianNode := ConfigNode.namedChild rootNode "Custodian"
  if custodianNode.isSome then
    { appConfig with
      custodianOrgIdRootOid :=
        getNodeText (ConfigNode.namedChild custodianNode "CustodianOrgIdRootOid") ""
      custodianOrgIdExtension :=
        getNodeText (ConfigNode.namedChild custodianNode "CustodianOrgIdExtension") ""
      custodianOrgName := getNodeText (ConfigNode.namedChild custodianNode "CustodianOrgName") "" }
  else
    appConfig

/-- The block "Encounter" of `loadConfig`. -/
def loadEncounter (rootNode : Option ConfigNode) (appConfig : AppConfig) : AppConfig :=
  let encounterNode := ConfigNode.namedChild rootNode "Encounter"
  if encounterNode.isSome then
    let appConfig := { appConfig with
      encounterIdRootOid :=
        getNodeText (ConfigNode.namedChild encounterNode "EncounterIdRootOid") "" }
    let encounterTypeCodeNode := ConfigNode.namedChild encounterNode "EncounterTypeCode"
    if encounterTypeCodeNode.isSome then
      { appConfig with
        encounterTypeCode := { appConfig.encounterTypeCode with
          code := getNodeText (ConfigNode.namedChild encounterTypeCodeNode "code") ""
          codeSystem := getNodeText (ConfigNode.namedChild encounterTypeCodeNode "codeSystem") ""
          displayName :=
            getNodeText (ConfigNode.namedChild encounterTypeCodeNode "displayName") "" } }
    else appConfig
  else
    appConfig

/-- The block "Location" of `loadConfig`. -/
def loadLocation (rootNode : Option ConfigNode) (appConfig : AppConfig) : AppConfig :=
  let locationNode := ConfigNode.namedChild rootNode "Location"
  if locationNode.isSome then
    { appConfig with
      locationFacilityIdRootOid :=
        getNodeText (ConfigNode.namedChild locationNode "LocationFacilityIdRootOid") ""
      locationFacilityIdExtension :=
        getNodeText (ConfigNode.namedChild locationNode "LocationFacilityIdExtension") ""
      locationFacilityName :=
        getNodeText (ConfigNode.namedChild locationNode "LocationFacilityName") "" }
  else
    appConfig

/-- The block "ReportSection" of `loadConfig`. -/
def loadReportSection (rootNode : Option ConfigNode) (appConfig : AppConfig) : AppConfig :=
  let reportSectionNode := ConfigNode.namedChild rootNode "ReportSection"
  if reportSectionNode.isSome then
    let reportSectionCodeNode := ConfigNode.namedChild reportSectionNode "ReportSectionCode"
    if reportSectionCodeNode.isSome then
      { appConfig with
        reportSectionCode := { appConfig.reportSectionCode with
          code := getNodeText (ConfigNode.namedChild reportSectionCodeNode "code") ""
          codeSystem := getNodeText (ConfigNode.namedChild reportSectionCodeNode "codeSystem") ""
          codeSystemName :=
            getNodeText (ConfigNode.namedChild reportSectionCodeNode "codeSystemName") ""
          displayName :=
            getNodeText (ConfigNode.namedChild reportSectionCodeNode "displayName") "" } }
    else appConfig
  else
    appConfig

/-- Embeds `ConfigManager::loadConfig(configFilepath)`.  The argument
`parsed` is what `doc.load_file` yields for the file: `none` when parsing
fails, else the document node.  The result is the returned flag and the state
of the manager afterwards. -/
def loadConfig (parsed : Option ConfigNode) (cm : ConfigManager) : Bool × ConfigManager :=
  match parsed with
  | none => (false, { cm with loaded := false })
  | some doc =>
    let rootNode := rootNodeOf (some doc)
    if rootNode.isSome then
      let appConfig := loadDatabase rootNode cm.appConfig
      let appConfig := loadGeneralSettings rootNode appConfig
      let appConfig := loadHL7Defaults rootNode appConfig
      let appConfig := loadOrganizationDetails rootNode appConfig
      let appConfig := loadKeyOIDs rootNode appConfig
      let appConfig := loadTemplateIds rootNode appConfig
      let appConfig := loadAuthor rootNode appConfig
      let appConfig := loadCustodian rootNode appConfig
      let appConfig := loadEncounter rootNode appConfig
      let appConfig := loadLocation rootNode appConfig
      let appConfig := loadReportSection rootNode appConfig
      (true, { cm with appConfig := appConfig, loaded := true })
    else
      (false, { cm with loaded := false })

/-- A configuration document whose `HL7Defaults/SendingApplication` holds its
text in a CDATA section, next to a `GeneralSettings/DefaultSendingApplication`
with plain text:
`<HL7Config><GeneralSettings><DefaultSendingApplication>GeneralApp</DefaultSendingApplication></GeneralSettings><HL7Defaults><SendingApplication><![CDATA[PACS]]></SendingApplication></HL7Defaults></HL7Config>`. -/
def cdataConfigDocument : ConfigNode :=
  ConfigNode.element "" []
    [ConfigNode.element "HL7Config" []
      [ConfigNode.element "GeneralSettings" []
        [ConfigNode.element "DefaultSendingApplication" [] [ConfigNode.pcdata "GeneralApp"]],
       ConfigNode.element "HL7Defaults" []
        [ConfigNode.element "SendingApplication" [] [ConfigNode.cdata "PACS"]]]]

/-- A configuration document with plain text in both elements:
`<HL7Config><GeneralSettings><DefaultSendingApplication>GeneralApp</DefaultSendingApplication></GeneralSettings><HL7Defaults><SendingApplication>PACS</SendingApplication></HL7Defaults></HL7Config>`. -/
def plainConfigDocument : ConfigNode :=
  ConfigNode.element "" []
    [ConfigNode.element "HL7Config" []
      [ConfigNode.element "GeneralSettings" []
        [ConfigNode.element "DefaultSendingApplication" [] [ConfigNode.pcdata "GeneralApp"]],
       ConfigNode.element "HL7Defaults" []
        [ConfigNode.element "SendingApplication" [] [ConfigNode.pcdata "PACS"]]]]

/-! ## The default resolver of the specification -/

/-- The resolver as the specification words it: the first candidate, in the
declared order, that is non-empty, and `builtIn` when every candidate is
empty. -/
def resolve : List String → String → String
  | [], builtIn => builtIn
  | c :: cs, builtIn => if c ≠ "" then c else resolve cs builtIn

/-- The date part `D` of the encounter low bound: the study date, or
`19000101` when the study has none. -/
def dateOrDefault (study : Study) : String :=
  if study.studyDate = "" then "19000101" else study.studyDate

/-- The first `n` characters of a string (the whole string when it is
shorter). -/
def firstChars (n : Nat) (s : String) : String :=
  ⟨s.data.take n⟩

/-! ## NUL characters in the records -/

/-- A string holds no NUL character. -/
def nulFree (s : String) : Prop :=
  '\x00' ∉ s.data

instance nulFree.decidable (s : String) : Decidable (nulFree s) :=
  inferInstanceAs (Decidable ('\x00' ∉ s.data))

/-- The first character of a string is a NUL character. -/
def startsWithNul (s : String) : Prop :=
  s.data.head? = some '\x00'

instance startsWithNul.decidable (s : String) : Decidable (startsWithNul s) :=
  inferInstanceAs (Decidable (s.data.head? = some '\x00'))

/-! ## Lemmas on strings -/

theorem isEmpty_eq_decide (s : String) : s.isEmpty = decide (s = "") := by
  by_cases h : s = ""
  · subst h; rfl
  · have h1 : s.isEmpty = false := by
      cases hb : s.isEmpty with
      | false => rfl
      | true => exact absurd ((String.isEmpty_iff s).1 hb) h
    rw [h1, decide_eq_false h]

theorem length_eq_zero_iff (s : String) : s.length = 0 ↔ s = "" := by
  constructor
  · intro h
    have hd : s.data.length = 0 := h
    exact String.ext (List.length_eq_zero.1 hd)
  · intro h; subst h; rfl

theorem ne_empty_of_length_pos (s : String) (h : 0 < s.length) : s ≠ "" := by
  intro hs
  rw [(length_eq_zero_iff s).2 hs] at h
  exact Nat.lt_irrefl 0 h

theorem c_str_of_nulFree (s : String) (h : nulFree s) : c_str s = s := by
  apply String.ext
  show s.data.takeWhile _ = s.data
  rw [List.takeWhile_eq_self_iff]
  intro c hc
  simp only [ne_eq, decide_not, Bool.not_eq_true', decide_eq_false_iff_not]
  rintro rfl
  exact h hc

theorem c_str_append (a b : String) (h : nulFree a) : c_str (a ++ b) = a ++ c_str b := by
  apply String.ext
  show (a ++ b).data.takeWhile _ = (a ++ c_str b).data
  rw [String.data_append, String.data_append]
  rw [List.takeWhile_append_of_pos]
  · rfl
  · intro c hc
    simp only [ne_eq, decide_not, Bool.not_eq_true', decide_eq_false_iff_not]
    rintro rfl
    exact h hc

theorem nulFree_append (a b : String) : nulFree (a ++ b) ↔ nulFree a ∧ nulFree b := by
  simp [nulFree, String.data_append, not_or]

theorem c_str_ne_empty (s : String) (hne : s ≠ "") (h : ¬ startsWithNul s) : c_str s ≠ "" := by
  obtain ⟨l⟩ := s
  cases l with
  | nil => exact absurd rfl hne
  | cons c cs =>
    have hc : c ≠ '\x00' := fun e => h (by simp [startsWithNul, e])
    intro hs
    have := congrArg String.data hs
    simp [c_str, List.takeWhile, hc] at this

theorem c_str_append_ne_empty (a b : String) (hne : a ≠ "") (h : ¬ startsWithNul a) :
    c_str (a ++ b) ≠ "" := by
  apply c_str_ne_empty
  · intro hab
    have := congrArg String.length hab
    simp at this
    exact hne (String.ext (List.length_eq_zero.1 this.1))
  · obtain ⟨l⟩ := a
    cases l with
    | nil => exact absurd rfl hne
    | cons c cs =>
      intro hs
      apply h
      simpa [startsWithNul, String.data_append] using hs

theorem c_str_DEFAULT_STRING : c_str DEFAULT_STRING = DEFAULT_STRING := by
  decide

/-! ## Lemmas on `addComponentOf` -/

theorem studyDateTimeLow_six (study : Study) (h : 6 ≤ study.studyTime.length) :
    studyDateTimeLow study = some (dateOrDefault study ++ firstChars 6 study.studyTime) := by
  have hne : study.studyTime ≠ "" := ne_empty_of_length_pos _ (by omega)
  have h4 : 4 ≤ study.studyTime.length := by omega
  have ht : List.take 6 study.studyTime.data
      = List.take 4 study.studyTime.data ++ List.take 2 (List.drop 4 study.studyTime.data) :=
    List.take_add study.studyTime.data 4 2
  have h4n : ¬ study.studyTime.length < 4 := by omega
  simp only [studyDateTimeLow, dateOrDefault, firstChars, substr, isEmpty_eq_decide]
  simp [hne, h4, h, ht, h4n, String.ext_iff]

theorem studyDateTimeLow_four_five (study : Study) (h4 : 4 ≤ study.studyTime.length)
    (h6 : study.studyTime.length < 6) :
    studyDateTimeLow study
      = some (dateOrDefault study ++ firstChars 4 study.studyTime ++ "00") := by
  have hne : study.studyTime ≠ "" := ne_empty_of_length_pos _ (by omega)
  have h6n : ¬ 6 ≤ study.studyTime.length := by omega
  simp only [studyDateTimeLow, dateOrDefault, firstChars, substr, isEmpty_eq_decide]
  simp [hne, h4, h6n]

theorem studyDateTimeLow_short (study : Study) (h : study.studyTime.length < 4) :
    studyDateTimeLow study = some (dateOrDefault study ++ "000000") := by
  have h4n : ¬ 4 ≤ study.studyTime.length := by omega
  simp only [studyDateTimeLow, dateOrDefault, isEmpty_eq_decide]
  simp [h4n]

theorem firstChars_length (n : Nat) (s : String) (h : n ≤ s.length) :
    (firstChars n s).length = n := by
  have hd : n ≤ s.data.length := h
  show (List.take n s.data).length = n
  rw [List.length_take]
  exact Nat.min_eq_left hd

theorem studyDateTimeLow_length (study : Study) :
    ∃ v, studyDateTimeLow study = some v ∧ v.length = (dateOrDefault study).length + 6 := by
  by_cases h4 : study.studyTime.length < 4
  · exact ⟨_, studyDateTimeLow_short study h4, by simp; rfl⟩
  · by_cases h6 : study.studyTime.length < 6
    · refine ⟨_, studyDateTimeLow_four_five study (by omega) h6, ?_⟩
      rw [String.length_append, String.length_append, firstChars_length 4 _ (by omega)]
      rfl
    · refine ⟨_, studyDateTimeLow_six study (by omega), ?_⟩
      rw [String.length_append, firstChars_length 6 _ (by omega)]

theorem nulFree_dateOrDefault (study : Study) (h : nulFree study.studyDate) :
    nulFree (dateOrDefault study) := by
  unfold dateOrDefault
  split_ifs
  · decide
  · exact h

theorem encounterLowValue_addComponentOf (config : AppConfig) (parentNode : XmlNode)
    (study : Study) :
    (addComponentOf config parentNode study).bind encounterLowValue
      = (studyDateTimeLow study).map c_str := by
  cases hlow : studyDateTimeLow study with
  | none => simp [addComponentOf, componentOfNode, hlow]
  | some v =>
    by_cases hc : config.encounterTypeCode.code = ""
    · simp [addComponentOf, componentOfNode, encompassingEncounterNode, encounterCodeNodes, hlow,
        encounterLowValue, last_child, append_child, descend, child, element, append_attribute,
        attributeValue, children, name, attributes, text, isEmpty_eq_decide, hc]
    · simp [addComponentOf, componentOfNode, encompassingEncounterNode, encounterCodeNodes, hlow,
        encounterLowValue, last_child, append_child, descend, child, element, append_attribute,
        attributeValue, children, name, attributes, text, isEmpty_eq_decide, hc]

/-! ## Lemmas on `addRecordTarget` -/

theorem findChar_append_of_not_mem (c : Char) (pre post : List Char) (h : c ∉ pre) :
    findChar c (pre ++ c :: post) = some pre.length := by
  induction pre with
  | nil => simp [findChar]
  | cons x xs ih =>
    have hx : x ≠ c := fun e => h (by simp [e])
    have hxs : c ∉ xs := fun e => h (by simp [e])
    simp [findChar, hx, ih hxs]

theorem findChar_of_not_mem (c : Char) (l : List Char) (h : c ∉ l) : findChar c l = none := by
  induction l with
  | nil => rfl
  | cons x xs ih =>
    have hx : x ≠ c := fun e => h (by simp [e])
    have hxs : c ∉ xs := fun e => h (by simp [e])
    simp [findChar, hx, ih hxs]

theorem recordTargetNameText_addRecordTarget (config : AppConfig) (parentNode : XmlNode)
    (patient : Patient) (f g : String) (hf : familyName patient = some f)
    (hg : givenName patient = some g) :
    (addRecordTarget config parentNode patient).bind (recordTargetNameText "given")
        = some (if g = "" then DEFAULT_STRING else c_str g) ∧
    (addRecordTarget config parentNode patient).bind (recordTargetNameText "family")
        = some (if f = "" then DEFAULT_STRING else c_str f) := by
  constructor <;>
  simp [addRecordTarget, recordTargetNode, patientRoleNode, hf, hg, recordTargetNameText,
    last_child, append_child, descend, child, element, append_attribute, set_text, children,
    name, attributes, text, isEmpty_eq_decide]

theorem split_at_first_space (patient : Patient) (pre post : String)
    (hname : patient.name = pre ++ " " ++ post) (hpre : ' ' ∉ pre.data) :
    familyName patient = some pre ∧ givenName patient = some post := by
  have hdata : patient.name.data = pre.data ++ ' ' :: post.data := by
    rw [hname]; simp [String.data_append]
  have hmem : ' ' ∈ patient.name.data := by rw [hdata]; simp
  have hne : patient.name ≠ "" := by
    intro h; rw [h] at hmem; simp at hmem
  have hunk : patient.name ≠ DEFAULT_STRING := by
    intro h; rw [h] at hmem; revert hmem; decide
  have hfind : find patient.name ' ' = some pre.data.length := by
    unfold find; rw [hdata]; exact findChar_append_of_not_mem ' ' _ _ hpre
  have hlen : patient.name.length = pre.data.length + (post.data.length + 1) := by
    show patient.name.data.length = _
    rw [hdata]; simp
  constructor
  · simp only [familyName, isEmpty_eq_decide, hfind, substr]
    simp [hne, hunk, hlen, hdata, String.ext_iff]
  · have hdrop : List.drop (pre.data.length + 1) (pre.data ++ ' ' :: post.data) = post.data := by
      rw [List.drop_append_eq_append_drop]
      simp
    simp only [givenName, isEmpty_eq_decide, hfind, substrFrom]
    simp [hne, hunk, hlen, hdata, String.ext_iff]
    exact hdrop

theorem no_space_names (patient : Patient) (hne : patient.name ≠ "")
    (hunk : patient.name ≠ DEFAULT_STRING) (hsp : ' ' ∉ patient.name.data) :
    familyName patient = some patient.name ∧ givenName patient = some DEFAULT_STRING := by
  have hfind : find patient.name ' ' = none := findChar_of_not_mem ' ' _ hsp
  constructor
  · simp only [familyName, isEmpty_eq_decide, hfind]
    simp [hne, hunk]
  · simp only [givenName, isEmpty_eq_decide, hfind]
    simp [hne, hunk]

theorem placeholder_names (patient : Patient)
    (h : patient.name = "" ∨ patient.name = DEFAULT_STRING) :
    familyName patient = some DEFAULT_STRING ∧ givenName patient = some DEFAULT_STRING := by
  constructor
  · simp only [familyName, isEmpty_eq_decide]
    rcases h with h | h <;> simp [h]
  · simp only [givenName, isEmpty_eq_decide]
    rcases h with h | h <;> simp [h]

/-! ## Lemmas on the tree -/

namespace XmlNode

@[simp] theorem name_mk (n : String) (a : List (String × String)) (t : Option String)
    (c : List XmlNode) : (mk n a t c).name = n := rfl

@[simp] theorem attributes_mk (n : String) (a : List (String × String)) (t : Option String)
    (c : List XmlNode) : (mk n a t c).attributes = a := rfl

@[simp] theorem text_mk (n : String) (a : List (String × String)) (t : Option String)
    (c : List XmlNode) : (mk n a t c).text = t := rfl

@[simp] theorem children_mk (n : String) (a : List (String × String)) (t : Option String)
    (c : List XmlNode) : (mk n a t c).children = c := rfl

theorem mk_eta (n : XmlNode) : mk n.name n.attributes n.text n.children = n := by
  cases n; rfl

@[simp] theorem name_element (s : String) : (element s).name = s := rfl

@[simp] theorem name_append_attribute (n : XmlNode) (k v : String) :
    (n.append_attribute k v).name = n.name := rfl

@[simp] theorem name_append_child (n c : XmlNode) : (n.append_child c).name = n.name := rfl

@[simp] theorem name_set_text (n : XmlNode) (v : String) : (n.set_text v).name = n.name := rfl

@[simp] theorem children_append_child (n c : XmlNode) :
    (n.append_child c).children = n.children ++ [c] := rfl

@[simp] theorem attributes_append_child (n c : XmlNode) :
    (n.append_child c).attributes = n.attributes := rfl

@[simp] theorem text_append_child (n c : XmlNode) : (n.append_child c).text = n.text := rfl

@[simp] theorem children_element (s : String) : (element s).children = [] := rfl

@[simp] theorem attributes_element (s : String) : (element s).attributes = [] := rfl

@[simp] theorem text_element (s : String) : (element s).text = none := rfl

@[simp] theorem attributes_append_attribute (n : XmlNode) (k v : String) :
    (n.append_attribute k v).attributes = n.attributes ++ [(k, v)] := rfl

@[simp] theorem children_append_attribute (n : XmlNode) (k v : String) :
    (n.append_attribute k v).children = n.children := rfl

@[simp] theorem text_append_attribute (n : XmlNode) (k v : String) :
    (n.append_attribute k v).text = n.text := rfl

@[simp] theorem attributes_set_text (n : XmlNode) (v : String) :
    (n.set_text v).attributes = n.attributes := rfl

@[simp] theorem children_set_text (n : XmlNode) (v : String) :
    (n.set_text v).children = n.children := rfl

@[simp] theorem text_set_text (n : XmlNode) (v : String) : (n.set_text v).text = some v := rfl

@[simp] theorem append_child_mk (n : String) (a : List (String × String)) (t : Option String)
    (cs : List XmlNode) (c : XmlNode) : (mk n a t cs).append_child c = mk n a t (cs ++ [c]) := rfl

theorem foldl_append_child_map {α : Type} (f : α → XmlNode) (l : List α) (n : XmlNode) :
    l.foldl (fun node x => node.append_child (f x)) n
      = mk n.name n.attributes n.text (n.children ++ l.map f) := by
  induction l generalizing n with
  | nil => simp [mk_eta]
  | cons x xs ih => rw [List.foldl_cons, ih]; simp

end XmlNode

/-! ## Lemmas on the assembled document -/

@[simp] theorem declarationNode_name : declarationNode.name = "xml" := rfl

@[simp] theorem realmCodeNode_name (config : AppConfig) :
    (realmCodeNode config).name = "realmCode" := rfl

@[simp] theorem typeIdNode_name (config : AppConfig) : (typeIdNode config).name = "typeId" := rfl

@[simp] theorem templateIdNode_name (tmplId : TemplateIdConfig) :
    (templateIdNode tmplId).name = "templateId" := by
  simp only [templateIdNode]
  split <;> rfl

@[simp] theorem documentIdNode_name (config : AppConfig) (documentIdExt : String) :
    (documentIdNode config documentIdExt).name = "id" := rfl

@[simp] theorem documentCodeNode_name (config : AppConfig) :
    (documentCodeNode config).name = "code" := rfl

@[simp] theorem titleNode_name (config : AppConfig) (study : Study) :
    (titleNode config study).name = "title" := rfl

@[simp] theorem effectiveTimeNode_name (effectiveTime : String) :
    (effectiveTimeNode effectiveTime).name = "effectiveTime" := rfl

@[simp] theorem confidentialityCodeNode_name (config : AppConfig) :
    (confidentialityCodeNode config).name = "confidentialityCode" := by
  unfold confidentialityCodeNode
  repeat' split
  all_goals rfl

@[simp] theorem languageCodeNode_name (config : AppConfig) :
    (languageCodeNode config).name = "languageCode" := rfl

@[simp] theorem authorNode_name (config : AppConfig) (effectiveTime : String) :
    (authorNode config effectiveTime).name = "author" := rfl

@[simp] theorem custodianNode_name (config : AppConfig) :
    (custodianNode config).name = "custodian" := rfl

@[simp] theorem structuredBodyNode_name (config : AppConfig) (study : Study) :
    (structuredBodyNode config study).name = "component" := rfl

theorem find?_templateIdNode (l : List TemplateIdConfig) (nm : String)
    (h : nm ≠ "templateId") :
    (l.map templateIdNode).find? (fun c => decide (c.name = nm)) = none := by
  induction l with
  | nil => rfl
  | cons x xs ih =>
    have hx : ¬ "templateId" = nm := fun e => h e.symm
    simp [List.find?_cons, hx, ih]

theorem findChar_lt_length (c : Char) (l : List Char) (n : Nat) (h : findChar c l = some n) :
    n < l.length := by
  induction l generalizing n with
  | nil => simp [findChar] at h
  | cons x xs ih =>
    by_cases hx : x = c
    · simp [findChar, hx] at h
      subst h; simp
    · simp [findChar, hx] at h
      obtain ⟨m, hm, rfl⟩ := h
      have := ih m hm
      simp; omega

theorem familyName_total (patient : Patient) : ∃ f, familyName patient = some f := by
  unfold familyName
  split
  · exact ⟨_, rfl⟩
  · split
    · rename_i space_pos _
      exact ⟨⟨(patient.name.data.drop 0).take space_pos⟩, by simp [substr]⟩
    · exact ⟨_, rfl⟩

theorem givenName_total (patient : Patient) : ∃ g, givenName patient = some g := by
  unfold givenName
  split
  · exact ⟨_, rfl⟩
  · split
    · rename_i space_pos hfind
      have hlt : space_pos < patient.name.length := findChar_lt_length ' ' _ _ hfind
      have hn : ¬ space_pos + 1 > patient.name.length := by omega
      exact ⟨⟨patient.name.data.drop (space_pos + 1)⟩, by simp [substrFrom, hn]⟩
    · exact ⟨_, rfl⟩

theorem recordTargetNode_total (config : AppConfig) (patient : Patient) :
    ∃ f g, recordTargetNode config patient
      = some ((element "recordTarget").append_child (patientRoleNode config patient f g)) := by
  obtain ⟨f, hf⟩ := familyName_total patient
  obtain ⟨g, hg⟩ := givenName_total patient
  exact ⟨f, g, by simp [recordTargetNode, hf, hg]⟩

theorem componentOfNode_total (config : AppConfig) (study : Study) :
    ∃ v, componentOfNode config study
      = some ((element "componentOf").append_child (encompassingEncounterNode config study v)) := by
  obtain ⟨v, hv, _⟩ := studyDateTimeLow_length study
  exact ⟨v, by simp [componentOfNode, hv]⟩

theorem addHeader_newDocument (config : AppConfig) (patient : Patient) (study : Study)
    (effectiveTime documentIdExt : String) :
    addHeader config (newDocument config) patient study effectiveTime documentIdExt
      = mk "" [] none [declarationNode,
          mk "ClinicalDocument" (clinicalDocumentAttributes config) none
            (headerNodes config study effectiveTime documentIdExt)] := by
  simp [addHeader, newDocument, child, modify_child, modifyFirst, foldl_append_child_map,
    headerNodes]

theorem generateORUDocument_eq (config : AppConfig) (patient : Patient) (study : Study)
    (effectiveTime documentIdExtension : String) (rt co : XmlNode)
    (hrt : recordTargetNode config patient = some rt)
    (hco : componentOfNode config study = some co) :
    generateORUDocument config patient study effectiveTime documentIdExtension
      = some (mk "" [] none [declarationNode,
          mk "ClinicalDocument" (clinicalDocumentAttributes config) none
            (headerNodes config study effectiveTime documentIdExtension ++
              [rt, authorNode config effectiveTime, custodianNode config, co,
               structuredBodyNode config study])]) := by
  have h := addHeader_newDocument config patient study effectiveTime documentIdExtension
  simp only [generateORUDocument]
  rw [h]
  simp [child, modify_child, modifyFirst, addRecordTarget, addAuthor, addCustodian,
    addComponentOf, addStructuredBody, hrt, hco]

theorem generateORUDocument_total (config : AppConfig) (patient : Patient) (study : Study)
    (effectiveTime documentIdExtension : String) :
    ∃ f g v, generateORUDocument config patient study effectiveTime documentIdExtension
      = some (assembledDocument config patient study effectiveTime documentIdExtension f g v) := by
  obtain ⟨f, g, hrt⟩ := recordTargetNode_total config patient
  obtain ⟨v, hco⟩ := componentOfNode_total config study
  exact ⟨f, g, v, generateORUDocument_eq config patient study effectiveTime documentIdExtension
    _ _ hrt hco⟩

theorem attributeAt_nil (attr : String) (n : XmlNode) :
    attributeAt [] attr n = n.attributeValue attr := rfl

theorem attributeAt_cons (nm : String) (path : List String) (attr : String) (n : XmlNode) :
    attributeAt (nm :: path) attr n = (n.child nm).bind (attributeAt path attr) := by
  simp only [attributeAt, descend]
  cases n.child nm <;> rfl

theorem textAt_cons (nm : String) (path : List String) (n : XmlNode) :
    textAt (nm :: path) n = (n.child nm).bind (textAt path) := by
  simp only [textAt, descend]
  cases n.child nm <;> rfl

theorem child_document (a : List (String × String)) (cs : List XmlNode) :
    (mk "" [] none [declarationNode, mk "ClinicalDocument" a none cs]).child "ClinicalDocument"
      = some (mk "ClinicalDocument" a none cs) := by
  simp [child]

theorem child_header_id (config : AppConfig) (study : Study)
    (effectiveTime documentIdExt : String) (a : List (String × String)) (tail : List XmlNode) :
    (mk "ClinicalDocument" a none
        (headerNodes config study effectiveTime documentIdExt ++ tail)).child "id"
      = some (documentIdNode config documentIdExt) := by
  simp [child, headerNodes, List.find?_append, find?_templateIdNode]

theorem child_past_header (config : AppConfig) (study : Study)
    (effectiveTime documentIdExt : String) (a : List (String × String)) (tail : List XmlNode)
    (nm : String)
    (hnm : nm ∉ ["realmCode", "typeId", "templateId", "id", "code", "title", "effectiveTime",
      "confidentialityCode", "languageCode"]) :
    (mk "ClinicalDocument" a none
        (headerNodes config study effectiveTime documentIdExt ++ tail)).child nm
      = tail.find? (fun c => decide (c.name = nm)) := by
  simp only [List.mem_cons, List.mem_singleton, not_or, List.not_mem_nil, not_false_eq_true,
    and_true] at hnm
  obtain ⟨h1, h2, h3, h4, h5, h6, h7, h8, h9⟩ := hnm
  have h3' : (List.map templateIdNode config.templateIds).find?
      (fun c => decide (c.name = nm)) = none := find?_templateIdNode _ _ h3
  simp [child, headerNodes, List.find?_append, h3', Ne.symm h1, Ne.symm h2,
    Ne.symm h4, Ne.symm h5, Ne.symm h6, Ne.symm h7, Ne.symm h8, Ne.symm h9]

theorem resolve_precedence : resolve ["", "B", "C"] "D" = "B" ∧ resolve ["", "", ""] "D" = "D" := by
  decide

theorem resolve_two (a b builtIn : String) :
    resolve [a, b] builtIn = if a.isEmpty then (if b.isEmpty then builtIn else b) else a := by
  by_cases ha : a = "" <;> by_cases hb : b = "" <;> simp [resolve, isEmpty_eq_decide, ha, hb]

theorem docIdRoot_eq_resolve (config : AppConfig) :
    docIdRoot config
      = resolve [config.documentIdRootOid, config.organizationOid] DEFAULT_OID_ROOT :=
  (resolve_two _ _ _).symm

theorem authorRoot_eq_resolve (config : AppConfig) :
    authorRoot config
      = resolve [config.authorIdRootOid, config.organizationOid] DEFAULT_OID_ROOT :=
  (resolve_two _ _ _).symm

theorem custodianRoot_eq_resolve (config : AppConfig) :
    custodianRoot config
      = resolve [config.custodianOrgIdRootOid, config.organizationOid] DEFAULT_OID_ROOT :=
  (resolve_two _ _ _).symm

theorem facilityRoot_eq_resolve (config : AppConfig) :
    facilityRoot config
      = resolve [config.locationFacilityIdRootOid, config.organizationOid] DEFAULT_OID_ROOT :=
  (resolve_two _ _ _).symm

theorem authorExt_eq_resolve (config : AppConfig) :
    authorExt config
      = resolve [config.authorIdExtension, config.defaultSendingApplication] DEFAULT_STRING :=
  (resolve_two _ _ _).symm

theorem orgName_eq_resolve (config : AppConfig) :
    orgName config = resolve [config.custodianOrgName, config.sendingFacility] DEFAULT_STRING :=
  (resolve_two _ _ _).symm

theorem facilityName_eq_resolve (config : AppConfig) :
    facilityName config
      = resolve [config.locationFacilityName, config.sendingFacility] DEFAULT_STRING :=
  (resolve_two _ _ _).symm

theorem encounterExt_eq_resolve (study : Study) :
    encounterExt study
      = c_str (resolve [study.accessionNumber, study.studyInstanceUID] DEFAULT_STRING) := by
  by_cases ha : study.accessionNumber = "" <;> by_cases hu : study.studyInstanceUID = "" <;>
    simp [encounterExt, resolve, isEmpty_eq_decide, ha, hu, c_str_DEFAULT_STRING]

/-- The extension attribute that `addCustodian` and `addComponentOf` give an
organisation id: the configured one, else the placeholder when the root is the
placeholder root, else none. -/
theorem organisation_extension_cases (ext root : String) :
    (if ext ≠ "" then some ext else if root = DEFAULT_OID_ROOT then some DEFAULT_STRING else none)
      = (if (!ext.isEmpty) = true then some ext
         else if root = DEFAULT_OID_ROOT then some DEFAULT_STRING else none) := by
  by_cases he : ext = "" <;> simp [isEmpty_eq_decide, he]

theorem authorNode_id (config : AppConfig) (effectiveTime : String) :
    attributeAt ["assignedAuthor", "id"] "root" (authorNode config effectiveTime)
        = some (authorRoot config) ∧
    attributeAt ["assignedAuthor", "id"] "extension" (authorNode config effectiveTime)
        = some (authorExt config) := by
  constructor <;> simp [attributeAt, authorNode, descend, child, attributeValue]

theorem custodianNode_id (config : AppConfig) :
    attributeAt ["assignedCustodian", "representedCustodianOrganization", "id"] "root"
        (custodianNode config) = some (custodianRoot config) ∧
    attributeAt ["assignedCustodian", "representedCustodianOrganization", "id"] "extension"
        (custodianNode config)
      = (if config.custodianOrgIdExtension ≠ "" then some config.custodianOrgIdExtension
         else if custodianRoot config = DEFAULT_OID_ROOT then some DEFAULT_STRING else none) ∧
    textAt ["assignedCustodian", "representedCustodianOrganization", "name"]
        (custodianNode config) = some (orgName config) := by
  rw [organisation_extension_cases]
  simp only [custodianNode]
  generalize custodianRoot config = r
  refine ⟨?_, ?_, ?_⟩ <;> split_ifs <;>
    simp_all [attributeAt, textAt, descend, child, attributeValue]

theorem locationNode_id (config : AppConfig) :
    attributeAt ["healthCareFacility", "id"] "root" (locationNode config)
        = some (facilityRoot config) ∧
    attributeAt ["healthCareFacility", "id"] "extension" (locationNode config)
      = (if config.locationFacilityIdExtension ≠ "" then some config.locationFacilityIdExtension
         else if facilityRoot config = DEFAULT_OID_ROOT then some DEFAULT_STRING else none) ∧
    textAt ["healthCareFacility", "location", "name"] (locationNode config)
        = some (facilityName config) := by
  rw [organisation_extension_cases]
  simp only [locationNode]
  generalize facilityRoot config = r
  refine ⟨?_, ?_, ?_⟩ <;> split_ifs <;>
    simp_all [attributeAt, textAt, descend, child, attributeValue]

theorem encompassingEncounterNode_parts (config : AppConfig) (study : Study) (v : String) :
    (encompassingEncounterNode config study v).name = "encompassingEncounter" ∧
    attributeAt ["id"] "extension" (encompassingEncounterNode config study v)
        = some (encounterExt study) ∧
    (encompassingEncounterNode config study v).child "location" = some (locationNode config) := by
  have hloc : (locationNode config).name = "location" := by
    simp only [locationNode]; rfl
  by_cases hc : config.encounterTypeCode.code = "" <;>
    simp [encompassingEncounterNode, encounterCodeNodes, isEmpty_eq_decide, hc, hloc,
      attributeAt, descend, child, attributeValue]

theorem attributeAt_document_id (config : AppConfig) (patient : Patient) (study : Study)
    (effectiveTime documentIdExt f g v : String) (attr : String) :
    attributeAt ["ClinicalDocument", "id"] attr
        (assembledDocument config patient study effectiveTime documentIdExt f g v)
      = (documentIdNode config documentIdExt).attributeValue attr := by
  rw [assembledDocument, attributeAt_cons, child_document, Option.some_bind, attributeAt_cons,
    child_header_id, Option.some_bind, attributeAt_nil]

theorem attributeAt_author (config : AppConfig) (patient : Patient) (study : Study)
    (effectiveTime documentIdExt f g v : String) (path : List String) (attr : String) :
    attributeAt ("ClinicalDocument" :: "author" :: path) attr
        (assembledDocument config patient study effectiveTime documentIdExt f g v)
      = attributeAt path attr (authorNode config effectiveTime) := by
  rw [assembledDocument, attributeAt_cons, child_document, Option.some_bind, attributeAt_cons,
    child_past_header _ _ _ _ _ _ _ (by decide)]
  simp

theorem attributeAt_custodian (config : AppConfig) (patient : Patient) (study : Study)
    (effectiveTime documentIdExt f g v : String) (path : List String) (attr : String) :
    attributeAt ("ClinicalDocument" :: "custodian" :: path) attr
        (assembledDocument config patient study effectiveTime documentIdExt f g v)
      = attributeAt path attr (custodianNode config) := by
  rw [assembledDocument, attributeAt_cons, child_document, Option.some_bind, attributeAt_cons,
    child_past_header _ _ _ _ _ _ _ (by decide)]
  simp

theorem attributeAt_encounter (config : AppConfig) (patient : Patient) (study : Study)
    (effectiveTime documentIdExt f g v : String) (path : List String) (attr : String) :
    attributeAt ("ClinicalDocument" :: "componentOf" :: "encompassingEncounter" :: path) attr
        (assembledDocument config patient study effectiveTime documentIdExt f g v)
      = attributeAt path attr (encompassingEncounterNode config study v) := by
  obtain ⟨hn, _, _⟩ := encompassingEncounterNode_parts config study v
  rw [assembledDocument, attributeAt_cons, child_document, Option.some_bind, attributeAt_cons,
    child_past_header _ _ _ _ _ _ _ (by decide)]
  simp [attributeAt_cons, child, hn]

theorem textAt_custodian (config : AppConfig) (patient : Patient) (study : Study)
    (effectiveTime documentIdExt f g v : String) (path : List String) :
    textAt ("ClinicalDocument" :: "custodian" :: path)
        (assembledDocument config patient study effectiveTime documentIdExt f g v)
      = textAt path (custodianNode config) := by
  rw [assembledDocument, textAt_cons, child_document, Option.some_bind, textAt_cons,
    child_past_header _ _ _ _ _ _ _ (by decide)]
  simp

theorem textAt_encounter (config : AppConfig) (patient : Patient) (study : Study)
    (effectiveTime documentIdExt f g v : String) (path : List String) :
    textAt ("ClinicalDocument" :: "componentOf" :: "encompassingEncounter" :: path)
        (assembledDocument config patient study effectiveTime documentIdExt f g v)
      = textAt path (encompassingEncounterNode config study v) := by
  obtain ⟨hn, _, _⟩ := encompassingEncounterNode_parts config study v
  rw [assembledDocument, textAt_cons, child_document, Option.some_bind, textAt_cons,
    child_past_header _ _ _ _ _ _ _ (by decide)]
  simp [textAt_cons, child, hn]

/-! ## The composite encounter time -/

/-- C1, as stated, fails: for the study date `2024`, NUL, `115` and the study
time `143000` the low value is `2024`, the text before the NUL, and not the
date followed by the six characters of the time. -/
theorem addComponentOf_low_six_cut_at_nul :
    6 ≤ ("143000" : String).length ∧
    (addComponentOf {} (element "ClinicalDocument")
        { studyDate := "2024\x00115", studyTime := "143000" }).bind encounterLowValue
      = some "2024" ∧
    dateOrDefault { studyDate := "2024\x00115", studyTime := "143000" } ++
        firstChars 6 "143000" = "2024\x00115143000" ∧
    ("2024" : String) ≠ "2024\x00115143000" := by
  decide

/-- C1, amended: in `addComponentOf`, a study time of at least 6 characters
yields as low value the text `D ++ (first 6 characters of studyTime)` up to
its first NUL character, `D` being the study date or `19000101` when the
study date is empty; when the study date and those six characters hold no
NUL character the low value is `D ++ (first 6 characters of studyTime)`
itself. -/
theorem addComponentOf_low_six (config : AppConfig) (parentNode : XmlNode) (study : Study)
    (h : 6 ≤ study.studyTime.length) :
    (addComponentOf config parentNode study).bind encounterLowValue
      = some (c_str (dateOrDefault study ++ firstChars 6 study.studyTime)) ∧
    (nulFree study.studyDate → nulFree (firstChars 6 study.studyTime) →
      (addComponentOf config parentNode study).bind encounterLowValue
        = some (dateOrDefault study ++ firstChars 6 study.studyTime)) := by
  have hlow : (addComponentOf config parentNode study).bind encounterLowValue
      = some (c_str (dateOrDefault study ++ firstChars 6 study.studyTime)) := by
    rw [encounterLowValue_addComponentOf, studyDateTimeLow_six study h]
    rfl
  refine ⟨hlow, fun hd ht => ?_⟩
  rw [hlow, c_str_of_nulFree _
    ((nulFree_append _ _).2 ⟨nulFree_dateOrDefault study hd, ht⟩)]

theorem addComponentOf_low_six_witness :
    6 ≤ ({ studyDate := "20240115", studyTime := "143000" } : Study).studyTime.length ∧
    (addComponentOf {} (element "ClinicalDocument")
        { studyDate := "20240115", studyTime := "143000" }).bind encounterLowValue
      = some "20240115143000" :=
  ⟨by decide,
    (addComponentOf_low_six {} (element "ClinicalDocument")
      { studyDate := "20240115", studyTime := "143000" } (by decide)).2
      (by decide) (by decide)⟩

/-- C2, as stated, fails: for the study date `20240115` and the study time
`14`, NUL, NUL, of four characters, the low value is `2024011514`, the text
before the first NUL, and not the date followed by the four characters of the
time and `00`. -/
theorem addComponentOf_low_four_five_cut_at_nul :
    ("14\x00\x00" : String).length = 4 ∧
    (addComponentOf {} (element "ClinicalDocument")
        { studyDate := "20240115", studyTime := "14\x00\x00" }).bind encounterLowValue
      = some "2024011514" ∧
    dateOrDefault { studyDate := "20240115", studyTime := "14\x00\x00" } ++
        firstChars 4 "14\x00\x00" ++ "00" = "2024011514\x00\x0000" ∧
    ("2024011514" : String) ≠ "2024011514\x00\x0000" := by
  decide

/-- C2, amended: in `addComponentOf`, a study time of exactly 4 or 5
characters yields as low value the text
`D ++ (first 4 characters of studyTime) ++ "00"` up to its first NUL
character; when the study date and those four characters hold no NUL
character the low value is that text itself. -/
theorem addComponentOf_low_four_five (config : AppConfig) (parentNode : XmlNode)
    (study : Study) (h : study.studyTime.length = 4 ∨ study.studyTime.length = 5) :
    (addComponentOf config parentNode study).bind encounterLowValue
      = some (c_str (dateOrDefault study ++ firstChars 4 study.studyTime ++ "00")) ∧
    (nulFree study.studyDate → nulFree (firstChars 4 study.studyTime) →
      (addComponentOf config parentNode study).bind encounterLowValue
        = some (dateOrDefault study ++ firstChars 4 study.studyTime ++ "00")) := by
  have hlow : (addComponentOf config parentNode study).bind encounterLowValue
      = some (c_str (dateOrDefault study ++ firstChars 4 study.studyTime ++ "00")) := by
    rw [encounterLowValue_addComponentOf,
      studyDateTimeLow_four_five study (by omega) (by omega)]
    rfl
  refine ⟨hlow, fun hd ht => ?_⟩
  rw [hlow, c_str_of_nulFree _
    ((nulFree_append _ _).2 ⟨(nulFree_append _ _).2 ⟨nulFree_dateOrDefault study hd, ht⟩,
      by decide⟩)]

theorem addComponentOf_low_four_five_witness :
    (addComponentOf {} (element "ClinicalDocument")
        { studyDate := "20240115", studyTime := "1430" }).bind encounterLowValue
      = some "20240115143000" ∧
    (addComponentOf {} (element "ClinicalDocument")
        { studyDate := "", studyTime := "14305" }).bind encounterLowValue
      = some "19000101143000" :=
  ⟨(addComponentOf_low_four_five {} (element "ClinicalDocument")
      { studyDate := "20240115", studyTime := "1430" } (by decide)).2 (by decide) (by decide),
   (addComponentOf_low_four_five {} (element "ClinicalDocument")
      { studyDate := "", studyTime := "14305" } (by decide)).2 (by decide) (by decide)⟩

/-- C3, as stated, fails: for the study date `2024`, NUL, `115`, of eight
characters, and an empty study time the low value is `2024`, the text before
the NUL, and not the date followed by `000000`. -/
theorem addComponentOf_low_no_time_cut_at_nul :
    (addComponentOf {} (element "ClinicalDocument")
        { studyDate := "2024\x00115", studyTime := "" }).bind encounterLowValue
      = some "2024" ∧
    dateOrDefault { studyDate := "2024\x00115", studyTime := "" } ++ "000000"
      = "2024\x00115000000" ∧
    ("2024" : String) ≠ "2024\x00115000000" := by
  decide

/-- C3, amended: in `addComponentOf`, an empty study time yields as low value
the text `D ++ "000000"` up to its first NUL character; when the study date
holds no NUL character the low value is `D ++ "000000"` itself: the date
`20240115` gives `20240115000000` and an empty date gives
`19000101000000`. -/
theorem addComponentOf_low_no_time (config : AppConfig) (parentNode : XmlNode)
    (study : Study) (h : study.studyTime = "") :
    (addComponentOf config parentNode study).bind encounterLowValue
      = some (c_str (dateOrDefault study ++ "000000")) ∧
    (nulFree study.studyDate →
      (addComponentOf config parentNode study).bind encounterLowValue
        = some (dateOrDefault study ++ "000000")) := by
  have hlow : (addComponentOf config parentNode study).bind encounterLowValue
      = some (c_str (dateOrDefault study ++ "000000")) := by
    rw [encounterLowValue_addComponentOf,
      studyDateTimeLow_short study (by rw [h]; decide)]
    rfl
  refine ⟨hlow, fun hd => ?_⟩
  rw [hlow, c_str_of_nulFree _
    ((nulFree_append _ _).2 ⟨nulFree_dateOrDefault study hd, by decide⟩)]

theorem addComponentOf_low_no_time_witness :
    (addComponentOf {} (element "ClinicalDocument")
        { studyDate := "20240115", studyTime := "" }).bind encounterLowValue
      = some "20240115000000" ∧
    (addComponentOf {} (element "ClinicalDocument")
        { studyDate := "", studyTime := "" }).bind encounterLowValue
      = some "19000101000000" :=
  ⟨(addComponentOf_low_no_time {} (element "ClinicalDocument")
      { studyDate := "20240115", studyTime := "" } rfl).2 (by decide),
   (addComponentOf_low_no_time {} (element "ClinicalDocument")
      { studyDate := "", studyTime := "" } rfl).2 (by decide)⟩

/-- C5: in `addRecordTarget`, a patient name that contains a space, written
as `pre ++ " " ++ post` with no space in `pre`, has the family-name candidate
`pre` (the text before the first space) and the given-name candidate `post`
(all the text after it); each candidate is emitted as the element text up to
its first NUL character, the placeholder standing in for an empty
candidate. -/
theorem addRecordTarget_split_at_first_space (config : AppConfig) (parentNode : XmlNode)
    (patient : Patient) (pre post : String)
    (hname : patient.name = pre ++ " " ++ post) (hpre : ' ' ∉ pre.data) :
    familyName patient = some pre ∧ givenName patient = some post ∧
    (addRecordTarget config parentNode patient).bind (recordTargetNameText "family")
        = some (if pre = "" then "Unknown" else c_str pre) ∧
    (addRecordTarget config parentNode patient).bind (recordTargetNameText "given")
        = some (if post = "" then "Unknown" else c_str post) := by
  obtain ⟨hf, hg⟩ := split_at_first_space patient pre post hname hpre
  obtain ⟨h1, h2⟩ := recordTargetNameText_addRecordTarget config parentNode patient pre post hf hg
  exact ⟨hf, hg, h2, h1⟩

theorem addRecordTarget_split_at_first_space_witness :
    familyName { name := "Doe Jane" } = some "Doe" ∧
    givenName { name := "Doe Jane" } = some "Jane" ∧
    (addRecordTarget {} (element "ClinicalDocument") { name := "Doe Jane" }).bind
        (recordTargetNameText "family") = some "Doe" ∧
    (addRecordTarget {} (element "ClinicalDocument") { name := "Doe Jane" }).bind
        (recordTargetNameText "given") = some "Jane" :=
  addRecordTarget_split_at_first_space {} (element "ClinicalDocument") { name := "Doe Jane" }
    "Doe" "Jane" (by decide) (by decide)

/-- C6, as stated, fails: the name `Ma`, NUL, `donna` is non-empty, differs
from `Unknown` and contains no space, yet the emitted family text is `Ma`,
the text before the NUL, and not the whole name. -/
theorem addRecordTarget_single_token_cut_at_nul :
    ("Ma\x00donna" : String) ≠ "" ∧ ("Ma\x00donna" : String) ≠ "Unknown" ∧
    ' ' ∉ ("Ma\x00donna" : String).data ∧
    (addRecordTarget {} (element "ClinicalDocument") { name := "Ma\x00donna" }).bind
        (recordTargetNameText "family") = some "Ma" ∧
    ("Ma" : String) ≠ "Ma\x00donna" := by
  decide

/-- C6, amended: in `addRecordTarget`, for a patient name that is non-empty,
differs from `Unknown` and contains no space, the emitted family element text
is the name up to its first NUL character, the whole name when it holds no
NUL character, and the emitted given element text is the placeholder
`Unknown`. -/
theorem addRecordTarget_single_token (config : AppConfig) (parentNode : XmlNode)
    (patient : Patient) (hne : patient.name ≠ "") (hunk : patient.name ≠ "Unknown")
    (hsp : ' ' ∉ patient.name.data) :
    (addRecordTarget config parentNode patient).bind (recordTargetNameText "family")
        = some (c_str patient.name) ∧
    (addRecordTarget config parentNode patient).bind (recordTargetNameText "given")
        = some "Unknown" ∧
    (nulFree patient.name →
      (addRecordTarget config parentNode patient).bind (recordTargetNameText "family")
        = some patient.name) := by
  obtain ⟨hf, hg⟩ := no_space_names patient hne hunk hsp
  obtain ⟨h1, h2⟩ := recordTargetNameText_addRecordTarget config parentNode patient _ _ hf hg
  rw [if_neg hne] at h2
  rw [if_neg (by decide), c_str_DEFAULT_STRING] at h1
  refine ⟨h2, h1, fun hfree => ?_⟩
  rw [h2, c_str_of_nulFree _ hfree]

theorem addRecordTarget_single_token_witness :
    (addRecordTarget {} (element "ClinicalDocument") { name := "Madonna" }).bind
        (recordTargetNameText "family") = some "Madonna" ∧
    (addRecordTarget {} (element "ClinicalDocument") { name := "Madonna" }).bind
        (recordTargetNameText "given") = some "Unknown" :=
  ⟨(addRecordTarget_single_token {} (element "ClinicalDocument") { name := "Madonna" }
      (by decide) (by decide) (by decide)).2.2 (by decide),
   (addRecordTarget_single_token {} (element "ClinicalDocument") { name := "Madonna" }
      (by decide) (by decide) (by decide)).2.1⟩

/-- C7: in `addRecordTarget`, when the patient name is empty or equals the
placeholder `Unknown`, the given element text and the family element text are
both `Unknown`. -/
theorem addRecordTarget_placeholder_name (config : AppConfig) (parentNode : XmlNode)
    (patient : Patient) (h : patient.name = "" ∨ patient.name = "Unknown") :
    (addRecordTarget config parentNode patient).bind (recordTargetNameText "given")
        = some "Unknown" ∧
    (addRecordTarget config parentNode patient).bind (recordTargetNameText "family")
        = some "Unknown" := by
  obtain ⟨hf, hg⟩ := placeholder_names patient h
  obtain ⟨h1, h2⟩ := recordTargetNameText_addRecordTarget config parentNode patient _ _ hf hg
  rw [if_neg (by decide), c_str_DEFAULT_STRING] at h1 h2
  exact ⟨h1, h2⟩

theorem addRecordTarget_placeholder_name_witness :
    ((addRecordTarget {} (element "ClinicalDocument") { name := "" }).bind
        (recordTargetNameText "given") = some "Unknown" ∧
      (addRecordTarget {} (element "ClinicalDocument") { name := "" }).bind
        (recordTargetNameText "family") = some "Unknown") ∧
    ((addRecordTarget {} (element "ClinicalDocument") { name := "Unknown" }).bind
        (recordTargetNameText "given") = some "Unknown" ∧
      (addRecordTarget {} (element "ClinicalDocument") { name := "Unknown" }).bind
        (recordTargetNameText "family") = some "Unknown") :=
  ⟨addRecordTarget_placeholder_name {} (element "ClinicalDocument") { name := "" }
      (Or.inl rfl),
   addRecordTarget_placeholder_name {} (element "ClinicalDocument") { name := "Unknown" }
      (Or.inr rfl)⟩

/-! ## Fallback chains of the organisation identifiers -/

/-- C8: in the document that `generateORUMessage` builds, the root attribute
of the document id, of the assigned-author id, of the custodian organization
id and of the healthcare-facility id is the first non-empty value of: the
per-section OID of the configuration, then `organizationOid`, then the
built-in placeholder `2.25.0.0.0.0`. -/
theorem generateORUDocument_id_roots (config : AppConfig) (patient : Patient) (study : Study)
    (effectiveTime documentIdExtension : String) :
    ∃ doc, generateORUDocument config patient study effectiveTime documentIdExtension = some doc ∧
      attributeAt ["ClinicalDocument", "id"] "root" doc
        = some (resolve [config.documentIdRootOid, config.organizationOid] "2.25.0.0.0.0") ∧
      attributeAt ["ClinicalDocument", "author", "assignedAuthor", "id"] "root" doc
        = some (resolve [config.authorIdRootOid, config.organizationOid] "2.25.0.0.0.0") ∧
      attributeAt ["ClinicalDocument", "custodian", "assignedCustodian",
          "representedCustodianOrganization", "id"] "root" doc
        = some (resolve [config.custodianOrgIdRootOid, config.organizationOid] "2.25.0.0.0.0") ∧
      attributeAt ["ClinicalDocument", "componentOf", "encompassingEncounter", "location",
          "healthCareFacility", "id"] "root" doc
        = some (resolve [config.locationFacilityIdRootOid, config.organizationOid]
            "2.25.0.0.0.0") := by
  obtain ⟨f, g, v, hdoc⟩ :=
    generateORUDocument_total config patient study effectiveTime documentIdExtension
  refine ⟨_, hdoc, ?_, ?_, ?_, ?_⟩
  · rw [attributeAt_document_id]
    simp only [documentIdNode, docIdRoot_eq_resolve]
    simp [attributeValue, DEFAULT_OID_ROOT]
  · rw [attributeAt_author, (authorNode_id config effectiveTime).1, authorRoot_eq_resolve]
    rfl
  · rw [attributeAt_custodian, (custodianNode_id config).1, custodianRoot_eq_resolve]
    rfl
  · rw [attributeAt_encounter, attributeAt_cons,
      (encompassingEncounterNode_parts config study v).2.2,
      Option.some_bind, (locationNode_id config).1, facilityRoot_eq_resolve]
    rfl

/-- C9: for the custodian organization id and for the healthcare-facility id
of the document that `generateORUMessage` builds, with `root` the emitted
(resolved) root attribute: a non-empty configured per-section extension is
emitted as the extension attribute; otherwise the extension attribute is the
placeholder `Unknown` when `root` equals the built-in placeholder root
`2.25.0.0.0.0`, and there is no extension attribute when `root` is any other
value. -/
theorem generateORUDocument_id_extensions (config : AppConfig) (patient : Patient)
    (study : Study) (effectiveTime documentIdExtension : String) :
    ∃ doc custodianRoot facilityRoot,
      generateORUDocument config patient study effectiveTime documentIdExtension = some doc ∧
      attributeAt ["ClinicalDocument", "custodian", "assignedCustodian",
          "representedCustodianOrganization", "id"] "root" doc = some custodianRoot ∧
      attributeAt ["ClinicalDocument", "custodian", "assignedCustodian",
          "representedCustodianOrganization", "id"] "extension" doc
        = (if config.custodianOrgIdExtension ≠ "" then some config.custodianOrgIdExtension
           else if custodianRoot = "2.25.0.0.0.0" then some "Unknown" else none) ∧
      attributeAt ["ClinicalDocument", "componentOf", "encompassingEncounter", "location",
          "healthCareFacility", "id"] "root" doc = some facilityRoot ∧
      attributeAt ["ClinicalDocument", "componentOf", "encompassingEncounter", "location",
          "healthCareFacility", "id"] "extension" doc
        = (if config.locationFacilityIdExtension ≠ "" then
             some config.locationFacilityIdExtension
           else if facilityRoot = "2.25.0.0.0.0" then some "Unknown" else none) := by
  obtain ⟨f, g, v, hdoc⟩ :=
    generateORUDocument_total config patient study effectiveTime documentIdExtension
  obtain ⟨hcr, hce, _⟩ := custodianNode_id config
  obtain ⟨hfr, hfe, _⟩ := locationNode_id config
  obtain ⟨_, _, hloc⟩ := encompassingEncounterNode_parts config study v
  refine ⟨_, custodianRoot config, facilityRoot config, hdoc, ?_, ?_, ?_, ?_⟩
  · rw [attributeAt_custodian, hcr]
  · rw [attributeAt_custodian, hce]; rfl
  · rw [attributeAt_encounter, attributeAt_cons, hloc, Option.some_bind, hfr]
  · rw [attributeAt_encounter, attributeAt_cons, hloc, Option.some_bind, hfe]; rfl

/-! ## Three-level fallbacks -/

/-- C10, as stated, fails: with the accession number NUL (one character) and
the study instance UID `1.2.3`, the first non-empty candidate of the
encounter id extension is the accession number, yet the emitted extension is
empty: it is neither candidate nor `Unknown`.  With the accession number
`A1`, NUL, NUL the emitted extension is `A1`. -/
theorem encounter_extension_cut_at_nul :
    resolve ["\x00", "1.2.3"] "Unknown" = "\x00" ∧
    (generateORUDocument {} {} { accessionNumber := "\x00", studyInstanceUID := "1.2.3" }
        "20240115143000+0100" "aaaaaaaa-aaaa-4aaa-9aaa-aaaaaaaaaaaa").bind
        (attributeAt ["ClinicalDocument", "componentOf", "encompassingEncounter", "id"]
          "extension")
      = some "" ∧
    (generateORUDocument {} {} { accessionNumber := "A1\x00\x00", studyInstanceUID := "1.2.3" }
        "20240115143000+0100" "aaaaaaaa-aaaa-4aaa-9aaa-aaaaaaaaaaaa").bind
        (attributeAt ["ClinicalDocument", "componentOf", "encompassingEncounter", "id"]
          "extension")
      = some "A1" := by
  decide

/-- C10, amended: in the document that `generateORUMessage` builds, each
three-level fallback selects the first non-empty candidate in its declared
order and the built-in `Unknown` only when both candidates are empty: the
author id extension (`authorIdExtension`, then `defaultSendingApplication`),
the custodian organization name (`custodianOrgName`, then `sendingFacility`),
the facility location name (`locationFacilityName`, then `sendingFacility`)
and the encounter id extension (`accessionNumber`, then `studyInstanceUID`).
The three values taken from the configuration are emitted as selected; the
encounter id extension is emitted up to the first NUL character of the
selected study field, hence as selected when the accession number and the
study instance UID hold no NUL character. -/
theorem generateORUDocument_three_level_fallbacks (config : AppConfig) (patient : Patient)
    (study : Study) (effectiveTime documentIdExtension : String) :
    ∃ doc, generateORUDocument config patient study effectiveTime documentIdExtension = some doc ∧
      attributeAt ["ClinicalDocument", "author", "assignedAuthor", "id"] "extension" doc
        = some (resolve [config.authorIdExtension, config.defaultSendingApplication]
            "Unknown") ∧
      textAt ["ClinicalDocument", "custodian", "assignedCustodian",
          "representedCustodianOrganization", "name"] doc
        = some (resolve [config.custodianOrgName, config.sendingFacility] "Unknown") ∧
      textAt ["ClinicalDocument", "componentOf", "encompassingEncounter", "location",
          "healthCareFacility", "location", "name"] doc
        = some (resolve [config.locationFacilityName, config.sendingFacility] "Unknown") ∧
      attributeAt ["ClinicalDocument", "componentOf", "encompassingEncounter", "id"]
          "extension" doc
        = some (c_str (resolve [study.accessionNumber, study.studyInstanceUID] "Unknown")) ∧
      (nulFree study.accessionNumber → nulFree study.studyInstanceUID →
        attributeAt ["ClinicalDocument", "componentOf", "encompassingEncounter", "id"]
            "extension" doc
          = some (resolve [study.accessionNumber, study.studyInstanceUID] "Unknown")) := by
  obtain ⟨f, g, v, hdoc⟩ :=
    generateORUDocument_total config patient study effectiveTime documentIdExtension
  obtain ⟨_, hext, hloc⟩ := encompassingEncounterNode_parts config study v
  have hcut : attributeAt ["ClinicalDocument", "componentOf", "encompassingEncounter", "id"]
      "extension"
      (assembledDocument config patient study effectiveTime documentIdExtension f g v)
      = some (c_str (resolve [study.accessionNumber, study.studyInstanceUID] "Unknown")) := by
    rw [attributeAt_encounter, hext, encounterExt_eq_resolve]
    rfl
  refine ⟨_, hdoc, ?_, ?_, ?_, hcut, fun ha hu => ?_⟩
  · rw [attributeAt_author, (authorNode_id config effectiveTime).2, authorExt_eq_resolve]
    rfl
  · rw [textAt_custodian, (custodianNode_id config).2.2, orgName_eq_resolve]
    rfl
  · rw [textAt_encounter, textAt_cons, hloc, Option.some_bind, (locationNode_id config).2.2,
      facilityName_eq_resolve]
    rfl
  · rw [hcut, c_str_of_nulFree]
    by_cases h1 : study.accessionNumber = "" <;> by_cases h2 : study.studyInstanceUID = "" <;>
      simp [resolve, h1, h2, ha, hu]
    decide

/-! ## The synthesized document id -/

theorem hex_digit (n : Nat) (h : n ≤ 15) : hex n = ⟨[Nat.digitChar n]⟩ := by
  interval_cases n <;> rfl

theorem digitChar_hex (n : Nat) (h : n ≤ 15) :
    Nat.digitChar n ∈ "0123456789abcdef".data := by
  interval_cases n <;> decide

theorem digitChar_variant (n : Nat) (h8 : 8 ≤ n) (h11 : n ≤ 11) :
    Nat.digitChar n ∈ ['8', '9', 'a', 'b'] := by
  interval_cases n <;> decide

theorem generateUUID_data (draw : Nat → Nat) (hdis : ∀ k, k ≠ 15 → draw k ≤ 15)
    (hdis2 : 8 ≤ draw 15 ∧ draw 15 ≤ 11) :
    (generateUUID draw).data =
      [Nat.digitChar (draw 0), Nat.digitChar (draw 1), Nat.digitChar (draw 2),
       Nat.digitChar (draw 3), Nat.digitChar (draw 4), Nat.digitChar (draw 5),
       Nat.digitChar (draw 6), Nat.digitChar (draw 7), '-',
       Nat.digitChar (draw 8), Nat.digitChar (draw 9), Nat.digitChar (draw 10),
       Nat.digitChar (draw 11), '-', '4',
       Nat.digitChar (draw 12), Nat.digitChar (draw 13), Nat.digitChar (draw 14), '-',
       Nat.digitChar (draw 15), Nat.digitChar (draw 16), Nat.digitChar (draw 17),
       Nat.digitChar (draw 18), '-',
       Nat.digitChar (draw 19), Nat.digitChar (draw 20), Nat.digitChar (draw 21),
       Nat.digitChar (draw 22), Nat.digitChar (draw 23), Nat.digitChar (draw 24),
       Nat.digitChar (draw 25), Nat.digitChar (draw 26), Nat.digitChar (draw 27),
       Nat.digitChar (draw 28), Nat.digitChar (draw 29), Nat.digitChar (draw 30)] := by
  have h15 : hex (draw 15) = ⟨[Nat.digitChar (draw 15)]⟩ := hex_digit _ (by omega)
  have h : ∀ k, k ≠ 15 → hex (draw k) = ⟨[Nat.digitChar (draw k)]⟩ :=
    fun k hk => hex_digit _ (hdis k hk)
  simp [generateUUID, appendDraws, List.range_succ, h15, h]

/-- C12: for every sequence of draws within the ranges of the two
distributions (`0..15` for `dis`, `8..11` for the one draw through `dis2`),
`generateUUID` returns a string of 36 characters, hence never the empty
string, with `-` at indices 8, 13, 18 and 23, the character `4` at index 14,
one of `8`, `9`, `a`, `b` at index 19 and a lowercase hexadecimal digit at
every other index. -/
theorem generateUUID_shape (draw : Nat → Nat) (hdis : ∀ k, k ≠ 15 → draw k ≤ 15)
    (hdis2 : 8 ≤ draw 15 ∧ draw 15 ≤ 11) :
    (generateUUID draw).length = 36 ∧ generateUUID draw ≠ "" ∧
    ∀ i, i < 36 → ∃ c, (generateUUID draw).data[i]? = some c ∧
      (if i = 8 ∨ i = 13 ∨ i = 18 ∨ i = 23 then c = '-'
       else if i = 14 then c = '4'
       else if i = 19 then c ∈ ['8', '9', 'a', 'b']
       else c ∈ "0123456789abcdef".data) := by
  have hdata := generateUUID_data draw hdis hdis2
  have hlen : (generateUUID draw).length = 36 := by
    show (generateUUID draw).data.length = 36
    rw [hdata]; rfl
  refine ⟨hlen, ne_empty_of_length_pos _ (by omega), ?_⟩
  intro i hi
  have hv := digitChar_variant (draw 15) hdis2.1 hdis2.2
  have hh : ∀ k, k ≠ 15 → Nat.digitChar (draw k) ∈ "0123456789abcdef".data :=
    fun k hk => digitChar_hex _ (hdis k hk)
  rw [hdata]
  interval_cases i
  all_goals first
    | exact ⟨'-', rfl, rfl⟩
    | exact ⟨'4', rfl, rfl⟩
    | exact ⟨_, rfl, hv⟩
    | exact ⟨_, rfl, hh _ (by decide)⟩

theorem generateUUID_shape_witness :
    generateUUID (fun k => if k = 15 then 9 else 10) = "aaaaaaaa-aaaa-4aaa-9aaa-aaaaaaaaaaaa" ∧
    (generateUUID (fun k => if k = 15 then 9 else 10)).length = 36 ∧
    generateUUID (fun k => if k = 15 then 9 else 10) ≠ "" ∧
    ∀ i, i < 36 → ∃ c, (generateUUID (fun k => if k = 15 then 9 else 10)).data[i]? = some c ∧
      (if i = 8 ∨ i = 13 ∨ i = 18 ∨ i = 23 then c = '-'
       else if i = 14 then c = '4'
       else if i = 19 then c ∈ ['8', '9', 'a', 'b']
       else c ∈ "0123456789abcdef".data) :=
  ⟨by decide, generateUUID_shape (fun k => if k = 15 then 9 else 10)
    (fun k hk => by simp [hk]) (by decide)⟩

/-! ## Attribute values are never empty -/

theorem mem_allAttributesOfList (a : String × String) (cs : List XmlNode) :
    a ∈ allAttributesOfList cs ↔ ∃ c ∈ cs, a ∈ c.allAttributes := by
  induction cs with
  | nil => simp [allAttributesOfList]
  | cons c cs ih => simp [allAttributesOfList, ih]

theorem attributesFilled_mk (n : String) (a : List (String × String)) (t : Option String)
    (cs : List XmlNode) :
    (mk n a t cs).attributesFilled ↔ (∀ x ∈ a, x.2 ≠ "") ∧ ∀ c ∈ cs, c.attributesFilled := by
  simp only [attributesFilled, allAttributes, List.mem_append, mem_allAttributesOfList]
  constructor
  · intro h
    exact ⟨fun x hx => h x (Or.inl hx), fun c hc x hx => h x (Or.inr ⟨c, hc, hx⟩)⟩
  · rintro ⟨h1, h2⟩ x (hx | ⟨c, hc, hx⟩)
    · exact h1 x hx
    · exact h2 c hc x hx

@[simp] theorem attributesFilled_element (s : String) : (element s).attributesFilled := by
  simp [element, attributesFilled_mk]

@[simp] theorem attributesFilled_append_attribute (n : XmlNode) (k v : String) :
    (n.append_attribute k v).attributesFilled ↔ n.attributesFilled ∧ v ≠ "" := by
  cases n with
  | mk nm a t cs =>
    simp only [append_attribute, name_mk, attributes_mk, text_mk, children_mk,
      attributesFilled_mk, List.mem_append, List.mem_singleton]
    constructor
    · rintro ⟨h1, h2⟩
      exact ⟨⟨fun x hx => h1 x (Or.inl hx), h2⟩, h1 (k, v) (Or.inr rfl)⟩
    · rintro ⟨⟨h1, h2⟩, hv⟩
      refine ⟨?_, h2⟩
      rintro x (hx | rfl)
      · exact h1 x hx
      · exact hv

@[simp] theorem attributesFilled_append_child (n c : XmlNode) :
    (n.append_child c).attributesFilled ↔ n.attributesFilled ∧ c.attributesFilled := by
  cases n with
  | mk nm a t cs =>
    simp only [append_child_mk, attributesFilled_mk, List.mem_append, List.mem_singleton]
    constructor
    · rintro ⟨h1, h2⟩
      exact ⟨⟨h1, fun x hx => h2 x (Or.inl hx)⟩, h2 c (Or.inr rfl)⟩
    · rintro ⟨⟨h1, h2⟩, hc⟩
      refine ⟨h1, ?_⟩
      rintro x (hx | rfl)
      · exact h2 x hx
      · exact hc

@[simp] theorem attributesFilled_set_text (n : XmlNode) (v : String) :
    (n.set_text v).attributesFilled ↔ n.attributesFilled := by
  cases n with
  | mk nm a t cs => simp [set_text, attributesFilled_mk]

theorem append_eq_empty (a b : String) : a ++ b = "" ↔ a = "" ∧ b = "" := by
  simp [String.ext_iff]

@[simp] theorem orDefault_eq_empty (s d : String) :
    (if s.isEmpty = true then d else s) = "" ↔ s = "" ∧ d = "" := by
  by_cases h : s = "" <;> simp [isEmpty_eq_decide, h]

@[simp] theorem orDefault_eq_empty_iff (s d : String) :
    (if s = "" then d else s) = "" ↔ s = "" ∧ d = "" := by
  by_cases h : s = "" <;> simp [h]

theorem defaults_ne_empty :
    DEFAULT_STRING ≠ "" ∧ DEFAULT_OID_ROOT ≠ "" ∧ DEFAULT_CODE ≠ "" ∧
    DEFAULT_CODESYSTEM_NULLFLAVOR ≠ "" ∧ DEFAULT_DISPLAYNAME ≠ "" ∧ FIXED_TYPEID_ROOT ≠ "" ∧
    DEFAULT_TYPEID_EXTENSION ≠ "" ∧ DEFAULT_LANGUAGE_CODE ≠ "" ∧
    DEFAULT_CONFIDENTIALITY_CODE ≠ "" ∧ DEFAULT_CONFIDENTIALITY_CODESYSTEM ≠ "" ∧
    DEFAULT_REALM_CODE ≠ "" := by
  decide

theorem resolve_ne_empty (cs : List String) (builtIn : String) (h : builtIn ≠ "") :
    resolve cs builtIn ≠ "" := by
  induction cs with
  | nil => exact h
  | cons c cs ih =>
    by_cases hc : c = ""
    · simp [resolve, hc, ih]
    · simp [resolve, hc]

theorem headerNodes_filled (config : AppConfig) (study : Study)
    (effectiveTime documentIdExt : String) (ht : effectiveTime ≠ "")
    (hid : documentIdExt ≠ "") :
    ∀ c ∈ headerNodes config study effectiveTime documentIdExt, c.attributesFilled := by
  obtain ⟨h1, h2, h3, h4, h5, h6, h7, h8, h9, h10, h11⟩ := defaults_ne_empty
  have hroot : docIdRoot config ≠ "" := by
    rw [docIdRoot_eq_resolve]; exact resolve_ne_empty _ _ h2
  have htmpl : ∀ t : TemplateIdConfig, (templateIdNode t).attributesFilled := by
    intro t
    by_cases he : t.extension = "" <;> simp [templateIdNode, isEmpty_eq_decide, he, h2]
  have hconf : (confidentialityCodeNode config).attributesFilled := by
    simp only [confidentialityCodeNode, confCodeVal, confCodeSysVal]
    by_cases hd : config.confidentialityCode.displayName = ""
    · simp only [isEmpty_eq_decide, hd]
      split_ifs <;> simp_all
    · simp [isEmpty_eq_decide, hd, h9, h10]
  simp only [headerNodes, List.mem_append, List.mem_cons, List.mem_map, List.mem_singleton,
    List.not_mem_nil, or_false]
  rintro c (((rfl | rfl) | ⟨t, _, rfl⟩) | rfl | rfl | rfl | rfl | rfl | rfl)
  · simp [realmCodeNode, h11]
  · simp [typeIdNode, h6, h7]
  · exact htmpl t
  · simp [documentIdNode, hroot, hid]
  · simp [documentCodeNode, h1, h3, h4, h5]
  · simp [titleNode]
  · simp [effectiveTimeNode, ht]
  · exact hconf
  · simp [languageCodeNode, h8]

theorem orDefault_c_str_ne_empty (s d : String) (hd : d ≠ "") (h : ¬ startsWithNul s) :
    (if s.isEmpty = true then d else c_str s) ≠ "" := by
  by_cases hs : s = ""
  · simp [isEmpty_eq_decide, hs, hd]
  · simp only [isEmpty_eq_decide, hs, decide_False, Bool.false_eq_true, if_false]
    exact c_str_ne_empty s hs h

theorem encounterExt_ne_empty (study : Study) (hacc : ¬ startsWithNul study.accessionNumber)
    (huid : study.accessionNumber = "" → ¬ startsWithNul study.studyInstanceUID) :
    encounterExt study ≠ "" := by
  unfold encounterExt
  by_cases ha : study.accessionNumber = ""
  · have h := orDefault_c_str_ne_empty study.studyInstanceUID DEFAULT_STRING
      (show DEFAULT_STRING ≠ "" by decide) (huid ha)
    simpa [isEmpty_eq_decide, ha] using h
  · simp only [isEmpty_eq_decide, ha, decide_False, Bool.false_eq_true, if_false]
    exact c_str_ne_empty _ ha hacc

theorem sectionNodes_filled (config : AppConfig) (patient : Patient) (study : Study)
    (effectiveTime f g v : String) (ht : effectiveTime ≠ "") (hv : c_str v ≠ "")
    (hpid : ¬ startsWithNul patient.patientID) (hsex : ¬ startsWithNul patient.sex)
    (hdob : ¬ startsWithNul patient.dateOfBirth)
    (hacc : ¬ startsWithNul study.accessionNumber)
    (huid : study.accessionNumber = "" → ¬ startsWithNul study.studyInstanceUID) :
    (patientRoleNode config patient f g).attributesFilled ∧
    (authorNode config effectiveTime).attributesFilled ∧
    (custodianNode config).attributesFilled ∧
    (encompassingEncounterNode config study v).attributesFilled ∧
    (structuredBodyNode config study).attributesFilled := by
  obtain ⟨h1, h2, h3, h4, h5, _, _, _, _, _, _⟩ := defaults_ne_empty
  have hauthor : authorRoot config ≠ "" ∧ authorExt config ≠ "" := by
    rw [authorRoot_eq_resolve, authorExt_eq_resolve]
    exact ⟨resolve_ne_empty _ _ h2, resolve_ne_empty _ _ h1⟩
  have hcust : custodianRoot config ≠ "" := by
    rw [custodianRoot_eq_resolve]; exact resolve_ne_empty _ _ h2
  have hfac : facilityRoot config ≠ "" := by
    rw [facilityRoot_eq_resolve]; exact resolve_ne_empty _ _ h2
  have henc : encounterExt study ≠ "" := encounterExt_ne_empty study hacc huid
  have hpid1 := orDefault_c_str_ne_empty patient.patientID DEFAULT_STRING h1 hpid
  have hsex1 := orDefault_c_str_ne_empty patient.sex DEFAULT_CODE h3 hsex
  have hdob1 := orDefault_c_str_ne_empty patient.dateOfBirth "19000101" (by decide) hdob
  refine ⟨?_, ?_, ?_, ?_, ?_⟩
  · simp [patientRoleNode, h1, h2, h3, h4, hpid1, hsex1, hdob1]
  · simp [authorNode, ht, hauthor.1, hauthor.2]
  · simp only [custodianNode]
    by_cases he : config.custodianOrgIdExtension = ""
    · by_cases hr : custodianRoot config = DEFAULT_OID_ROOT <;>
        simp [isEmpty_eq_decide, he, hr, hcust, h1, h2]
    · simp [isEmpty_eq_decide, he, hcust]
  · have hloc : (locationNode config).attributesFilled := by
      simp only [locationNode]
      by_cases he : config.locationFacilityIdExtension = ""
      · by_cases hr : facilityRoot config = DEFAULT_OID_ROOT <;>
          simp [isEmpty_eq_decide, he, hr, hfac, h1, h2]
      · simp [isEmpty_eq_decide, he, hfac]
    by_cases hc : config.encounterTypeCode.code = "" <;>
      simp [encompassingEncounterNode, encounterCodeNodes, encounterRoot, isEmpty_eq_decide,
        hc, hloc, henc, hv, h2, h4, h5]
  · simp [structuredBodyNode]

theorem studyDateTimeLow_c_str_ne_empty (study : Study) (v : String)
    (h : studyDateTimeLow study = some v) (hdate : ¬ startsWithNul study.studyDate) :
    c_str v ≠ "" := by
  have hne : dateOrDefault study ≠ "" := by
    unfold dateOrDefault
    split_ifs with he
    · decide
    · exact he
  have hstart : ¬ startsWithNul (dateOrDefault study) := by
    unfold dateOrDefault
    split_ifs
    · decide
    · exact hdate
  have hv : ∃ t, v = dateOrDefault study ++ t := by
    by_cases h4 : study.studyTime.length < 4
    · rw [studyDateTimeLow_short study h4] at h
      exact ⟨_, (Option.some.inj h).symm⟩
    · by_cases h6 : study.studyTime.length < 6
      · rw [studyDateTimeLow_four_five study (by omega) h6] at h
        exact ⟨_, ((Option.some.inj h).symm).trans (String.append_assoc _ _ _)⟩
      · rw [studyDateTimeLow_six study (by omega)] at h
        exact ⟨_, (Option.some.inj h).symm⟩
  obtain ⟨t, rfl⟩ := hv
  exact c_str_append_ne_empty _ _ hne hstart

theorem generateORUDocument_parts (config : AppConfig) (patient : Patient) (study : Study)
    (effectiveTime documentIdExtension : String) :
    ∃ f g v, familyName patient = some f ∧ givenName patient = some g ∧
      studyDateTimeLow study = some v ∧
      generateORUDocument config patient study effectiveTime documentIdExtension
        = some (assembledDocument config patient study effectiveTime documentIdExtension
            f g v) := by
  obtain ⟨f, hf⟩ := familyName_total patient
  obtain ⟨g, hg⟩ := givenName_total patient
  obtain ⟨v, hv, _⟩ := studyDateTimeLow_length study
  refine ⟨f, g, v, hf, hg, hv, ?_⟩
  exact generateORUDocument_eq config patient study effectiveTime documentIdExtension _ _
    (by simp [recordTargetNode, hf, hg]) (by simp [componentOfNode, hv])

theorem assembledDocument_filled (config : AppConfig) (patient : Patient) (study : Study)
    (effectiveTime documentIdExt f g v : String) (ht : effectiveTime ≠ "")
    (hid : documentIdExt ≠ "") (hv : c_str v ≠ "")
    (hpid : ¬ startsWithNul patient.patientID) (hsex : ¬ startsWithNul patient.sex)
    (hdob : ¬ startsWithNul patient.dateOfBirth)
    (hacc : ¬ startsWithNul study.accessionNumber)
    (huid : study.accessionNumber = "" → ¬ startsWithNul study.studyInstanceUID) :
    (assembledDocument config patient study effectiveTime documentIdExt f g v).attributesFilled := by
  obtain ⟨hpr, hau, hcu, hee, hsb⟩ :=
    sectionNodes_filled config patient study effectiveTime f g v ht hv hpid hsex hdob hacc huid
  have hhead := headerNodes_filled config study effectiveTime documentIdExt ht hid
  have hdecl : declarationNode.attributesFilled := by simp [declarationNode]
  have hattrs : ∀ x ∈ clinicalDocumentAttributes config, x.2 ≠ "" := by
    by_cases hx : config.cdaXsdPath = "" <;>
      simp [clinicalDocumentAttributes, isEmpty_eq_decide, hx, append_eq_empty]
  simp only [assembledDocument, attributesFilled_mk, List.mem_cons, List.mem_append,
    List.mem_singleton, List.not_mem_nil, or_false]
  refine ⟨fun x hx => absurd hx (by simp), ?_⟩
  rintro c (rfl | rfl)
  · exact hdecl
  · rw [attributesFilled_mk]
    refine ⟨hattrs, ?_⟩
    simp only [List.mem_cons, List.mem_append, List.mem_singleton, List.not_mem_nil, or_false]
    rintro c (hc | rfl | rfl | rfl | rfl | rfl)
    · exact hhead c hc
    · simp [hpr]
    · exact hau
    · exact hcu
    · simp [hee]
    · exact hsb

/-- C11, as stated, fails: for a patient whose patient ID is the one
character NUL, with a non-empty timestamp and document id, the tree carries
the attribute `extension` of `recordTarget/patientRole/id` with an empty
value. -/
theorem generateORUDocument_empty_attribute :
    (generateORUDocument {} { patientID := "\x00" } {} "20240115143000+0100"
        "aaaaaaaa-aaaa-4aaa-9aaa-aaaaaaaaaaaa").bind
        (attributeAt ["ClinicalDocument", "recordTarget", "patientRole", "id"] "extension")
      = some "" ∧
    (generateORUDocument {} { patientID := "\x00" } {} "20240115143000+0100"
        "aaaaaaaa-aaaa-4aaa-9aaa-aaaaaaaaaaaa").any
        (fun doc => decide (("extension", "") ∈ doc.allAttributes)) = true := by
  decide

/-- C11, amended: for every configuration and every patient and study in
which none of the patient ID, the sex, the date of birth, the study date and
the field selected for the encounter id extension (the accession number, or
the study instance UID when the accession number is empty) begins with a NUL
character, given a non-empty effective timestamp and a non-empty document id,
`generateORUMessage` builds a tree and every attribute of every node of that
tree has a non-empty value. -/
theorem generateORUDocument_attributes_non_empty (config : AppConfig) (patient : Patient)
    (study : Study) (effectiveTime documentIdExtension : String)
    (ht : effectiveTime ≠ "") (hid : documentIdExtension ≠ "")
    (hpid : ¬ startsWithNul patient.patientID) (hsex : ¬ startsWithNul patient.sex)
    (hdob : ¬ startsWithNul patient.dateOfBirth) (hdate : ¬ startsWithNul study.studyDate)
    (hacc : ¬ startsWithNul study.accessionNumber)
    (huid : study.accessionNumber = "" → ¬ startsWithNul study.studyInstanceUID) :
    ∃ doc, generateORUDocument config patient study effectiveTime documentIdExtension = some doc ∧
      ∀ a ∈ doc.allAttributes, a.2 ≠ "" := by
  obtain ⟨f, g, v, _, _, hv, hdoc⟩ :=
    generateORUDocument_parts config patient study effectiveTime documentIdExtension
  exact ⟨_, hdoc, assembledDocument_filled config patient study effectiveTime
    documentIdExtension f g v ht hid (studyDateTimeLow_c_str_ne_empty study v hv hdate)
    hpid hsex hdob hacc huid⟩

theorem generateORUDocument_attributes_non_empty_witness :
    ∃ doc, generateORUDocument {} {} {} "20240115143000+0100"
        "aaaaaaaa-aaaa-4aaa-9aaa-aaaaaaaaaaaa" = some doc ∧
      ∀ a ∈ doc.allAttributes, a.2 ≠ "" :=
  generateORUDocument_attributes_non_empty {} {} {} "20240115143000+0100"
    "aaaaaaaa-aaaa-4aaa-9aaa-aaaaaaaaaaaa" (by decide) (by decide) (by decide) (by decide)
    (by decide) (by decide) (by decide) (fun _ => by decide)

/-! ## The order of the sections -/

theorem map_name_templateIdNode (l : List TemplateIdConfig) :
    l.map (name ∘ templateIdNode) = List.replicate l.length "templateId" := by
  induction l with
  | nil => rfl
  | cons t ts ih => simp [List.replicate_succ, ih]

theorem filter_templateIdNode (l : List TemplateIdConfig) :
    (l.map templateIdNode).filter (fun c => decide (c.name = "templateId"))
      = l.map templateIdNode := by
  induction l with
  | nil => rfl
  | cons t ts ih => simp [ih]

theorem templateIdNode_attributes (t : TemplateIdConfig) :
    (templateIdNode t).attributeValue "root"
        = some (if t.root = "" then "2.25.0.0.0.0" else t.root) ∧
    (templateIdNode t).attributeValue "extension"
        = (if t.extension = "" then none else some t.extension) := by
  by_cases hr : t.root = "" <;> by_cases he : t.extension = "" <;>
    simp [templateIdNode, attributeValue, isEmpty_eq_decide, hr, he, DEFAULT_OID_ROOT]

/-- C13: for every patient, study and configuration, the children of
`ClinicalDocument` in the document that `generateORUMessage` builds are, in
this order: `realmCode`, `typeId`, one `templateId` per entry of
`config.templateIds`, `id`, `code`, `title`, `effectiveTime`,
`confidentialityCode`, `languageCode`, `recordTarget`, `author`, `custodian`,
`componentOf`, `component`, and nothing else; the `templateId` children carry
the roots and extensions of the configured entries in configuration order. -/
theorem generateORUDocument_children_order (config : AppConfig) (patient : Patient)
    (study : Study) (effectiveTime documentIdExtension : String) :
    ∃ doc clinicalDocument,
      generateORUDocument config patient study effectiveTime documentIdExtension = some doc ∧
      doc.child "ClinicalDocument" = some clinicalDocument ∧
      clinicalDocument.children.map name
        = ["realmCode", "typeId"] ++ List.replicate config.templateIds.length "templateId" ++
          ["id", "code", "title", "effectiveTime", "confidentialityCode", "languageCode",
           "recordTarget", "author", "custodian", "componentOf", "component"] ∧
      (clinicalDocument.children.filter (fun c => decide (c.name = "templateId"))).map
          (fun c => (c.attributeValue "root", c.attributeValue "extension"))
        = config.templateIds.map (fun t =>
            (some (if t.root = "" then "2.25.0.0.0.0" else t.root),
             if t.extension = "" then none else some t.extension)) := by
  obtain ⟨f, g, v, hdoc⟩ :=
    generateORUDocument_total config patient study effectiveTime documentIdExtension
  refine ⟨_, _, hdoc, child_document _ _, ?_, ?_⟩
  · simp [headerNodes, map_name_templateIdNode]
  · simp [headerNodes, List.filter_append, filter_templateIdNode, List.filter_cons,
      Function.comp_def, templateIdNode_attributes]

/-! ## Generation against the outside world -/

theorem child_header (config : AppConfig) (study : Study)
    (effectiveTime documentIdExt : String) (a : List (String × String)) (tail : List XmlNode) :
    (mk "ClinicalDocument" a none
        (headerNodes config study effectiveTime documentIdExt ++ tail)).child "realmCode"
      = some (realmCodeNode config) ∧
    (mk "ClinicalDocument" a none
        (headerNodes config study effectiveTime documentIdExt ++ tail)).child "code"
      = some (documentCodeNode config) ∧
    (mk "ClinicalDocument" a none
        (headerNodes config study effectiveTime documentIdExt ++ tail)).child "effectiveTime"
      = some (effectiveTimeNode effectiveTime) ∧
    (mk "ClinicalDocument" a none
        (headerNodes config study effectiveTime documentIdExt ++ tail)).child
        "confidentialityCode"
      = some (confidentialityCodeNode config) ∧
    (mk "ClinicalDocument" a none
        (headerNodes config study effectiveTime documentIdExt ++ tail)).child "languageCode"
      = some (languageCodeNode config) := by
  refine ⟨?_, ?_, ?_, ?_, ?_⟩ <;>
    simp [child, headerNodes, List.find?_append, find?_templateIdNode]

theorem attributeAt_header (config : AppConfig) (patient : Patient) (study : Study)
    (effectiveTime documentIdExt f g v : String) (attr : String) :
    attributeAt ["ClinicalDocument", "realmCode"] attr
        (assembledDocument config patient study effectiveTime documentIdExt f g v)
      = (realmCodeNode config).attributeValue attr ∧
    attributeAt ["ClinicalDocument", "code"] attr
        (assembledDocument config patient study effectiveTime documentIdExt f g v)
      = (documentCodeNode config).attributeValue attr ∧
    attributeAt ["ClinicalDocument", "effectiveTime"] attr
        (assembledDocument config patient study effectiveTime documentIdExt f g v)
      = (effectiveTimeNode effectiveTime).attributeValue attr ∧
    attributeAt ["ClinicalDocument", "confidentialityCode"] attr
        (assembledDocument config patient study effectiveTime documentIdExt f g v)
      = (confidentialityCodeNode config).attributeValue attr ∧
    attributeAt ["ClinicalDocument", "languageCode"] attr
        (assembledDocument config patient study effectiveTime documentIdExt f g v)
      = (languageCodeNode config).attributeValue attr := by
  obtain ⟨h1, h2, h3, h4, h5⟩ := child_header config study effectiveTime documentIdExt
    (clinicalDocumentAttributes config)
    [(element "recordTarget").append_child (patientRoleNode config patient f g),
     authorNode config effectiveTime, custodianNode config,
     (element "componentOf").append_child (encompassingEncounterNode config study v),
     structuredBodyNode config study]
  refine ⟨?_, ?_, ?_, ?_, ?_⟩
  · rw [assembledDocument, attributeAt_cons, child_document, Option.some_bind, attributeAt_cons,
      h1, Option.some_bind, attributeAt_nil]
  · rw [assembledDocument, attributeAt_cons, child_document, Option.some_bind, attributeAt_cons,
      h2, Option.some_bind, attributeAt_nil]
  · rw [assembledDocument, attributeAt_cons, child_document, Option.some_bind, attributeAt_cons,
      h3, Option.some_bind, attributeAt_nil]
  · rw [assembledDocument, attributeAt_cons, child_document, Option.some_bind, attributeAt_cons,
      h4, Option.some_bind, attributeAt_nil]
  · rw [assembledDocument, attributeAt_cons, child_document, Option.some_bind, attributeAt_cons,
      h5, Option.some_bind, attributeAt_nil]

theorem generateORUMessage_eq (env : Environment) (config : AppConfig) (patient : Patient)
    (study : Study) (w : World) (doc : XmlNode)
    (hdoc : generateORUDocument config patient study
        (env.put_time (env.now w.clockReads) "%Y%m%d%H%M%S%z")
        (generateUUID (fun k => env.draw (w.draws + k))) = some doc) :
    generateORUMessage env config patient study w
      = some (env.save doc, { w with clockReads := w.clockReads + 1, draws := w.draws + 31 }) := by
  simp [generateORUMessage, getCurrentTimestamp, hdoc]

/-- C16: in every document that `generateORUMessage` produces, the value of
`author/time` is identical to the value of `ClinicalDocument/effectiveTime`:
the call reads the clock once and both attributes carry that one reading. -/
theorem generateORUMessage_single_timestamp (env : Environment) (config : AppConfig)
    (patient : Patient) (study : Study) (w : World) :
    ∃ doc,
      generateORUDocument config patient study
        (env.put_time (env.now w.clockReads) "%Y%m%d%H%M%S%z")
        (generateUUID (fun k => env.draw (w.draws + k))) = some doc ∧
      generateORUMessage env config patient study w
        = some (env.save doc,
            { w with clockReads := w.clockReads + 1, draws := w.draws + 31 }) ∧
      attributeAt ["ClinicalDocument", "author", "time"] "value" doc
        = some (env.put_time (env.now w.clockReads) "%Y%m%d%H%M%S%z") ∧
      attributeAt ["ClinicalDocument", "effectiveTime"] "value" doc
        = attributeAt ["ClinicalDocument", "author", "time"] "value" doc := by
  obtain ⟨f, g, v, hdoc⟩ := generateORUDocument_total config patient study
    (env.put_time (env.now w.clockReads) "%Y%m%d%H%M%S%z")
    (generateUUID (fun k => env.draw (w.draws + k)))
  have hauthor : attributeAt ["time"] "value"
      (authorNode config (env.put_time (env.now w.clockReads) "%Y%m%d%H%M%S%z"))
      = some (env.put_time (env.now w.clockReads) "%Y%m%d%H%M%S%z") := by
    simp [attributeAt, authorNode, descend, child, attributeValue]
  refine ⟨_, hdoc, generateORUMessage_eq env config patient study w _ hdoc, ?_, ?_⟩
  · rw [attributeAt_author, hauthor]
  · rw [attributeAt_author, hauthor, (attributeAt_header _ _ _ _ _ _ _ _ _).2.2.1]
    simp [effectiveTimeNode, attributeValue]

/-! ## Schema validation -/

theorem foldl_handle_getSawErrors (events : List SAXEvent) (h : XSDValidationErrorHandler) :
    (events.foldl XSDValidationErrorHandler.handle h).getSawErrors = true ↔
      h.getSawErrors = true ∨ SAXEvent.error ∈ events ∨ SAXEvent.fatalError ∈ events := by
  induction events generalizing h with
  | nil => simp
  | cons e es ih =>
    rw [List.foldl_cons, ih]
    cases e <;>
      simp [XSDValidationErrorHandler.handle, XSDValidationErrorHandler.warning,
        XSDValidationErrorHandler.error, XSDValidationErrorHandler.fatalError,
        XSDValidationErrorHandler.getSawErrors]

/-- C18: when `config.cdaXsdPath` is empty, `validateMessageWithXSD` returns
true for every input string and leaves the world as it was: nothing is handed
to the parser. -/
theorem validateMessageWithXSD_no_schema (env : Environment) (config : AppConfig)
    (xmlMessage : String) (w : World) (h : config.cdaXsdPath = "") :
    validateMessageWithXSD env config xmlMessage w = (true, w) := by
  simp [validateMessageWithXSD, isEmpty_eq_decide, h]

theorem validateMessageWithXSD_no_schema_witness :
    validateMessageWithXSD
        (exampleEnvironment { events := [SAXEvent.fatalError], thrown := some ParseException.unknown })
        {} "" {} = (true, {}) ∧
    validateMessageWithXSD
        (exampleEnvironment { events := [SAXEvent.fatalError], thrown := some ParseException.unknown })
        {} "not an XML document" {} = (true, {}) :=
  ⟨validateMessageWithXSD_no_schema _ {} "" {} rfl,
   validateMessageWithXSD_no_schema _ {} "not an XML document" {} rfl⟩

/-- C19: for every sequence of warning, error and fatalError events delivered
to a freshly constructed `XSDValidationErrorHandler`, `getSawErrors()` is true
if and only if the sequence contains an error or a fatalError event; a warning
leaves the flag of any handler as it is.  Hence, when a schema is configured
and the parse throws no exception, `validateMessageWithXSD` returns false if
and only if the parser reported at least one error or fatal error. -/
theorem validateMessageWithXSD_verdict (events : List SAXEvent) (h : XSDValidationErrorHandler)
    (env : Environment) (config : AppConfig) (xmlMessage : String) (w : World)
    (hschema : config.cdaXsdPath ≠ "")
    (hthrown : (env.parse ("urn:hl7-org:v3 " ++ config.cdaXsdPath) xmlMessage).thrown = none) :
    ((events.foldl XSDValidationErrorHandler.handle {}).getSawErrors = true ↔
      SAXEvent.error ∈ events ∨ SAXEvent.fatalError ∈ events) ∧
    h.warning.getSawErrors = h.getSawErrors ∧
    ((validateMessageWithXSD env config xmlMessage w).1 = false ↔
      SAXEvent.error ∈ (env.parse ("urn:hl7-org:v3 " ++ config.cdaXsdPath) xmlMessage).events ∨
      SAXEvent.fatalError ∈
        (env.parse ("urn:hl7-org:v3 " ++ config.cdaXsdPath) xmlMessage).events) := by
  have hfresh : ∀ es : List SAXEvent,
      (es.foldl XSDValidationErrorHandler.handle {}).getSawErrors = true ↔
        SAXEvent.error ∈ es ∨ SAXEvent.fatalError ∈ es := by
    intro es
    rw [foldl_handle_getSawErrors]
    simp [XSDValidationErrorHandler.getSawErrors]
  refine ⟨hfresh events, rfl, ?_⟩
  rw [← hfresh]
  simp only [validateMessageWithXSD, isEmpty_eq_decide, hschema, hthrown]
  cases (List.foldl XSDValidationErrorHandler.handle {}
    (env.parse ("urn:hl7-org:v3 " ++ config.cdaXsdPath) xmlMessage).events).getSawErrors <;>
    simp

theorem validateMessageWithXSD_verdict_witness :
    (validateMessageWithXSD
        (exampleEnvironment { events := [SAXEvent.warning, SAXEvent.error, SAXEvent.warning] })
        { cdaXsdPath := "CDA.xsd" } "<ClinicalDocument />" {}).1 = false ∧
    (validateMessageWithXSD
        (exampleEnvironment { events := [SAXEvent.warning, SAXEvent.warning] })
        { cdaXsdPath := "CDA.xsd" } "<ClinicalDocument />" {}).1 = true ∧
    (([SAXEvent.warning, SAXEvent.fatalError].foldl XSDValidationErrorHandler.handle
        {}).getSawErrors = true ↔
      SAXEvent.error ∈ [SAXEvent.warning, SAXEvent.fatalError] ∨
      SAXEvent.fatalError ∈ [SAXEvent.warning, SAXEvent.fatalError]) :=
  ⟨(validateMessageWithXSD_verdict [SAXEvent.warning, SAXEvent.fatalError] {}
      (exampleEnvironment { events := [SAXEvent.warning, SAXEvent.error, SAXEvent.warning] })
      { cdaXsdPath := "CDA.xsd" } "<ClinicalDocument />" {} (by decide) rfl).2.2.mpr
      (Or.inl (by decide)),
   by decide,
   (validateMessageWithXSD_verdict [SAXEvent.warning, SAXEvent.fatalError] {}
      (exampleEnvironment { events := [SAXEvent.warning, SAXEvent.error, SAXEvent.warning] })
      { cdaXsdPath := "CDA.xsd" } "<ClinicalDocument />" {} (by decide) rfl).1⟩

/-! ## End to end on empty inputs -/

/-- C14: given a fully empty patient, a fully empty study and an empty
configuration, `generateORUMessage` returns a document, one that has child
nodes and whose text is non-empty as soon as the pugixml writer emits at
least one character for a document that has a child node, in which `realmCode/@code` is `PL`, `confidentialityCode/@code`
is `N` with code system `2.16.840.1.113883.5.25` and `languageCode/@code` is
`pl-PL`; `validateMessageWithXSD` accepts it because no schema is
configured. -/
theorem generateORUMessage_empty_inputs (env : Environment) (w : World)
    (hsave : ∀ doc : XmlNode, doc.children ≠ [] → env.save doc ≠ "") :
    ∃ doc message w',
      generateORUDocument {} {} {} (env.put_time (env.now w.clockReads) "%Y%m%d%H%M%S%z")
        (generateUUID (fun k => env.draw (w.draws + k))) = some doc ∧
      doc.children ≠ [] ∧
      generateORUMessage env {} {} {} w = some (message, w') ∧
      message = env.save doc ∧ message ≠ "" ∧
      attributeAt ["ClinicalDocument", "realmCode"] "code" doc = some "PL" ∧
      attributeAt ["ClinicalDocument", "confidentialityCode"] "code" doc = some "N" ∧
      attributeAt ["ClinicalDocument", "confidentialityCode"] "codeSystem" doc
        = some "2.16.840.1.113883.5.25" ∧
      attributeAt ["ClinicalDocument", "languageCode"] "code" doc = some "pl-PL" ∧
      validateMessageWithXSD env {} message w' = (true, w') := by
  obtain ⟨f, g, v, hdoc⟩ := generateORUDocument_total {} {} {}
    (env.put_time (env.now w.clockReads) "%Y%m%d%H%M%S%z")
    (generateUUID (fun k => env.draw (w.draws + k)))
  refine ⟨_, _, _, hdoc, ?_, generateORUMessage_eq env {} {} {} w _ hdoc, rfl, ?_, ?_, ?_, ?_,
    ?_, validateMessageWithXSD_no_schema env {} _ _ rfl⟩
  · simp [assembledDocument]
  · exact hsave _ (by simp [assembledDocument])
  · rw [(attributeAt_header _ _ _ _ _ _ _ _ _).1]; rfl
  · rw [(attributeAt_header _ _ _ _ _ _ _ _ _).2.2.2.1]; rfl
  · rw [(attributeAt_header _ _ _ _ _ _ _ _ _).2.2.2.1]; rfl
  · rw [(attributeAt_header _ _ _ _ _ _ _ _ _).2.2.2.2]; rfl

theorem generateORUMessage_empty_inputs_witness :
    ∃ doc message w',
      generateORUDocument {} {} {} "20240115143000+0100"
        "aaaaaaaa-aaaa-4aaa-9aaa-aaaaaaaaaaaa" = some doc ∧
      doc.children ≠ [] ∧
      generateORUMessage (exampleEnvironment {}) {} {} {} {} = some (message, w') ∧
      message = "<ClinicalDocument />" ∧ message ≠ "" ∧
      attributeAt ["ClinicalDocument", "realmCode"] "code" doc = some "PL" ∧
      attributeAt ["ClinicalDocument", "confidentialityCode"] "code" doc = some "N" ∧
      attributeAt ["ClinicalDocument", "confidentialityCode"] "codeSystem" doc
        = some "2.16.840.1.113883.5.25" ∧
      attributeAt ["ClinicalDocument", "languageCode"] "code" doc = some "pl-PL" ∧
      validateMessageWithXSD (exampleEnvironment {}) {} message w' = (true, w') :=
  generateORUMessage_empty_inputs (exampleEnvironment {}) {}
    (fun _ _ => (by decide : ("<ClinicalDocument />" : String) ≠ ""))

/-! ## The menu loop -/

theorem generateORUMessage_world (env : Environment) (config : AppConfig) (patient : Patient)
    (study : Study) (w : World) :
    ∃ message, generateORUMessage env config patient study w
      = some (message, { w with clockReads := w.clockReads + 1, draws := w.draws + 31 }) := by
  obtain ⟨f, g, v, hdoc⟩ := generateORUDocument_total config patient study
    (env.put_time (env.now w.clockReads) "%Y%m%d%H%M%S%z")
    (generateUUID (fun k => env.draw (w.draws + k)))
  exact ⟨_, generateORUMessage_eq env config patient study w _ hdoc⟩

theorem validateMessageWithXSD_world (env : Environment) (config : AppConfig)
    (xmlMessage : String) (w : World) :
    (validateMessageWithXSD env config xmlMessage w).2.saveCalls = w.saveCalls ∧
    (validateMessageWithXSD env config xmlMessage w).2.clockReads = w.clockReads := by
  unfold validateMessageWithXSD
  split
  · exact ⟨rfl, rfl⟩
  · simp only []
    split
    · split <;> exact ⟨rfl, rfl⟩
    · exact ⟨rfl, rfl⟩

theorem generateChoice_saveCalls (env : Environment) (config : AppConfig) (st : MainState)
    (w : World) (message : String) (w1 : World) (valid : Bool) (w2 : World)
    (hgen : generateORUMessage env config st.selectedPatient st.selectedStudy w
      = some (message, w1))
    (hval : validateMessageWithXSD env config message w1 = (valid, w2)) :
    ∃ w', generateChoice env config st w = some w' ∧
      w'.saveCalls = w.saveCalls ++
        (if st.patientSelected = true ∧ st.studySelected = true ∧ message ≠ "" ∧
            valid = true ∧ config.outputPath ≠ "" then
          [⟨messageFileName config st
              (env.put_time (env.now (w.clockReads + 1)) "%Y%m%d%H%M%S"),
            message,
            env.opens (messageFileName config st
              (env.put_time (env.now (w.clockReads + 1)) "%Y%m%d%H%M%S"))⟩]
         else []) ∧
      (st.patientSelected = true ∧ st.studySelected = true ∧ message ≠ "" ∧
          valid = true ∧ config.outputPath ≠ "" → w'.clockReads = w.clockReads + 2) := by
  obtain ⟨m, hm⟩ := generateORUMessage_world env config st.selectedPatient st.selectedStudy w
  rw [hgen] at hm
  have hw1 : w1 = { w with clockReads := w.clockReads + 1, draws := w.draws + 31 } := by
    cases hm; rfl
  obtain ⟨hs2, hc2⟩ := validateMessageWithXSD_world env config message w1
  rw [hval] at hs2 hc2
  simp only at hs2 hc2
  have hs : w2.saveCalls = w.saveCalls := by rw [hs2, hw1]
  have hc : w2.clockReads = w.clockReads + 1 := by rw [hc2, hw1]
  unfold generateChoice
  by_cases hsel : st.patientSelected = true ∧ st.studySelected = true
  · by_cases hmsg : message = ""
    · simp [hsel, hgen, isEmpty_eq_decide, hmsg, hw1]
    · by_cases hv : valid = true
      · by_cases hout : config.outputPath = ""
        · simp [hsel, hgen, hval, isEmpty_eq_decide, hmsg, hv, hout, hs]
        · by_cases hopen : env.opens (messageFileName config st
            (env.put_time (env.now (w.clockReads + 1)) "%Y%m%d%H%M%S")) = true <;>
          simp [hsel, hgen, hval, isEmpty_eq_decide, hmsg, hv, hout, hs, hc,
            getCurrentTimestamp, saveMessageToFile, messageFileName] <;>
          simp_all [messageFileName]
      · simp [hsel, hgen, hval, isEmpty_eq_decide, hmsg, hv, hs]
  · have : (st.patientSelected && st.studySelected) = false := by
      cases hp : st.patientSelected <;> cases hq : st.studySelected <;> simp_all
    simp only [this, Bool.false_eq_true, if_false]
    refine ⟨w, rfl, ?_, fun h => absurd ⟨h.1, h.2.1⟩ hsel⟩
    rw [if_neg (fun h => hsel ⟨h.1, h.2.1⟩), List.append_nil]

theorem mainLoopBody_generate (env : Environment) (config : AppConfig)
    (inputLine : String) (selection : Patient × Study) (st : MainState) (w : World)
    (hin : inputLine ≠ "") (hst : stoi inputLine = StoiResult.value 2) :
    mainLoopBody env config inputLine selection st w
      = (generateChoice env config { st with choice := 2 } w).map
          (fun w' => ({ st with choice := 2 }, w')) := by
  simp [mainLoopBody, isEmpty_eq_decide, hin, hst]

theorem mainLoopBody_quiet (env : Environment) (config : AppConfig)
    (inputLine : String) (selection : Patient × Study) (st : MainState) (w : World)
    (h : ¬ (inputLine ≠ "" ∧ stoi inputLine = StoiResult.value 2)) :
    ∃ st', mainLoopBody env config inputLine selection st w = some (st', w) := by
  unfold mainLoopBody
  by_cases hin : inputLine = ""
  · exact ⟨{ st with choice := 0 }, by simp [isEmpty_eq_decide, hin]⟩
  · simp only [isEmpty_eq_decide, hin, decide_False, Bool.false_eq_true, if_false]
    cases hst : stoi inputLine with
    | invalid_argument => exact ⟨_, rfl⟩
    | out_of_range => exact ⟨_, rfl⟩
    | value n =>
      have h2 : n ≠ 2 := fun e => h ⟨hin, by rw [hst, e]⟩
      by_cases h1 : n = 1
      · simp only [h1, if_true]
        split
        · split <;> exact ⟨_, rfl⟩
        · exact ⟨_, rfl⟩
      · simp only [h1, h2, if_false]
        exact ⟨_, rfl⟩

/-- C20: in a pass of the menu loop of `main` no exception leaves `main`,
and a message is passed to `saveMessageToFile` only if it is the message just
generated and `validateMessageWithXSD` returned true for it; when validation
returns false nothing is passed to `saveMessageToFile`, and after a pass with
choice 2 the loop condition `choice != 3` still holds, so the process
continues. -/
theorem mainLoopBody_saves_only_valid (env : Environment) (config : AppConfig)
    (inputLine : String) (selection : Patient × Study) (st : MainState) (w : World) :
    ∃ st' w', mainLoopBody env config inputLine selection st w = some (st', w') ∧
      (w'.saveCalls = w.saveCalls ∨
        ∃ message w1 w2 call,
          generateORUMessage env config st.selectedPatient st.selectedStudy w
            = some (message, w1) ∧
          validateMessageWithXSD env config message w1 = (true, w2) ∧
          call.message = message ∧ w'.saveCalls = w.saveCalls ++ [call]) ∧
      (∀ message w1,
          generateORUMessage env config st.selectedPatient st.selectedStudy w
            = some (message, w1) →
          (validateMessageWithXSD env config message w1).1 = false →
          w'.saveCalls = w.saveCalls) ∧
      (inputLine ≠ "" → stoi inputLine = StoiResult.value 2 → st'.choice ≠ 3) := by
  by_cases hgo : inputLine ≠ "" ∧ stoi inputLine = StoiResult.value 2
  · obtain ⟨message, hgen⟩ :=
      generateORUMessage_world env config st.selectedPatient st.selectedStudy w
    obtain ⟨w', hw', hsave, _⟩ := generateChoice_saveCalls env config { st with choice := 2 } w
      message _ (validateMessageWithXSD env config message _).1
      (validateMessageWithXSD env config message _).2 hgen rfl
    refine ⟨{ st with choice := 2 }, w', ?_, ?_, ?_, ?_⟩
    · rw [mainLoopBody_generate env config inputLine selection st w hgo.1 hgo.2, hw']
      rfl
    · by_cases hc : st.patientSelected = true ∧ st.studySelected = true ∧ message ≠ "" ∧
          (validateMessageWithXSD env config message
            { w with clockReads := w.clockReads + 1, draws := w.draws + 31 }).1 = true ∧
          config.outputPath ≠ ""
      · right
        rw [if_pos hc] at hsave
        exact ⟨message, _, _, _, hgen, Prod.ext hc.2.2.2.1 rfl, rfl, hsave⟩
      · left
        rw [if_neg hc, List.append_nil] at hsave
        exact hsave
    · intro message' w1' hgen' hfalse
      rw [hgen] at hgen'
      cases hgen'
      rw [hsave, if_neg, List.append_nil]
      intro hc
      rw [hc.2.2.2.1] at hfalse
      exact Bool.noConfusion hfalse
    · intro _ _
      show (2 : Int) ≠ 3
      decide
  · obtain ⟨st', hst'⟩ := mainLoopBody_quiet env config inputLine selection st w hgo
    exact ⟨st', w, hst', Or.inl rfl, fun _ _ _ _ => rfl, fun h1 h2 => absurd ⟨h1, h2⟩ hgo⟩

theorem mainLoopBody_saves_only_valid_witness :
    ∃ st' w',
      mainLoopBody (exampleEnvironment { events := [SAXEvent.error] })
        { cdaXsdPath := "CDA.xsd", outputPath := "out" } "2" ({}, {}) exampleSelection {}
        = some (st', w') ∧
      w'.saveCalls = [] ∧ st'.choice ≠ 3 := by
  obtain ⟨st', w', hbody, _, hfalse, hchoice⟩ :=
    mainLoopBody_saves_only_valid (exampleEnvironment { events := [SAXEvent.error] })
      { cdaXsdPath := "CDA.xsd", outputPath := "out" } "2" ({}, {}) exampleSelection {}
  exact ⟨st', w', hbody,
    hfalse "<ClinicalDocument />" { clockReads := 1, draws := 31 } (by decide) (by decide),
    hchoice (by decide) (by decide)⟩

/-! ## The name of the saved file -/

theorem attributeAt_section_code (config : AppConfig) (patient : Patient) (study : Study)
    (effectiveTime documentIdExt f g v : String) (attr : String) :
    attributeAt ["ClinicalDocument", "component", "structuredBody", "component", "section",
        "code"] attr
        (assembledDocument config patient study effectiveTime documentIdExt f g v)
      = attributeAt ["structuredBody", "component", "section", "code"] attr
          (structuredBodyNode config study) := by
  rw [assembledDocument, attributeAt_cons, child_document, Option.some_bind, attributeAt_cons,
    child_past_header _ _ _ _ _ _ _ (by decide)]
  simp

theorem documentCodeNode_attributes (config : AppConfig) :
    (documentCodeNode config).attributeValue "code"
      = some (if config.documentCode.code = "" then "UNK" else config.documentCode.code) ∧
    (documentCodeNode config).attributeValue "codeSystem"
      = some (if config.documentCode.codeSystem = "" then "2.16.840.1.113883.5.1008"
          else config.documentCode.codeSystem) ∧
    (documentCodeNode config).attributeValue "codeSystemName"
      = some (if config.documentCode.codeSystemName = "" then "Unknown"
          else config.documentCode.codeSystemName) ∧
    (documentCodeNode config).attributeValue "displayName"
      = some (if config.documentCode.displayName = "" then "Unknown"
          else config.documentCode.displayName) := by
  refine ⟨?_, ?_, ?_, ?_⟩ <;>
    simp [documentCodeNode, attributeValue, isEmpty_eq_decide, DEFAULT_CODE,
      DEFAULT_CODESYSTEM_NULLFLAVOR, DEFAULT_STRING, DEFAULT_DISPLAYNAME]

theorem sectionCode_attributes (config : AppConfig) (study : Study) :
    attributeAt ["structuredBody", "component", "section", "code"] "code"
        (structuredBodyNode config study)
      = some (if config.reportSectionCode.code = "" then "18748-4"
          else config.reportSectionCode.code) ∧
    attributeAt ["structuredBody", "component", "section", "code"] "codeSystem"
        (structuredBodyNode config study)
      = some (if config.reportSectionCode.codeSystem = "" then "2.16.840.1.113883.6.1"
          else config.reportSectionCode.codeSystem) ∧
    attributeAt ["structuredBody", "component", "section", "code"] "codeSystemName"
        (structuredBodyNode config study)
      = some (if config.reportSectionCode.codeSystemName = "" then "LOINC"
          else config.reportSectionCode.codeSystemName) ∧
    attributeAt ["structuredBody", "component", "section", "code"] "displayName"
        (structuredBodyNode config study)
      = some (if config.reportSectionCode.displayName = ""
          then "Diagnostic Imaging Report Section"
          else config.reportSectionCode.displayName) := by
  refine ⟨?_, ?_, ?_, ?_⟩ <;>
    simp [structuredBodyNode, attributeAt, descend, child, attributeValue, isEmpty_eq_decide]

theorem confidentialityCodeNode_attributes (config : AppConfig) :
    (confidentialityCodeNode config).attributeValue "code" = some (confCodeVal config) ∧
    (confidentialityCodeNode config).attributeValue "codeSystem"
      = some (confCodeSysVal config) ∧
    (confidentialityCodeNode config).attributeValue "displayName"
      = (if config.confidentialityCode.displayName ≠ "" then
           some config.confidentialityCode.displayName
         else if confCodeSysVal config = "2.16.840.1.113883.5.25" then
           (if confCodeVal config = "N" then some "Normal"
            else if confCodeVal config = "R" then some "Restricted"
            else if confCodeVal config = "V" then some "Very Restricted"
            else none)
         else none) := by
  simp only [confidentialityCodeNode]
  generalize confCodeVal config = c
  generalize confCodeSysVal config = cs
  by_cases hd : config.confidentialityCode.displayName = ""
  · simp only [isEmpty_eq_decide, hd, DEFAULT_CONFIDENTIALITY_CODESYSTEM]
    refine ⟨?_, ?_, ?_⟩ <;> split_ifs <;> simp_all [attributeValue]
  · refine ⟨?_, ?_, ?_⟩ <;> simp [isEmpty_eq_decide, hd, attributeValue]

theorem encounterCode_attributes (config : AppConfig) (study : Study) (v : String) :
    attributeAt ["code"] "code" (encompassingEncounterNode config study v)
      = (if config.encounterTypeCode.code = "" then none
         else some config.encounterTypeCode.code) ∧
    attributeAt ["code"] "codeSystem" (encompassingEncounterNode config study v)
      = (if config.encounterTypeCode.code = "" then none
         else some (if config.encounterTypeCode.codeSystem = "" then "2.16.840.1.113883.5.1008"
           else config.encounterTypeCode.codeSystem)) ∧
    attributeAt ["code"] "displayName" (encompassingEncounterNode config study v)
      = (if config.encounterTypeCode.code = "" then none
         else some (if config.encounterTypeCode.displayName = "" then "Unknown"
           else config.encounterTypeCode.displayName)) := by
  have hloc : (locationNode config).name = "location" := by
    simp only [locationNode]; rfl
  by_cases hc : config.encounterTypeCode.code = ""
  · refine ⟨?_, ?_, ?_⟩ <;>
      simp [encompassingEncounterNode, encounterCodeNodes, isEmpty_eq_decide, hc, hloc,
        attributeAt, descend, child]
  · refine ⟨?_, ?_, ?_⟩ <;>
      simp [encompassingEncounterNode, encounterCodeNodes, isEmpty_eq_decide, hc,
        attributeAt, descend, child, attributeValue, DEFAULT_CODESYSTEM_NULLFLAVOR,
        DEFAULT_DISPLAYNAME]

theorem confCode_values (config : AppConfig) :
    confCodeVal config
      = (if config.confidentialityCode.code = "" then "N"
         else config.confidentialityCode.code) ∧
    confCodeSysVal config
      = (if config.confidentialityCode.codeSystem = "" then "2.16.840.1.113883.5.25"
         else config.confidentialityCode.codeSystem) := by
  constructor <;>
    simp [confCodeVal, confCodeSysVal, isEmpty_eq_decide, DEFAULT_CONFIDENTIALITY_CODE,
      DEFAULT_CONFIDENTIALITY_CODESYSTEM]

/-- C15, as stated, fails: with no display name configured, changing the
configured confidentiality code from empty to `X` removes the `displayName`
attribute of `confidentialityCode`, and with an encounter code system
configured, changing the configured encounter type code from empty to `AMB`
makes the `codeSystem` attribute of the encounter `code` appear. -/
theorem code_group_attributes_depend_on_code :
    (generateORUDocument {} {} {} "20240115143000+0100"
        "aaaaaaaa-aaaa-4aaa-9aaa-aaaaaaaaaaaa").bind
        (attributeAt ["ClinicalDocument", "confidentialityCode"] "displayName")
      = some "Normal" ∧
    (generateORUDocument { confidentialityCode := { code := "X" } } {} {} "20240115143000+0100"
        "aaaaaaaa-aaaa-4aaa-9aaa-aaaaaaaaaaaa").bind
        (attributeAt ["ClinicalDocument", "confidentialityCode"] "displayName")
      = none ∧
    (generateORUDocument { encounterTypeCode := { codeSystem := "2.16.840.1.113883.5.4" } }
        {} {} "20240115143000+0100" "aaaaaaaa-aaaa-4aaa-9aaa-aaaaaaaaaaaa").bind
        (attributeAt ["ClinicalDocument", "componentOf", "encompassingEncounter", "code"]
          "codeSystem")
      = none ∧
    (generateORUDocument
        { encounterTypeCode := { code := "AMB", codeSystem := "2.16.840.1.113883.5.4" } }
        {} {} "20240115143000+0100" "aaaaaaaa-aaaa-4aaa-9aaa-aaaaaaaaaaaa").bind
        (attributeAt ["ClinicalDocument", "componentOf", "encompassingEncounter", "code"]
          "codeSystem")
      = some "2.16.840.1.113883.5.4" := by
  decide

/-- C15, amended: in the document that `generateORUMessage` builds, the four
attributes of the document code and of the report section code are always
emitted and each is determined by its own configured value alone (that value,
or the built-in default of the attribute when it is empty).  For the
confidentiality code, `code` and `codeSystem` are each determined by their own
configured value alone, while `displayName` is the configured display name
when that is non-empty and is otherwise derived from the resolved code and
code system.  For the encounter type code, no attribute is emitted when the
configured code is empty; otherwise `code` is the configured code and
`codeSystem` and `displayName` are each determined by their own configured
value alone. -/
theorem generateORUDocument_code_groups (config : AppConfig) (patient : Patient)
    (study : Study) (effectiveTime documentIdExtension : String) :
    ∃ doc, generateORUDocument config patient study effectiveTime documentIdExtension = some doc ∧
      (attributeAt ["ClinicalDocument", "code"] "code" doc
          = some (if config.documentCode.code = "" then "UNK" else config.documentCode.code) ∧
        attributeAt ["ClinicalDocument", "code"] "codeSystem" doc
          = some (if config.documentCode.codeSystem = "" then "2.16.840.1.113883.5.1008"
              else config.documentCode.codeSystem) ∧
        attributeAt ["ClinicalDocument", "code"] "codeSystemName" doc
          = some (if config.documentCode.codeSystemName = "" then "Unknown"
              else config.documentCode.codeSystemName) ∧
        attributeAt ["ClinicalDocument", "code"] "displayName" doc
          = some (if config.documentCode.displayName = "" then "Unknown"
              else config.documentCode.displayName)) ∧
      (attributeAt ["ClinicalDocument", "component", "structuredBody", "component", "section",
            "code"] "code" doc
          = some (if config.reportSectionCode.code = "" then "18748-4"
              else config.reportSectionCode.code) ∧
        attributeAt ["ClinicalDocument", "component", "structuredBody", "component", "section",
            "code"] "codeSystem" doc
          = some (if config.reportSectionCode.codeSystem = "" then "2.16.840.1.113883.6.1"
              else config.reportSectionCode.codeSystem) ∧
        attributeAt ["ClinicalDocument", "component", "structuredBody", "component", "section",
            "code"] "codeSystemName" doc
          = some (if config.reportSectionCode.codeSystemName = "" then "LOINC"
              else config.reportSectionCode.codeSystemName) ∧
        attributeAt ["ClinicalDocument", "component", "structuredBody", "component", "section",
            "code"] "displayName" doc
          = some (if config.reportSectionCode.displayName = ""
              then "Diagnostic Imaging Report Section"
              else config.reportSectionCode.displayName)) ∧
      (attributeAt ["ClinicalDocument", "confidentialityCode"] "code" doc
          = some (if config.confidentialityCode.code = "" then "N"
              else config.confidentialityCode.code) ∧
        attributeAt ["ClinicalDocument", "confidentialityCode"] "codeSystem" doc
          = some (if config.confidentialityCode.codeSystem = "" then "2.16.840.1.113883.5.25"
              else config.confidentialityCode.codeSystem) ∧
        attributeAt ["ClinicalDocument", "confidentialityCode"] "displayName" doc
          = (if config.confidentialityCode.displayName ≠ "" then
               some config.confidentialityCode.displayName
             else if (if config.confidentialityCode.codeSystem = "" then "2.16.840.1.113883.5.25"
                 else config.confidentialityCode.codeSystem) = "2.16.840.1.113883.5.25" then
               (if (if config.confidentialityCode.code = "" then "N"
                   else config.confidentialityCode.code) = "N" then some "Normal"
                else if (if config.confidentialityCode.code = "" then "N"
                   else config.confidentialityCode.code) = "R" then some "Restricted"
                else if (if config.confidentialityCode.code = "" then "N"
                   else config.confidentialityCode.code) = "V" then some "Very Restricted"
                else none)
             else none)) ∧
      (attributeAt ["ClinicalDocument", "componentOf", "encompassingEncounter", "code"]
            "code" doc
          = (if config.encounterTypeCode.code = "" then none
             else some config.encounterTypeCode.code) ∧
        attributeAt ["ClinicalDocument", "componentOf", "encompassingEncounter", "code"]
            "codeSystem" doc
          = (if config.encounterTypeCode.code = "" then none
             else some (if config.encounterTypeCode.codeSystem = ""
               then "2.16.840.1.113883.5.1008" else config.encounterTypeCode.codeSystem)) ∧
        attributeAt ["ClinicalDocument", "componentOf", "encompassingEncounter", "code"]
            "displayName" doc
          = (if config.encounterTypeCode.code = "" then none
             else some (if config.encounterTypeCode.displayName = "" then "Unknown"
               else config.encounterTypeCode.displayName))) := by
  obtain ⟨f, g, v, hdoc⟩ :=
    generateORUDocument_total config patient study effectiveTime documentIdExtension
  obtain ⟨d1, d2, d3, d4⟩ := documentCodeNode_attributes config
  obtain ⟨s1, s2, s3, s4⟩ := sectionCode_attributes config study
  obtain ⟨c1, c2, c3⟩ := confidentialityCodeNode_attributes config
  obtain ⟨e1, e2, e3⟩ := encounterCode_attributes config study v
  obtain ⟨hv, hs⟩ := confCode_values config
  rw [hv] at c1 c3
  rw [hs] at c2 c3
  refine ⟨_, hdoc, ⟨?_, ?_, ?_, ?_⟩, ⟨?_, ?_, ?_, ?_⟩, ⟨?_, ?_, ?_⟩, ⟨?_, ?_, ?_⟩⟩
  · rw [(attributeAt_header _ _ _ _ _ _ _ _ _).2.1, d1]
  · rw [(attributeAt_header _ _ _ _ _ _ _ _ _).2.1, d2]
  · rw [(attributeAt_header _ _ _ _ _ _ _ _ _).2.1, d3]
  · rw [(attributeAt_header _ _ _ _ _ _ _ _ _).2.1, d4]
  · rw [attributeAt_section_code, s1]
  · rw [attributeAt_section_code, s2]
  · rw [attributeAt_section_code, s3]
  · rw [attributeAt_section_code, s4]
  · rw [(attributeAt_header _ _ _ _ _ _ _ _ _).2.2.2.1, c1]
  · rw [(attributeAt_header _ _ _ _ _ _ _ _ _).2.2.2.1, c2]
  · rw [(attributeAt_header _ _ _ _ _ _ _ _ _).2.2.2.1, c3]
  · rw [attributeAt_encounter, e1]
  · rw [attributeAt_encounter, e2]
  · rw [attributeAt_encounter, e3]

/-! ## The structured body -/

theorem last_child_append_child (n c : XmlNode) : (n.append_child c).last_child = some c := by
  simp [last_child]

/-- C21, as stated, fails: for the study description `a`, NUL, `b` the text
of the narrative paragraph is `Study Description: a`, the concatenation up to
its first NUL character, and not the whole concatenation. -/
theorem addStructuredBody_narrative_cut_at_nul :
    textOfLastChild ["structuredBody", "component", "section", "text", "paragraph"]
        (addStructuredBody {} (element "ClinicalDocument") { studyDescription := "a\x00b" })
      = some "Study Description: a" ∧
    ("Study Description: a" : String)
      ≠ "Study Description: " ++ "a\x00b" ++ ". Modality: " ++ "Unknown" ++ ". Study UID: " ++
          "Unknown" ++ "." := by
  decide

/-- C21, amended: for every study, the text of the narrative paragraph that
`addStructuredBody` emits is `"Study Description: " ++ d ++ ". Modality: " ++
m ++ ". Study UID: " ++ u ++ "."` up to its first NUL character, where `d`,
`m` and `u` are the study description, the modality and the study instance
UID, each replaced by `Unknown` on its own when it is empty; when the three
fields hold no NUL character the text is the whole concatenation. -/
theorem addStructuredBody_narrative (config : AppConfig) (parentNode : XmlNode)
    (study : Study) :
    textOfLastChild ["structuredBody", "component", "section", "text", "paragraph"]
        (addStructuredBody config parentNode study)
      = some (c_str ("Study Description: " ++
          (if study.studyDescription = "" then "Unknown" else study.studyDescription) ++
          ". Modality: " ++ (if study.modality = "" then "Unknown" else study.modality) ++
          ". Study UID: " ++
          (if study.studyInstanceUID = "" then "Unknown" else study.studyInstanceUID) ++
          ".")) ∧
    (nulFree study.studyDescription → nulFree study.modality →
      nulFree study.studyInstanceUID →
      textOfLastChild ["structuredBody", "component", "section", "text", "paragraph"]
          (addStructuredBody config parentNode study)
        = some ("Study Description: " ++
            (if study.studyDescription = "" then "Unknown" else study.studyDescription) ++
            ". Modality: " ++ (if study.modality = "" then "Unknown" else study.modality) ++
            ". Study UID: " ++
            (if study.studyInstanceUID = "" then "Unknown" else study.studyInstanceUID) ++
            ".")) := by
  have hnarrative : narrative study
      = "Study Description: " ++
          (if study.studyDescription = "" then "Unknown" else study.studyDescription) ++
          ". Modality: " ++ (if study.modality = "" then "Unknown" else study.modality) ++
          ". Study UID: " ++
          (if study.studyInstanceUID = "" then "Unknown" else study.studyInstanceUID) ++
          "." := by
    by_cases hu : study.studyInstanceUID = "" <;>
      simp [narrative, isEmpty_eq_decide, hu, DEFAULT_STRING, String.ext_iff]
  have htext : textOfLastChild ["structuredBody", "component", "section", "text", "paragraph"]
      (addStructuredBody config parentNode study) = some (c_str (narrative study)) := by
    simp [textOfLastChild, addStructuredBody, last_child_append_child, structuredBodyNode,
      textAt, descend, child]
  have hor : ∀ s : String, nulFree s → nulFree (if s = "" then "Unknown" else s) := by
    intro s hs
    split_ifs
    · decide
    · exact hs
  rw [← hnarrative]
  refine ⟨htext, fun hd hm hu => ?_⟩
  rw [htext, c_str_of_nulFree]
  rw [hnarrative]
  exact (nulFree_append _ _).2 ⟨(nulFree_append _ _).2 ⟨(nulFree_append _ _).2
    ⟨(nulFree_append _ _).2 ⟨(nulFree_append _ _).2 ⟨(nulFree_append _ _).2
      ⟨by decide, hor _ hd⟩, by decide⟩, hor _ hm⟩, by decide⟩, hor _ hu⟩, by decide⟩

/-! ## The record target -/

/-- C24, as stated, fails: for the patient ID NUL (one character) the
attribute `patientRole/id/@extension` is empty, neither the patient ID nor
`Unknown`; for the patient ID `A`, NUL, `B` it is `A`. -/
theorem addRecordTarget_extension_cut_at_nul :
    ("\x00" : String) ≠ "" ∧
    (addRecordTarget {} (element "ClinicalDocument") { patientID := "\x00" }).bind
        (attributeOfLastChild ["patientRole", "id"] "extension") = some "" ∧
    (addRecordTarget {} (element "ClinicalDocument") { patientID := "A\x00B" }).bind
        (attributeOfLastChild ["patientRole", "id"] "extension") = some "A" := by
  decide

/-- C24, amended: in `addRecordTarget`, for every patient and configuration,
`patientRole/id/@extension` is the patient ID up to its first NUL character
if the patient ID is non-empty, else `Unknown`; `id/@root` is
`config.patientIdRootOid` if non-empty, else `2.25.0.0.0.0`;
`administrativeGenderCode/@code` is the patient's sex up to its first NUL
character if the sex is non-empty, else `UNK`; its `codeSystem` is
`config.genderCodeSystem` if non-empty, else `2.16.840.1.113883.5.1008`;
`birthTime/@value` is the date of birth up to its first NUL character if the
date of birth is non-empty, else `19000101`.  A field that holds no NUL
character is written whole. -/
theorem addRecordTarget_defaults (config : AppConfig) (parentNode : XmlNode)
    (patient : Patient) :
    ∃ n, addRecordTarget config parentNode patient = some n ∧
      attributeOfLastChild ["patientRole", "id"] "extension" n
        = some (if patient.patientID = "" then "Unknown" else c_str patient.patientID) ∧
      attributeOfLastChild ["patientRole", "id"] "root" n
        = some (if config.patientIdRootOid = "" then "2.25.0.0.0.0"
            else config.patientIdRootOid) ∧
      attributeOfLastChild ["patientRole", "patient", "administrativeGenderCode"] "code" n
        = some (if patient.sex = "" then "UNK" else c_str patient.sex) ∧
      attributeOfLastChild ["patientRole", "patient", "administrativeGenderCode"]
          "codeSystem" n
        = some (if config.genderCodeSystem = "" then "2.16.840.1.113883.5.1008"
            else config.genderCodeSystem) ∧
      attributeOfLastChild ["patientRole", "patient", "birthTime"] "value" n
        = some (if patient.dateOfBirth = "" then "19000101" else c_str patient.dateOfBirth) ∧
      (nulFree patient.patientID → c_str patient.patientID = patient.patientID) ∧
      (nulFree patient.sex → c_str patient.sex = patient.sex) ∧
      (nulFree patient.dateOfBirth → c_str patient.dateOfBirth = patient.dateOfBirth) := by
  obtain ⟨f, g, hrt⟩ := recordTargetNode_total config patient
  have hadd : addRecordTarget config parentNode patient
      = some (parentNode.append_child
          ((element "recordTarget").append_child (patientRoleNode config patient f g))) := by
    simp [addRecordTarget, hrt]
  refine ⟨_, hadd, ?_, ?_, ?_, ?_, ?_, c_str_of_nulFree _, c_str_of_nulFree _,
    c_str_of_nulFree _⟩ <;>
    simp [attributeOfLastChild, last_child_append_child, patientRoleNode, attributeAt, descend,
      child, attributeValue, isEmpty_eq_decide, DEFAULT_STRING, DEFAULT_OID_ROOT, DEFAULT_CODE,
      DEFAULT_CODESYSTEM_NULLFLAVOR]

/-! ## The encounter -/

theorem addComponentOf_eq (config : AppConfig) (parentNode : XmlNode) (study : Study) :
    ∃ v, studyDateTimeLow study = some v ∧
      addComponentOf config parentNode study
        = some (parentNode.append_child
            ((element "componentOf").append_child
              (encompassingEncounterNode config study v))) := by
  obtain ⟨v, hv, _⟩ := studyDateTimeLow_length study
  exact ⟨v, hv, by simp [addComponentOf, componentOfNode, hv]⟩

theorem encounter_of_last_child (parentNode ee : XmlNode) (path : List String) (attr : String)
    (hee : ee.name = "encompassingEncounter") :
    attributeOfLastChild ("encompassingEncounter" :: path) attr
        (parentNode.append_child ((element "componentOf").append_child ee))
      = attributeAt path attr ee ∧
    nodeOfLastChild ("encompassingEncounter" :: path)
        (parentNode.append_child ((element "componentOf").append_child ee))
      = descend path ee := by
  constructor
  · simp [attributeOfLastChild, last_child_append_child, attributeAt_cons, child, hee]
  · simp [nodeOfLastChild, last_child_append_child, descend, child, hee]

theorem encounterCode_present (config : AppConfig) (study : Study) (v : String) :
    ((encompassingEncounterNode config study v).child "code").isSome
      = decide (config.encounterTypeCode.code ≠ "") := by
  have hloc : (locationNode config).name = "location" := by
    simp only [locationNode]; rfl
  by_cases hc : config.encounterTypeCode.code = "" <;>
    simp [encompassingEncounterNode, encounterCodeNodes, isEmpty_eq_decide, hc, hloc, child]

/-- C26: the `code` element of `encompassingEncounter` is optional:
`addComponentOf` emits it if and only if `config.encounterTypeCode.code` is
non-empty; when emitted, its `code` attribute is that value, its `codeSystem`
is the configured one or `2.16.840.1.113883.5.1008` when that is empty, and
its `displayName` is the configured one or `Unknown` when that is empty. -/
theorem addComponentOf_encounter_code (config : AppConfig) (parentNode : XmlNode)
    (study : Study) :
    ∃ n, addComponentOf config parentNode study = some n ∧
      ((nodeOfLastChild ["encompassingEncounter", "code"] n).isSome
        ↔ config.encounterTypeCode.code ≠ "") ∧
      attributeOfLastChild ["encompassingEncounter", "code"] "code" n
        = (if config.encounterTypeCode.code = "" then none
           else some config.encounterTypeCode.code) ∧
      attributeOfLastChild ["encompassingEncounter", "code"] "codeSystem" n
        = (if config.encounterTypeCode.code = "" then none
           else some (if config.encounterTypeCode.codeSystem = ""
             then "2.16.840.1.113883.5.1008" else config.encounterTypeCode.codeSystem)) ∧
      attributeOfLastChild ["encompassingEncounter", "code"] "displayName" n
        = (if config.encounterTypeCode.code = "" then none
           else some (if config.encounterTypeCode.displayName = "" then "Unknown"
             else config.encounterTypeCode.displayName)) := by
  obtain ⟨v, _, hadd⟩ := addComponentOf_eq config parentNode study
  obtain ⟨hname, _, _⟩ := encompassingEncounterNode_parts config study v
  obtain ⟨e1, e2, e3⟩ := encounterCode_attributes config study v
  refine ⟨_, hadd, ?_, ?_, ?_, ?_⟩
  · rw [(encounter_of_last_child parentNode _ ["code"] "code" hname).2]
    have hp := encounterCode_present config study v
    simp only [descend, Option.bind_some] at hp ⊢
    cases hc : (encompassingEncounterNode config study v).child "code" <;>
      simp_all
  · rw [(encounter_of_last_child parentNode _ ["code"] "code" hname).1, e1]
  · rw [(encounter_of_last_child parentNode _ ["code"] "codeSystem" hname).1, e2]
  · rw [(encounter_of_last_child parentNode _ ["code"] "displayName" hname).1, e3]

/-- C28, as stated, fails: for the study date `2024`, NUL, `115` and the
study time `143` the low value is `2024`, the text before the NUL, and not
the date followed by `000000`. -/
theorem addComponentOf_low_short_time_cut_at_nul :
    (addComponentOf {} (element "ClinicalDocument")
        { studyDate := "2024\x00115", studyTime := "143" }).bind encounterLowValue
      = some "2024" ∧
    dateOrDefault { studyDate := "2024\x00115", studyTime := "143" } ++ "000000"
      = "2024\x00115000000" ∧
    ("2024" : String) ≠ "2024\x00115000000" := by
  decide

/-- C28, amended: in `addComponentOf`, a study time of 1, 2 or 3 characters
is discarded: the low value is `D ++ "000000"` up to its first NUL character,
`D` being the study date or `19000101` when that is empty, which is the low
value of the same study with an empty study time, so no character of the
study time reaches it; when the study date holds no NUL character the low
value is `D ++ "000000"` itself. -/
theorem addComponentOf_low_short_time (config : AppConfig) (parentNode : XmlNode)
    (study : Study) (h1 : 1 ≤ study.studyTime.length) (h3 : study.studyTime.length ≤ 3) :
    (addComponentOf config parentNode study).bind encounterLowValue
      = some (c_str (dateOrDefault study ++ "000000")) ∧
    (addComponentOf config parentNode study).bind encounterLowValue
      = (addComponentOf config parentNode { study with studyTime := "" }).bind
          encounterLowValue ∧
    (nulFree study.studyDate →
      (addComponentOf config parentNode study).bind encounterLowValue
        = some (dateOrDefault study ++ "000000")) := by
  have hshort := studyDateTimeLow_short study (by omega)
  have hempty := studyDateTimeLow_short { study with studyTime := "" }
    (show ("" : String).length < 4 by decide)
  rw [encounterLowValue_addComponentOf, encounterLowValue_addComponentOf, hshort, hempty]
  refine ⟨rfl, rfl, fun hd => ?_⟩
  rw [Option.map_some', c_str_of_nulFree _
    ((nulFree_append _ _).2 ⟨nulFree_dateOrDefault study hd, by decide⟩)]

theorem addComponentOf_low_short_time_witness :
    ((addComponentOf {} (element "ClinicalDocument")
        { studyDate := "20240115", studyTime := "143" }).bind encounterLowValue
      = some "20240115000000" ∧
     (addComponentOf {} (element "ClinicalDocument")
        { studyDate := "20240115", studyTime := "143" }).bind encounterLowValue
      = (addComponentOf {} (element "ClinicalDocument")
          { studyDate := "20240115", studyTime := "" }).bind encounterLowValue) ∧
    (addComponentOf {} (element "ClinicalDocument")
        { studyDate := "", studyTime := "9" }).bind encounterLowValue
      = some "19000101000000" :=
  ⟨⟨(addComponentOf_low_short_time {} (element "ClinicalDocument")
      { studyDate := "20240115", studyTime := "143" } (by decide) (by decide)).2.2 (by decide),
    (addComponentOf_low_short_time {} (element "ClinicalDocument")
      { studyDate := "20240115", studyTime := "143" } (by decide) (by decide)).2.1⟩,
   (addComponentOf_low_short_time {} (element "ClinicalDocument")
      { studyDate := "", studyTime := "9" } (by decide) (by decide)).2.2 (by decide)⟩

/-! ## Totality of the builders -/

/-- C22: subtree construction is total.  For every patient name and every
study date and time, each `substr` call of `addRecordTarget` and
`addComponentOf` starts within its string (the two calls of the name split at
a found space, the two calls of the time synthesis under their length
guards), so the name parts and the low value are always produced, both
builders return a tree and `generateORUMessage` returns a document. -/
theorem builders_total (env : Environment) (config : AppConfig) (parentNode : XmlNode)
    (patient : Patient) (study : Study) (w : World) :
    (∀ space_pos, find patient.name ' ' = some space_pos →
      (substr patient.name 0 space_pos).isSome = true ∧
      (substrFrom patient.name (space_pos + 1)).isSome = true) ∧
    (4 ≤ study.studyTime.length → (substr study.studyTime 0 4).isSome = true) ∧
    (6 ≤ study.studyTime.length → (substr study.studyTime 4 2).isSome = true) ∧
    (∃ f g v, familyName patient = some f ∧ givenName patient = some g ∧
      studyDateTimeLow study = some v) ∧
    (∃ n, addRecordTarget config parentNode patient = some n) ∧
    (∃ n, addComponentOf config parentNode study = some n) ∧
    (∃ message w', generateORUMessage env config patient study w = some (message, w')) := by
  obtain ⟨f, hf⟩ := familyName_total patient
  obtain ⟨g, hg⟩ := givenName_total patient
  obtain ⟨v, hv, hadd⟩ := addComponentOf_eq config parentNode study
  obtain ⟨message, hgen⟩ := generateORUMessage_world env config patient study w
  refine ⟨?_, ?_, ?_, ⟨f, g, v, hf, hg, hv⟩, ⟨_, by simp [addRecordTarget, recordTargetNode, hf, hg]; rfl⟩,
    ⟨_, hadd⟩, ⟨_, _, hgen⟩⟩
  · intro space_pos hfind
    have hlt : space_pos < patient.name.length := findChar_lt_length ' ' _ _ hfind
    have h1 : ¬ space_pos + 1 > patient.name.length := by omega
    simp [substr, substrFrom, h1]
  · intro h4
    simp [substr]
  · intro h6
    have h : ¬ study.studyTime.length < 4 := by omega
    simp [substr, h]

/-! ## Validation does not remember -/

/-- C23: validation is idempotent.  The verdict of `validateMessageWithXSD`
is computed from a fresh error handler, whose flag is false, and the run of
the parser on the message; hence a second call on the same document returns
the verdict of the first, and an earlier validation of any document, failed
or not, does not change the verdict of a later call. -/
theorem validateMessageWithXSD_idempotent (env : Environment) (config : AppConfig)
    (xmlMessage earlier : String) (w : World) :
    (validateMessageWithXSD env config xmlMessage w).1
      = (if config.cdaXsdPath = "" then true
         else
           match (env.parse ("urn:hl7-org:v3 " ++ config.cdaXsdPath) xmlMessage).thrown with
           | none =>
             !((env.parse ("urn:hl7-org:v3 " ++ config.cdaXsdPath) xmlMessage).events.foldl
                 XSDValidationErrorHandler.handle { fSawErrors := false }).getSawErrors
           | some _ => false) ∧
    (validateMessageWithXSD env config xmlMessage
        (validateMessageWithXSD env config xmlMessage w).2).1
      = (validateMessageWithXSD env config xmlMessage w).1 ∧
    (validateMessageWithXSD env config xmlMessage
        (validateMessageWithXSD env config earlier w).2).1
      = (validateMessageWithXSD env config xmlMessage w).1 := by
  have hverdict : ∀ w0 : World, (validateMessageWithXSD env config xmlMessage w0).1
      = (if config.cdaXsdPath = "" then true
         else
           match (env.parse ("urn:hl7-org:v3 " ++ config.cdaXsdPath) xmlMessage).thrown with
           | none =>
             !((env.parse ("urn:hl7-org:v3 " ++ config.cdaXsdPath) xmlMessage).events.foldl
                 XSDValidationErrorHandler.handle { fSawErrors := false }).getSawErrors
           | some _ => false) := by
    intro w0
    by_cases hs : config.cdaXsdPath = ""
    · simp [validateMessageWithXSD, isEmpty_eq_decide, hs]
    · simp only [validateMessageWithXSD, isEmpty_eq_decide, hs, decide_False,
        Bool.false_eq_true, if_false]
      cases (env.parse ("urn:hl7-org:v3 " ++ config.cdaXsdPath) xmlMessage).thrown with
      | none =>
        simp only []
        cases (List.foldl XSDValidationErrorHandler.handle { fSawErrors := false }
          (env.parse ("urn:hl7-org:v3 " ++ config.cdaXsdPath) xmlMessage).events).getSawErrors <;>
          simp
      | some e => rfl
  exact ⟨hverdict w, by rw [hverdict, hverdict w], by rw [hverdict, hverdict w]⟩

/-! ## The confidentiality display name -/

/-- C27: in `addHeader`, the `displayName` attribute of `confidentialityCode`
is the configured display name when that is non-empty; otherwise, when the
resolved code system equals `2.16.840.1.113883.5.25`, it is `Normal`,
`Restricted` or `Very Restricted` for the resolved code `N`, `R` or `V`; in
every other case (another code, or another code system) there is no
`displayName` attribute. -/
theorem addHeader_confidentiality_displayName (config : AppConfig) (patient : Patient)
    (study : Study) (effectiveTime documentIdExt : String) :
    attributeAt ["ClinicalDocument", "confidentialityCode"] "displayName"
        (addHeader config (newDocument config) patient study effectiveTime documentIdExt)
      = (if config.confidentialityCode.displayName ≠ "" then
           some config.confidentialityCode.displayName
         else if (if config.confidentialityCode.codeSystem = "" then "2.16.840.1.113883.5.25"
             else config.confidentialityCode.codeSystem) = "2.16.840.1.113883.5.25" then
           (if (if config.confidentialityCode.code = "" then "N"
               else config.confidentialityCode.code) = "N" then some "Normal"
            else if (if config.confidentialityCode.code = "" then "N"
               else config.confidentialityCode.code) = "R" then some "Restricted"
            else if (if config.confidentialityCode.code = "" then "N"
               else config.confidentialityCode.code) = "V" then some "Very Restricted"
            else none)
         else none) := by
  have hchild := (child_header config study effectiveTime documentIdExt
    (clinicalDocumentAttributes config) []).2.2.2.1
  rw [List.append_nil] at hchild
  obtain ⟨_, _, c3⟩ := confidentialityCodeNode_attributes config
  obtain ⟨hv, hs⟩ := confCode_values config
  rw [hv, hs] at c3
  rw [addHeader_newDocument, attributeAt_cons, child_document, Option.some_bind,
    attributeAt_cons, hchild, Option.some_bind, attributeAt_nil, c3]

/-! ## The search term -/

/-- C25 does not hold on the code: the characters that `displayPatientSearch`
strips are the space, the backslash and the letters `t`, `n`, `r`, `f`, `v`,
so the term `trent`, which neither starts nor ends with white space, becomes
`e`, while a trailing tab is kept. -/
theorem trimmedSearchTerm_trent :
    trimCharacters.data = [' ', '\\', 't', '\\', 'n', '\\', 'r', '\\', 'f', '\\', 'v'] ∧
    trimmedSearchTerm "trent" = some "e" ∧
    withoutOuterWhitespace "trent" = "trent" ∧
    trimmedSearchTerm "smith\t" = some "smith\t" ∧
    withoutOuterWhitespace "smith\t" = "smith" := by
  decide

/-! ## The selection flags of the menu loop -/

theorem mainLoopBody_selectionConsistent (env : Environment) (config : AppConfig)
    (inputLine : String) (selection : Patient × Study) (st : MainState) (w : World)
    (st' : MainState) (w' : World) (hinv : selectionConsistent st)
    (h : mainLoopBody env config inputLine selection st w = some (st', w')) :
    selectionConsistent st' := by
  by_cases hgen : inputLine ≠ "" ∧ stoi inputLine = StoiResult.value 2
  · rw [mainLoopBody_generate env config inputLine selection st w hgen.1 hgen.2] at h
    simp only [Option.map_eq_some'] at h
    obtain ⟨w1, _, heq⟩ := h
    cases heq
    exact hinv
  · unfold mainLoopBody at h
    by_cases hin : inputLine = ""
    · simp only [isEmpty_eq_decide, hin, decide_True, if_true] at h
      cases h
      exact hinv
    · simp only [isEmpty_eq_decide, hin, decide_False, Bool.false_eq_true, if_false] at h
      cases hst : stoi inputLine with
      | invalid_argument =>
        rw [hst] at h
        cases h
        exact hinv
      | out_of_range =>
        rw [hst] at h
        cases h
        exact hinv
      | value n =>
        rw [hst] at h
        have h2 : n ≠ 2 := fun e => hgen ⟨hin, by rw [hst, e]⟩
        by_cases h1 : n = 1
        · simp only [h1, if_true] at h
          by_cases hp : selection.1.patientID = ""
          · simp only [hp, decide_True, Bool.not_true, Bool.false_eq_true, if_false] at h
            cases h
            exact ⟨fun hf => Bool.noConfusion hf, fun hf => Bool.noConfusion hf,
              fun hf => Bool.noConfusion hf⟩
          · simp only [hp, decide_False, Bool.not_false, if_true] at h
            by_cases hs : selection.2.studyInstanceUID = ""
            · simp only [hs, decide_True, Bool.not_true, Bool.false_eq_true, if_false] at h
              cases h
              exact ⟨fun hf => Bool.noConfusion hf, fun _ => hp, fun hf => Bool.noConfusion hf⟩
            · simp only [hs, decide_False, Bool.not_false, if_true] at h
              cases h
              exact ⟨fun _ => rfl, fun _ => hp, fun _ => hs⟩
        · simp only [h1, h2, if_false] at h
          cases h
          exact hinv

theorem mainLoop_selectionConsistent (env : Environment) (config : AppConfig)
    (inputs : List (String × (Patient × Study))) (st0 : MainState) (w0 : World)
    (st : MainState) (w : World) (hinv : selectionConsistent st0)
    (h : mainLoop env config inputs st0 w0 = some (st, w)) :
    selectionConsistent st := by
  induction inputs generalizing st0 w0 with
  | nil =>
    simp only [mainLoop] at h
    cases h
    exact hinv
  | cons x rest ih =>
    obtain ⟨inputLine, selection⟩ := x
    simp only [mainLoop] at h
    split_ifs at h with hc
    · cases hb : mainLoopBody env config inputLine selection st0 w0 with
      | none =>
        rw [hb] at h
        cases h
      | some r =>
        obtain ⟨st1, w1⟩ := r
        rw [hb] at h
        exact ih st1 w1
          (mainLoopBody_selectionConsistent env config inputLine selection st0 w0 st1 w1 hinv hb)
          h
    · cases h
      exact hinv

theorem mainLoopBody_unselected (env : Environment) (config : AppConfig)
    (inputLine : String) (selection : Patient × Study) (st : MainState) (w : World)
    (st' : MainState) (w' : World)
    (hsel : ¬ (st.patientSelected = true ∧ st.studySelected = true))
    (h : mainLoopBody env config inputLine selection st w = some (st', w')) :
    w' = w := by
  by_cases hgen : inputLine ≠ "" ∧ stoi inputLine = StoiResult.value 2
  · rw [mainLoopBody_generate env config inputLine selection st w hgen.1 hgen.2] at h
    have hflags : (st.patientSelected && st.studySelected) = false := by
      cases hp : st.patientSelected <;> cases hq : st.studySelected <;> simp_all
    have hw : generateChoice env config { st with choice := 2 } w = some w := by
      unfold generateChoice
      simp only [hflags, Bool.false_eq_true, if_false]
      rfl
    rw [hw] at h
    cases h
    rfl
  · obtain ⟨st1, hst1⟩ := mainLoopBody_quiet env config inputLine selection st w hgen
    rw [hst1] at h
    cases h
    rfl

/-- C29: in every state that the menu loop of `main` reaches from the initial
state of `main`, `studySelected` implies `patientSelected`, `patientSelected`
holds only if `selectedPatient.patientID` is not empty and `studySelected`
only if `selectedStudy.studyInstanceUID` is not empty.  Hence a pass of the
loop from such a state with an empty patient ID or an empty study instance
UID leaves the world as it was, while every call of `generateORUMessage`
reads the clock: `generateORUMessage` is not invoked with an empty patient ID
or study instance UID. -/
theorem mainLoop_selection_invariant (env : Environment) (config : AppConfig)
    (inputs : List (String × (Patient × Study))) (w0 : World) (st : MainState) (w : World)
    (h : mainLoop env config inputs {} w0 = some (st, w)) :
    (st.studySelected = true → st.patientSelected = true) ∧
    (st.patientSelected = true → st.selectedPatient.patientID ≠ "") ∧
    (st.studySelected = true → st.selectedStudy.studyInstanceUID ≠ "") ∧
    (∀ inputLine selection st' w',
      mainLoopBody env config inputLine selection st w = some (st', w') →
      st.selectedPatient.patientID = "" ∨ st.selectedStudy.studyInstanceUID = "" →
      w' = w) ∧
    (∀ patient study w1 message w2,
      generateORUMessage env config patient study w1 = some (message, w2) →
      w2.clockReads = w1.clockReads + 1) := by
  have hinit : selectionConsistent {} :=
    ⟨fun hf => Bool.noConfusion hf, fun hf => Bool.noConfusion hf,
      fun hf => Bool.noConfusion hf⟩
  obtain ⟨h1, h2, h3⟩ := mainLoop_selectionConsistent env config inputs {} w0 st w hinit h
  refine ⟨h1, h2, h3, ?_, ?_⟩
  · intro inputLine selection st' w' hbody hempty
    refine mainLoopBody_unselected env config inputLine selection st w st' w' ?_ hbody
    rintro ⟨hp, hs⟩
    rcases hempty with he | he
    · exact h2 hp he
    · exact h3 hs he
  · intro patient study w1 message w2 hgen
    obtain ⟨m, hm⟩ := generateORUMessage_world env config patient study w1
    rw [hgen] at hm
    cases hm
    rfl

theorem mainLoop_selection_invariant_witness :
    mainLoop (exampleEnvironment {}) { outputPath := "out" }
        [("1", (exampleSelection.selectedPatient, exampleSelection.selectedStudy))] {} {}
      = some (exampleSelection, {}) ∧
    exampleSelection.selectedPatient.patientID ≠ "" ∧
    exampleSelection.selectedStudy.studyInstanceUID ≠ "" :=
  have hrun : mainLoop (exampleEnvironment {}) { outputPath := "out" }
      [("1", (exampleSelection.selectedPatient, exampleSelection.selectedStudy))] {} {}
      = some (exampleSelection, {}) := by decide
  ⟨hrun,
    (mainLoop_selection_invariant (exampleEnvironment {}) { outputPath := "out" }
      [("1", (exampleSelection.selectedPatient, exampleSelection.selectedStudy))] {}
      exampleSelection {} hrun).2.1 rfl,
    (mainLoop_selection_invariant (exampleEnvironment {}) { outputPath := "out" }
      [("1", (exampleSelection.selectedPatient, exampleSelection.selectedStudy))] {}
      exampleSelection {} hrun).2.2.1 rfl⟩

/-! ## The sending application of the configuration -/

theorem getNodeText_eq (node : Option ConfigNode) (defaultValue : String) :
    getNodeText node defaultValue =
      (match ConfigNode.first_child node with
       | some (ConfigNode.pcdata text) => text
       | _ => defaultValue) := by
  cases node with
  | none => rfl
  | some n =>
    cases n with
    | pcdata v => rfl
    | cdata v => rfl
    | element name attrs cs =>
      cases cs with
      | nil => rfl
      | cons c rest =>
        cases c with
        | pcdata v => rfl
        | cdata v => rfl
        | element name1 attrs1 cs1 => rfl

theorem loadDatabase_defaultSendingApplication (rootNode : Option ConfigNode)
    (appConfig : AppConfig) :
    (loadDatabase rootNode appConfig).defaultSendingApplication
      = appConfig.defaultSendingApplication := by
  simp only [loadDatabase]
  split_ifs <;> rfl

theorem loadGeneralSettings_defaultSendingApplication (rootNode : Option ConfigNode)
    (appConfig : AppConfig) :
    (loadGeneralSettings rootNode appConfig).defaultSendingApplication =
      (match (if (ConfigNode.namedChild rootNode "GeneralSettings").isSome then
            ConfigNode.namedChild rootNode "GeneralSettings"
          else ConfigNode.namedChild rootNode "hl7") with
       | some generalNode =>
         getNodeText (ConfigNode.namedChild (some generalNode) "DefaultSendingApplication") ""
       | none => appConfig.defaultSendingApplication) := by
  simp only [loadGeneralSettings]
  generalize (if (ConfigNode.namedChild rootNode "GeneralSettings").isSome then
      ConfigNode.namedChild rootNode "GeneralSettings"
    else ConfigNode.namedChild rootNode "hl7") = generalNode
  cases generalNode with
  | none => rfl
  | some g => rfl

theorem loadHL7Defaults_defaultSendingApplication (rootNode : Option ConfigNode)
    (appConfig : AppConfig) :
    (loadHL7Defaults rootNode appConfig).defaultSendingApplication =
      (match ConfigNode.namedChild rootNode "HL7Defaults" with
       | some hl7DefaultsNode =>
         getNodeText (ConfigNode.namedChild (some hl7DefaultsNode) "SendingApplication")
           "DefaultSender"
       | none => appConfig.defaultSendingApplication) := by
  simp only [loadHL7Defaults]
  cases ConfigNode.namedChild rootNode "HL7Defaults" with
  | none => rfl
  | some h => rfl

theorem laterBlocks_defaultSendingApplication (rootNode : Option ConfigNode)
    (appConfig : AppConfig) :
    (loadReportSection rootNode (loadLocation rootNode (loadEncounter rootNode
      (loadCustodian rootNode (loadAuthor rootNode (loadTemplateIds rootNode
        (loadKeyOIDs rootNode
          (loadOrganizationDetails rootNode appConfig)))))))).defaultSendingApplication
      = appConfig.defaultSendingApplication := by
  have h1 : ∀ c, (loadReportSection rootNode c).defaultSendingApplication
      = c.defaultSendingApplication := by
    intro c
    simp only [loadReportSection]
    split_ifs <;> rfl
  have h2 : ∀ c, (loadLocation rootNode c).defaultSendingApplication
      = c.defaultSendingApplication := by
    intro c
    simp only [loadLocation]
    split_ifs <;> rfl
  have h3 : ∀ c, (loadEncounter rootNode c).defaultSendingApplication
      = c.defaultSendingApplication := by
    intro c
    simp only [loadEncounter]
    split_ifs <;> rfl
  have h4 : ∀ c, (loadCustodian rootNode c).defaultSendingApplication
      = c.defaultSendingApplication := by
    intro c
    simp only [loadCustodian]
    split_ifs <;> rfl
  have h5 : ∀ c, (loadAuthor rootNode c).defaultSendingApplication
      = c.defaultSendingApplication := by
    intro c
    simp only [loadAuthor]
    split_ifs <;> rfl
  have h6 : ∀ c, (loadTemplateIds rootNode c).defaultSendingApplication
      = c.defaultSendingApplication := by
    intro c
    simp only [loadTemplateIds]
    split_ifs <;> rfl
  have h7 : ∀ c, (loadKeyOIDs rootNode c).defaultSendingApplication
      = c.defaultSendingApplication := by
    intro c
    simp only [loadKeyOIDs]
    split_ifs <;> rfl
  have h8 : ∀ c, (loadOrganizationDetails rootNode c).defaultSendingApplication
      = c.defaultSendingApplication := by
    intro c
    simp only [loadOrganizationDetails]
    split_ifs <;> rfl
  rw [h1, h2, h3, h4, h5, h6, h7, h8]

/-- C30, as stated, fails: in a configuration whose
`HL7Defaults/SendingApplication` holds its text `PACS` in a CDATA section,
the element is present and has text, yet `loadConfig` sets
`defaultSendingApplication` to `DefaultSender`; with the same text as plain
character data it is `PACS`. -/
theorem loadConfig_cdata_sending_application :
    ConfigNode.child_value
        (ConfigNode.namedChild
          (ConfigNode.namedChild (rootNodeOf (some cdataConfigDocument)) "HL7Defaults")
          "SendingApplication") = "PACS" ∧
    (loadConfig (some cdataConfigDocument) {}).1 = true ∧
    (loadConfig (some cdataConfigDocument) {}).2.appConfig.defaultSendingApplication
      = "DefaultSender" ∧
    (loadConfig (some plainConfigDocument) {}).2.appConfig.defaultSendingApplication
      = "PACS" := by
  decide

/-- C30, amended: when `loadConfig` finds a root, it succeeds, and if the
root has an `HL7Defaults` element, `defaultSendingApplication` is the text of
`HL7Defaults/SendingApplication` when the first child node of that element is
a PCDATA node, and `DefaultSender` otherwise (the element is missing, is
empty, or starts with a CDATA section or a child element), whatever was read
from `GeneralSettings/DefaultSendingApplication` before; only when there is
no `HL7Defaults` element is it the value that the general settings left: the
text of `DefaultSendingApplication` under `GeneralSettings` (or else `hl7`)
if that element exists, the value from before the load if not. -/
theorem loadConfig_defaultSendingApplication (doc rootNode : ConfigNode) (cm : ConfigManager)
    (hroot : rootNodeOf (some doc) = some rootNode) :
    (loadConfig (some doc) cm).1 = true ∧
    (loadConfig (some doc) cm).2.appConfig.defaultSendingApplication =
      (match ConfigNode.namedChild (some rootNode) "HL7Defaults" with
       | some hl7DefaultsNode =>
         match ConfigNode.first_child
             (ConfigNode.namedChild (some hl7DefaultsNode) "SendingApplication") with
         | some (ConfigNode.pcdata text) => text
         | _ => "DefaultSender"
       | none =>
         match (if (ConfigNode.namedChild (some rootNode) "GeneralSettings").isSome then
               ConfigNode.namedChild (some rootNode) "GeneralSettings"
             else ConfigNode.namedChild (some rootNode) "hl7") with
         | some generalNode =>
           getNodeText (ConfigNode.namedChild (some generalNode) "DefaultSendingApplication") ""
         | none => cm.appConfig.defaultSendingApplication) := by
  have hload : loadConfig (some doc) cm = (true, { cm with
      appConfig := loadReportSection (some rootNode) (loadLocation (some rootNode)
        (loadEncounter (some rootNode) (loadCustodian (some rootNode)
          (loadAuthor (some rootNode) (loadTemplateIds (some rootNode)
            (loadKeyOIDs (some rootNode) (loadOrganizationDetails (some rootNode)
              (loadHL7Defaults (some rootNode) (loadGeneralSettings (some rootNode)
                (loadDatabase (some rootNode) cm.appConfig)))))))))),
      loaded := true }) := by
    simp only [loadConfig, hroot, Option.isSome_some, if_true]
  rw [hload]
  refine ⟨rfl, ?_⟩
  show (loadReportSection (some rootNode) _).defaultSendingApplication = _
  rw [laterBlocks_defaultSendingApplication, loadHL7Defaults_defaultSendingApplication]
  cases ConfigNode.namedChild (some rootNode) "HL7Defaults" with
  | some h =>
    simp only []
    rw [getNodeText_eq]
  | none =>
    simp only []
    rw [loadGeneralSettings_defaultSendingApplication,
      loadDatabase_defaultSendingApplication]

theorem loadConfig_defaultSendingApplication_witness :
    rootNodeOf (some plainConfigDocument)
      = some (ConfigNode.element "HL7Config" []
          [ConfigNode.element "GeneralSettings" []
            [ConfigNode.element "DefaultSendingApplication" [] [ConfigNode.pcdata "GeneralApp"]],
           ConfigNode.element "HL7Defaults" []
            [ConfigNode.element "SendingApplication" [] [ConfigNode.pcdata "PACS"]]]) ∧
    (loadConfig (some plainConfigDocument) {}).2.appConfig.defaultSendingApplication = "PACS" :=
  ⟨rfl,
    (loadConfig_defaultSendingApplication plainConfigDocument
      (ConfigNode.element "HL7Config" []
        [ConfigNode.element "GeneralSettings" []
          [ConfigNode.element "DefaultSendingApplication" [] [ConfigNode.pcdata "GeneralApp"]],
         ConfigNode.element "HL7Defaults" []
          [ConfigNode.element "SendingApplication" [] [ConfigNode.pcdata "PACS"]]]) {} rfl).2⟩

end SimHL7
